import Mathlib

set_option maxRecDepth 10000
set_option maxHeartbeats 1000000

/-! Shallow embedding of the Project Squall battle server core
(`app/main.py`, `app/engine/models.py`, `app/engine/factory.py`,
`app/engine/effects/resolver.py`), together with theorems checking the
natural-language specification against it.

Serialized game state lives in nested dicts in the source; here each dict
shape becomes a structure whose fields are the keys the engine reads.
Optional dict keys become `Option` fields; string keys whose absence the
source treats as Python-falsy become `String` fields where the empty string
stands for the absent key.  External collaborators (Supabase persistence,
the card-variant lookup, `random.shuffle`) are modeled as explicit
parameters: persistence as a `MatchRow` value threaded through endpoint
step functions, the rest inside `Env`. -/

namespace Squall

/-- Card kinds, from `models.CardType`.  The serialized `card_type` value is a
string; the source also tolerates the legacy numeric aliases (`2`/`"2"` for
spells, `3`/`"3"` for traps), which denote the same kinds and are collapsed
into the enum here. -/
inductive CardType where
  | monster
  | spell
  | trap
  | hero
deriving DecidableEq, Repr

/-- One status entry on a card: the dict
`{code, duration_type, duration_value?, on_expire?}`.  The source also
tolerates a legacy plain-string form which it normalizes to
`{code, duration_type: PERMANENT}`; the normalized form is used here. -/
structure StatusEntry where
  code : String
  durationType : String := "PERMANENT"
  durationValue : Option Int := none
  onExpire : Option String := none
deriving DecidableEq, Repr

/-- One `{keyword, ...params}` entry of a card's `effect_params.effects` list.
Absent dict keys are `none` / the empty string / the handler's default.
Historical parameter aliases that the source merges with `or`-chains
(`atk_increase`/`amount_atk`/`atk_delta`, `hp_increase`/`amount_hp`/`hp_delta`,
`status_code`/`status`) are collapsed into one canonical field each. -/
structure EffectEntry where
  keyword : String := ""
  trigger : String := ""
  triggerCondition : String := ""
  amount : Option Int := none
  count : Option Int := none
  overflowToPlayer : Bool := false
  statusCode : String := ""
  durationType : String := "PERMANENT"
  durationValue : Option Int := none
  atkIncrease : Int := 0
  hpIncrease : Int := 0
  targetAll : Bool := false
  target : String := ""
  reflectSpell : Option Bool := none
  reflectAlias : Option Bool := none
  reflectDamage : Bool := true
  damageAmount : Option Int := none
  preventDestructionHp : Int := 1
  percentage : Int := 100
  chargeCost : Int := 3
  ifTargetHpGt : Int := 200
  buffLowestAllyHpIncrease : Int := 100
  targetFaceUp : Bool := true
deriving DecidableEq, Repr

/-- A hero `passive_aura` payload: flat ATK/HP additions. -/
structure HeroAura where
  atkIncrease : Int := 0
  hpIncrease : Int := 0
deriving DecidableEq, Repr

/-- A hero passive descriptor `{keyword, amount}` (used for
`passive_end_turn` and `passive_on_monster_death`). -/
structure HeroPassive where
  keyword : String := ""
  amount : Int := 0
deriving DecidableEq, Repr

/-- The `effect_params` payload of a card: the keys the engine reads.  The
source sometimes stores this as a JSON string and parses it on access; the
parsed form is used here. -/
structure EffectParams where
  effects : List EffectEntry := []
  trigger : String := ""
  passiveAura : Option HeroAura := none
  activeAbility : Option EffectEntry := none
  passiveEndTurn : Option HeroPassive := none
  passiveOnMonsterDeath : Option HeroPassive := none
deriving DecidableEq, Repr

/-- A serialized card instance, from `models.CardInstance` /
`card_instance_to_dict`.  Display-only fields (description, art reference,
flavor text, rules text) carry no behavior and are omitted. -/
structure Card where
  instanceId : String := ""
  cardCode : String := ""
  name : String := ""
  cardType : CardType := .monster
  stars : Int := 0
  atk : Int := 0
  hp : Int := 0
  maxHp : Int := 0
  elementId : Option Int := none
  faceDown : Bool := true
  canAttack : Bool := false
  summonedTurn : Option Int := none
  statuses : List StatusEntry := []
  effectTags : List String := []
  effectParams : EffectParams := {}
  heroCharges : Int := 0
deriving DecidableEq, Repr

/-- A structured log-event dict.  Only the payload keys that some later code
reads back (`type`, `hp_before`, `player_index`, `reflect_spell`, ...) are
modeled; purely display payload keys are dropped. -/
structure LogEvent where
  type : String
  player : Option Int := none
  zone : Option Int := none
  amount : Option Int := none
  hpBefore : Option Int := none
  hpAfter : Option Int := none
  keyword : Option String := none
  reflectSpell : Option Bool := none
  cancelled : Option Bool := none
  winner : Option Int := none
  reason : Option String := none
  cardInstanceId : Option String := none
deriving DecidableEq, Repr

/-- One side of a match, from `models.PlayerState` / the serialized player
dict.  `active_element` is the key the hero-summon path stores on the player
dict. -/
structure PlayerState where
  playerIndex : Int := 1
  name : String := ""
  hp : Int := 1500
  deck : List Card := []
  hand : List Card := []
  monsterZones : List (Option Card) := [none, none, none, none]
  spellTrapZones : List (Option Card) := [none, none, none, none]
  hero : Option Card := none
  graveyard : List Card := []
  exile : List Card := []
  heroCharges : Int := 0
  activeElement : Option Int := none
deriving DecidableEq, Repr

/-- Per-player per-turn usage counters, the `turn_state` entry
`{summons, spells_traps, hero_ability, turn}`. -/
structure TurnCounters where
  summons : Int := 0
  spellsTraps : Int := 0
  heroAbility : Int := 0
  turn : Int := 0
deriving DecidableEq, Repr

/-- The serialized game state.  The players dict has exactly the keys
`"1"` and `"2"` (in that insertion order), modeled as two fields; the
`turn_state` dict likewise. -/
structure GameState where
  matchId : String := ""
  turn : Int := 1
  currentPlayer : Int := 1
  phase : String := "start"
  status : String := "in_progress"
  winner : Option Int := none
  player1 : PlayerState := {}
  player2 : PlayerState := {}
  turnState1 : Option TurnCounters := none
  turnState2 : Option TurnCounters := none
  log : List LogEvent := []
deriving DecidableEq, Repr

/-- The persisted `matches` row content the battle endpoints read back: the
row-level `status` column, the `mode` column, and the serialized game state.
Endpoints write the row only at their explicit `supabase.update` calls; a
raised exception or an early (pending-decision) return leaves the row as it
was. -/
structure MatchRow where
  rowStatus : String := "in_progress"
  mode : String := "PVE"
  state : GameState := {}
deriving DecidableEq, Repr

/-- A card-definition row as returned by deck resolution
(`load_deck_card_defs`), the input of the factory. -/
structure CardDef where
  cardCode : String := ""
  name : String := ""
  cardType : CardType := .monster
  stars : Int := 0
  atk : Int := 0
  hp : Int := 0
  elementId : Option Int := none
  effectTags : List String := []
  effectParams : EffectParams := {}
deriving DecidableEq, Repr

/-- An element-variant row as returned by `_fetch_card_variant` from the
cards table. -/
structure VariantRow where
  name : String := ""
  cardTypeId : Int := 0
  stars : Int := 0
  atk : Int := 0
  hp : Int := 0
  elementId : Option Int := none
  effectTags : List String := []
  effectParams : Option EffectParams := none
deriving DecidableEq, Repr

/-- The engine's two external effect sources: `random.shuffle` (modeled as a
caller-supplied list transformer; theorems that need it assume it preserves
length, as an in-place permutation does) and the Supabase element-variant
lookup `_fetch_card_variant` (card code and element id to an optional
variant row). -/
structure Env where
  shuffle : List Card → List Card
  variantRow : String → Int → Option VariantRow

/-- The helper `_other_player_index` from `main.py`. -/
def otherPlayerIndex (i : Int) : Int := if i = 1 then 2 else 1

/-- Read `players[str(i)]`.  The serialized dict has exactly the keys `"1"`
and `"2"`; the endpoints validate the acting index before using it.  For any
other index the source raises `KeyError` (an HTTP 500 with no persistence);
no theorem below depends on out-of-range indices, which here fall through to
player 2. -/
def getP (gs : GameState) (i : Int) : PlayerState :=
  if i = 1 then gs.player1 else gs.player2

/-- Write `players[str(i)] = p`. -/
def setP (gs : GameState) (i : Int) (p : PlayerState) : GameState :=
  if i = 1 then { gs with player1 := p } else { gs with player2 := p }

/-- Read `turn_state.get(str(i))`. -/
def getTS (gs : GameState) (i : Int) : Option TurnCounters :=
  if i = 1 then gs.turnState1 else gs.turnState2

/-- Write `turn_state[str(i)] = t`. -/
def setTS (gs : GameState) (i : Int) (t : Option TurnCounters) : GameState :=
  if i = 1 then { gs with turnState1 := t } else { gs with turnState2 := t }

/-- Scan a zone list for the first slot holding a card with the given
instance id, returning its index and the card (the
`for idx, slot in enumerate(...)` searches of `main.py`). -/
def findInZones : List (Option Card) → String → Option (Nat × Card)
  | [], _ => none
  | none :: rest, iid =>
    (findInZones rest iid).map (fun (p : Nat × Card) => (p.1 + 1, p.2))
  | some c :: rest, iid =>
    if c.instanceId = iid then some (0, c)
    else (findInZones rest iid).map (fun (p : Nat × Card) => (p.1 + 1, p.2))

/-- Scan a hand list for the first card with the given instance id (the
`next((i for i, c in enumerate(hand) ...), None)` searches). -/
def findInHand : List Card → String → Option (Nat × Card)
  | [], _ => none
  | c :: rest, iid =>
    if c.instanceId = iid then some (0, c)
    else (findInHand rest iid).map (fun (p : Nat × Card) => (p.1 + 1, p.2))

/-- Result record of `game_state_helpers.find_monster_by_instance_id`. -/
structure FoundMonster where
  playerIndex : Int
  zoneIndex : Nat
  card : Card
deriving DecidableEq, Repr

/-- `game_state_helpers.find_monster_by_instance_id`: scans player 1's
monster zones, then player 2's (the players-dict insertion order). -/
def findMonsterByInstanceId (gs : GameState) (iid : String) : Option FoundMonster :=
  match findInZones gs.player1.monsterZones iid with
  | some (i, c) => some ⟨1, i, c⟩
  | none =>
    match findInZones gs.player2.monsterZones iid with
    | some (i, c) => some ⟨2, i, c⟩
    | none => none

/-- The resolver helper `_clamp_hp`. -/
def clampHp (current : Int) (maxHp : Option Int) : Int :=
  match maxHp with
  | none => current
  | some m => max 0 (min current m)

/-- Target data resolved by the action layer, the `targets` dict of an
`EffectContext`: an optional player index and an optional monster
coordinate `(player_index, zone_index)`. -/
structure Targets where
  player : Option Int := none
  monster : Option (Int × Int) := none
deriving DecidableEq, Repr

/-- A trigger-event payload dict.  Fields cover the keys the engine writes
into trigger events and the keys handlers and `trigger_trap` read back. -/
structure TriggerEvent where
  type : String := ""
  cardName : String := ""
  amount : Option Int := none
  attackerInstanceId : Option String := none
  defenderInstanceId : Option String := none
  attackerAtk : Option Int := none
  attackingPlayer : Option Int := none
  defendingPlayer : Option Int := none
  monsterInstanceId : Option String := none
  playerIndex : Option Int := none
  zoneIndex : Option Int := none
  spellCard : Option Card := none
  spellTarget : Option String := none
  spellCaster : Option Int := none
deriving DecidableEq, Repr

/-- The resolver's `EffectContext`, minus the game state, which is threaded
explicitly because handlers mutate it. -/
structure EffectCtx where
  sourcePlayer : Int
  sourceCard : Card
  targets : Targets := {}
  trigger : Option String := none
  triggerEvent : Option TriggerEvent := none
deriving Repr

/-- The resolver's `EffectResult`.  Destroyed monsters are
`(player_index, zone_index)` pairs. -/
structure EffectResult where
  logEvents : List LogEvent := []
  destroyedMonsters : List (Int × Nat) := []
  cancelled : Bool := false
deriving DecidableEq, Repr

/-- The resolver's `_merge_effect_results`. -/
def mergeResults (base delta : EffectResult) : EffectResult :=
  { logEvents := base.logEvents ++ delta.logEvents
    destroyedMonsters := base.destroyedMonsters ++ delta.destroyedMonsters
    cancelled := base.cancelled || delta.cancelled }

/-- The result dict emitted when a single-monster-target handler finds no
monster in `ctx.targets`. -/
def noTargetResult : EffectResult :=
  { logEvents := [{ type := "EFFECT_NO_TARGET", reason := some "MONSTER_NOT_FOUND" }] }

/-- The resolver's `_get_monster_ref_from_targets`: validates the target
coordinate and returns the live slot content. -/
def getMonsterRefFromTargets (gs : GameState) (ctx : EffectCtx) :
    Option (Int × Nat × Card) :=
  match ctx.targets.monster with
  | none => none
  | some (pi, zi) =>
    let zones := (getP gs pi).monsterZones
    if zi < 0 ∨ zi ≥ (zones.length : Int) then none
    else
      match zones.getD zi.toNat none with
      | none => none
      | some c => some (pi, zi.toNat, c)

/-- The resolver's `_apply_damage_to_player`: damage clamped at zero on both
sides. -/
def applyDamageToPlayer (gs : GameState) (pi : Int) (amount : Int) :
    GameState × EffectResult :=
  let p := getP gs pi
  let before := p.hp
  let after := max 0 (before - max 0 amount)
  (setP gs pi { p with hp := after },
   { logEvents := [{ type := "EFFECT_DAMAGE_PLAYER", player := some pi,
                     amount := some amount, hpBefore := some before,
                     hpAfter := some after }] })

/-- The resolver's `_apply_heal_to_player`.  Player dicts carry no `max_hp`
key, so the `_clamp_hp` call receives `None` and does not clamp. -/
def applyHealToPlayer (gs : GameState) (pi : Int) (amount : Int) :
    GameState × EffectResult :=
  let p := getP gs pi
  let before := p.hp
  let after := clampHp (before + max 0 amount) none
  (setP gs pi { p with hp := after },
   { logEvents := [{ type := "EFFECT_HEAL_PLAYER", player := some pi,
                     amount := some amount, hpBefore := some before,
                     hpAfter := some after }] })

/-- The resolver's `_apply_damage_to_monster`: clamps at zero and flags the
slot as destroyed when the result is zero or below. -/
def applyDamageToMonster (gs : GameState) (ctx : EffectCtx) (amount : Int) :
    GameState × EffectResult :=
  match getMonsterRefFromTargets gs ctx with
  | none => (gs, noTargetResult)
  | some (pi, zi, card) =>
    let before := card.hp
    let after := max 0 (before - max 0 amount)
    let p := getP gs pi
    let gs1 := setP gs pi
      { p with monsterZones := p.monsterZones.set zi (some { card with hp := after }) }
    let base : EffectResult :=
      { logEvents := [{ type := "EFFECT_DAMAGE_MONSTER", player := some pi,
                        zone := some (zi : Int), amount := some amount,
                        hpBefore := some before, hpAfter := some after,
                        cardInstanceId := some card.instanceId }] }
    (gs1, if after ≤ 0 then { base with destroyedMonsters := [(pi, zi)] } else base)

/-- The resolver's `_apply_heal_to_monster`: heals clamped to `max_hp`. -/
def applyHealToMonster (gs : GameState) (ctx : EffectCtx) (amount : Int) :
    GameState × EffectResult :=
  match getMonsterRefFromTargets gs ctx with
  | none => (gs, noTargetResult)
  | some (pi, zi, card) =>
    let before := card.hp
    let after := clampHp (before + max 0 amount) (some card.maxHp)
    let p := getP gs pi
    let gs1 := setP gs pi
      { p with monsterZones := p.monsterZones.set zi (some { card with hp := after }) }
    (gs1,
     { logEvents := [{ type := "EFFECT_HEAL_MONSTER", player := some pi,
                       zone := some (zi : Int), amount := some amount,
                       hpBefore := some before, hpAfter := some after,
                       cardInstanceId := some card.instanceId }] })

/-- The resolver's `_apply_status_to_monster`: a `STATUS_IMMUNE` status
blocks everything except `STATUS_IMMUNE` itself; duplicate codes are not
re-added. -/
def applyStatusToMonster (gs : GameState) (ctx : EffectCtx)
    (statusCode : String) (durationType : String) (durationValue : Option Int) :
    GameState × EffectResult :=
  match getMonsterRefFromTargets gs ctx with
  | none => (gs, noTargetResult)
  | some (pi, zi, card) =>
    let statuses := card.statuses
    let hasImmune := statuses.any (fun s => s.code = "STATUS_IMMUNE")
    if hasImmune ∧ statusCode ≠ "STATUS_IMMUNE" then
      (gs,
       { logEvents := [{ type := "EFFECT_STATUS_BLOCKED",
                         reason := some "STATUS_IMMUNE", player := some pi,
                         zone := some (zi : Int),
                         cardInstanceId := some card.instanceId }] })
    else
      let entry : StatusEntry :=
        { code := statusCode, durationType := durationType,
          durationValue := durationValue }
      let statuses1 :=
        if statuses.any (fun s => s.code = statusCode) then statuses
        else statuses ++ [entry]
      let p := getP gs pi
      let gs1 := setP gs pi
        { p with monsterZones :=
            p.monsterZones.set zi (some { card with statuses := statuses1 }) }
      (gs1,
       { logEvents := [{ type := "EFFECT_STATUS_APPLIED", player := some pi,
                         zone := some (zi : Int),
                         cardInstanceId := some card.instanceId }] })

/-- The type of keyword handlers: the game state is threaded explicitly in
place of the in-place dict mutation of the source. -/
def KeywordHandler :=
  GameState → EffectCtx → EffectEntry → GameState × EffectResult

/-- Handler `SPELL_DAMAGE_MONSTER`: monster damage with optional overflow of
the excess beyond the monster's prior HP to its controller, read back from
the handler's own `EFFECT_DAMAGE_MONSTER` log event as in the source. -/
def handleSpellDamageMonster : KeywordHandler := fun gs ctx e =>
  let amount := e.amount.getD 0
  let (gs1, result) := applyDamageToMonster gs ctx amount
  if e.overflowToPlayer then
    match result.logEvents.find? (fun ev => ev.type = "EFFECT_DAMAGE_MONSTER") with
    | none => (gs1, result)
    | some ev =>
      let hpBefore := ev.hpBefore.getD 0
      let overflow := max 0 (amount - hpBefore)
      if overflow > 0 then
        let tpi :=
          match ctx.targets.player with
          | some p => some p
          | none =>
            (result.logEvents.find?
              (fun ev2 => ev2.type = "EFFECT_DAMAGE_MONSTER")).bind (fun ev2 => ev2.player)
        match tpi with
        | some p =>
          let (gs2, ores) := applyDamageToPlayer gs1 p overflow
          (gs2, mergeResults result ores)
        | none => (gs1, result)
      else (gs1, result)
  else (gs1, result)

/-- Handler `SPELL_DAMAGE_PLAYER`: defaults the target to the opposing
player when the action layer supplied none. -/
def handleSpellDamagePlayer : KeywordHandler := fun gs ctx e =>
  let amount := e.amount.getD 0
  let tpi :=
    match ctx.targets.player with
    | some p => p
    | none => if ctx.sourcePlayer = 2 then 1 else 2
  applyDamageToPlayer gs tpi amount

/-- Handler `SPELL_HEAL_PLAYER`: defaults the target to the caster. -/
def handleSpellHealPlayer : KeywordHandler := fun gs ctx e =>
  let amount := e.amount.getD 0
  let tpi := (ctx.targets.player).getD ctx.sourcePlayer
  applyHealToPlayer gs tpi amount

/-- Handler `SPELL_HEAL_MONSTER`. -/
def handleSpellHealMonster : KeywordHandler := fun gs ctx e =>
  applyHealToMonster gs ctx (e.amount.getD 0)

/-- Handler `SPELL_APPLY_STATUS`. -/
def handleSpellApplyStatus : KeywordHandler := fun gs ctx e =>
  applyStatusToMonster gs ctx e.statusCode e.durationType e.durationValue

/-- Handler `SPELL_DRAW_CARDS` / `SPELL_DRAW`: draws from the front of the
target player's deck, stopping when the deck runs out (no reshuffle here).
The source pops elements one at a time; taking a prefix is the same
operation.  A zero `count` is Python-falsy and falls back to `amount`. -/
def handleSpellDrawCards : KeywordHandler := fun gs ctx e =>
  let amount : Int :=
    match e.count with
    | some c => if c = 0 then e.amount.getD 0 else c
    | none => e.amount.getD 0
  if amount ≤ 0 then (gs, {})
  else
    let pi := (ctx.targets.player).getD ctx.sourcePlayer
    let p := getP gs pi
    let n := min amount.toNat p.deck.length
    let drawn := p.deck.take n
    let gs1 := setP gs pi { p with deck := p.deck.drop n, hand := p.hand ++ drawn }
    (gs1,
     { logEvents := [{ type := "EFFECT_DRAW_CARDS", player := some pi,
                       amount := some (drawn.length : Int) }] })

/-- The resolver's `_find_lowest_hp_monster`: the strictly-lowest-HP live
slot scan (first slot wins ties, and comparison uses `<` against the
current lowest). -/
def findLowestHpFrom : Nat → Option (Nat × Card) → List (Option Card) → Option (Nat × Card)
  | _, acc, [] => acc
  | i, acc, none :: rest => findLowestHpFrom (i + 1) acc rest
  | i, acc, some c :: rest =>
    let acc1 :=
      match acc with
      | none => some (i, c)
      | some (j, best) => if c.hp < best.hp then some (i, c) else some (j, best)
    findLowestHpFrom (i + 1) acc1 rest

/-- Entry point of the lowest-HP scan over a player's monster zones. -/
def findLowestHpMonster (gs : GameState) (pi : Int) : Option (Nat × Card) :=
  if pi ≠ 1 ∧ pi ≠ 2 then none
  else findLowestHpFrom 0 none (getP gs pi).monsterZones

/-- Handler `HERO_ACTIVE_SOUL_REND`: spend hero charges, destroy one
(face-up) enemy monster, and conditionally buff the caster's lowest-HP
monster.  The charge spend mutates the handler's `source_card` dict; on the
hero-ability path the action layer passes a copy of the hero, so the spend
is modeled on the local card value only. -/
def handleHeroActiveSoulRend : KeywordHandler := fun gs ctx e =>
  let chargeCost := e.chargeCost
  let hpThreshold := e.ifTargetHpGt
  let buffAmount := e.buffLowestAllyHpIncrease
  let requireFaceUp := e.targetFaceUp
  let currentCharges := ctx.sourceCard.heroCharges
  if currentCharges < chargeCost then
    (gs, { cancelled := true,
           logEvents := [{ type := "EFFECT_HERO_NOT_ENOUGH_CHARGES" }] })
  else
    match getMonsterRefFromTargets gs ctx with
    | none => (gs, noTargetResult)
    | some (tpi, tzi, targetCard) =>
      if requireFaceUp ∧ targetCard.faceDown then
        (gs, { cancelled := true,
               logEvents := [{ type := "EFFECT_INVALID_TARGET",
                               reason := some "TARGET_MUST_BE_FACE_UP",
                               cardInstanceId := some targetCard.instanceId }] })
      else
        let hpBefore := targetCard.hp
        let p := getP gs tpi
        let gs1 := setP gs tpi
          { p with monsterZones :=
              p.monsterZones.set tzi (some { targetCard with hp := 0 }) }
        let baseEvents : List LogEvent :=
          [{ type := "EFFECT_HERO_SPEND_CHARGE",
             amount := some chargeCost },
           { type := "EFFECT_DESTROY_MONSTER", player := some tpi,
             zone := some (tzi : Int), hpBefore := some hpBefore,
             reason := some "SOUL_REND",
             cardInstanceId := some targetCard.instanceId }]
        if hpBefore > hpThreshold ∧ buffAmount > 0 then
          match findLowestHpMonster gs1 ctx.sourcePlayer with
          | none =>
            (gs1, { logEvents := baseEvents,
                    destroyedMonsters := [(tpi, tzi)] })
          | some (azi, ally) =>
            let beforeHp := ally.hp
            let beforeMax := if ally.maxHp = 0 then beforeHp else ally.maxHp
            let ally1 := { ally with hp := beforeHp + buffAmount,
                                     maxHp := beforeMax + buffAmount }
            let ps := getP gs1 ctx.sourcePlayer
            let gs2 := setP gs1 ctx.sourcePlayer
              { ps with monsterZones := ps.monsterZones.set azi (some ally1) }
            (gs2,
             { logEvents := baseEvents ++
                 [{ type := "EFFECT_BUFF_MONSTER", player := some ctx.sourcePlayer,
                    zone := some (azi : Int), hpBefore := some beforeHp,
                    hpAfter := some ally1.hp,
                    cardInstanceId := some ally.instanceId,
                    reason := some "SOUL_REND_BUFF" }],
               destroyedMonsters := [(tpi, tzi)] })
        else
          (gs1, { logEvents := baseEvents,
                  destroyedMonsters := [(tpi, tzi)] })

/-- Apply a flat ATK/HP buff to one card as in `handle_spell_buff_monster`:
both HP and max HP grow, with HP clamped into `[0, new max]`; a zero stored
`max_hp` is Python-falsy and falls back to the current HP. -/
def buffCard (atkInc hpInc : Int) (c : Card) : Card :=
  let beforeMax := if c.maxHp = 0 then c.hp else c.maxHp
  let newMax := beforeMax + hpInc
  { c with atk := c.atk + atkInc, hp := clampHp (c.hp + hpInc) (some newMax),
           maxHp := newMax }

/-- Buff every occupied slot of a zone list, producing the updated zones and
one `EFFECT_BUFF_MONSTER` event per monster. -/
def buffZonesFrom (pi : Int) (atkInc hpInc : Int) :
    Nat → List (Option Card) → List (Option Card) × List LogEvent
  | _, [] => ([], [])
  | i, none :: rest =>
    let (zs, evs) := buffZonesFrom pi atkInc hpInc (i + 1) rest
    (none :: zs, evs)
  | i, some c :: rest =>
    let c1 := buffCard atkInc hpInc c
    let (zs, evs) := buffZonesFrom pi atkInc hpInc (i + 1) rest
    (some c1 :: zs,
     { type := "EFFECT_BUFF_MONSTER", player := some pi, zone := some (i : Int),
       hpBefore := some c.hp, hpAfter := some c1.hp,
       cardInstanceId := some c.instanceId } :: evs)

/-- Handler `SPELL_BUFF_MONSTER`: all-monster / own-monster / single-target
modes; buffing an enemy monster in single-target mode is rejected. -/
def handleSpellBuffMonster : KeywordHandler := fun gs ctx e =>
  let atkInc := e.atkIncrease
  let hpInc := e.hpIncrease
  let targetAll := e.targetAll ∨ e.target = "ALL_MONSTERS"
  let targetSelf := e.target = "SELF_MONSTERS" ∨ e.target = "OWN_MONSTERS"
  if targetAll ∨ targetSelf then
    let targetPlayers : List Int := if targetSelf then [ctx.sourcePlayer] else [1, 2]
    let step := fun (acc : GameState × List LogEvent) (pidx : Int) =>
      let (g, evs) := acc
      if pidx ≠ 1 ∧ pidx ≠ 2 then (g, evs)
      else
        let p := getP g pidx
        let (zs, evs1) := buffZonesFrom pidx atkInc hpInc 0 p.monsterZones
        (setP g pidx { p with monsterZones := zs }, evs ++ evs1)
    let (gs1, evs) := targetPlayers.foldl step (gs, [])
    (gs1, { logEvents := evs })
  else
    match getMonsterRefFromTargets gs ctx with
    | none => (gs, noTargetResult)
    | some (pi, zi, card) =>
      if pi ≠ ctx.sourcePlayer then
        (gs, { logEvents := [{ type := "EFFECT_INVALID_TARGET",
                               reason := some "CANNOT_BUFF_ENEMY_MONSTER" }] })
      else
        let c1 := buffCard atkInc hpInc card
        let p := getP gs pi
        let gs1 := setP gs pi
          { p with monsterZones := p.monsterZones.set zi (some c1) }
        (gs1,
         { logEvents := [{ type := "EFFECT_BUFF_MONSTER", player := some pi,
                           zone := some (zi : Int), hpBefore := some card.hp,
                           hpAfter := some c1.hp,
                           cardInstanceId := some card.instanceId }] })

/-- Handler `SPELL_HASTE`: flips the target face-up and grants immediate
attack eligibility. -/
def handleSpellHaste : KeywordHandler := fun gs ctx _ =>
  match getMonsterRefFromTargets gs ctx with
  | none => (gs, noTargetResult)
  | some (pi, zi, card) =>
    let c1 := { card with faceDown := false, canAttack := true }
    let p := getP gs pi
    let gs1 := setP gs pi { p with monsterZones := p.monsterZones.set zi (some c1) }
    (gs1,
     { logEvents := [{ type := "EFFECT_HASTE", player := some pi,
                       zone := some (zi : Int),
                       cardInstanceId := some card.instanceId }] })

/-- Handler `HERO_ACTIVE_DAMAGE`: monster damage with unconditional overflow
to the monster's controller, or direct player damage when no monster target
was resolved. -/
def handleHeroActiveDamage : KeywordHandler := fun gs ctx e =>
  let amount := (e.amount).getD (e.damageAmount.getD 0)
  if amount ≤ 0 then (gs, {})
  else
    match getMonsterRefFromTargets gs ctx with
    | some _ =>
      let (gs1, result) := applyDamageToMonster gs ctx amount
      match result.logEvents.find? (fun ev => ev.type = "EFFECT_DAMAGE_MONSTER") with
      | none => (gs1, result)
      | some ev =>
        let hpBefore := ev.hpBefore.getD 0
        let overflow := max 0 (amount - hpBefore)
        if overflow > 0 then
          let tpi :=
            match ctx.targets.player with
            | some p => some p
            | none =>
              (result.logEvents.find?
                (fun ev2 => ev2.type = "EFFECT_DAMAGE_MONSTER")).bind (fun ev2 => ev2.player)
          match tpi with
          | some p =>
            let (gs2, ores) := applyDamageToPlayer gs1 p overflow
            (gs2, mergeResults result ores)
          | none => (gs1, result)
        else (gs1, result)
    | none =>
      match ctx.targets.player with
      | some p => applyDamageToPlayer gs p amount
      | none =>
        (gs, { logEvents := [{ type := "EFFECT_NO_TARGET",
                               reason := some "NO_MONSTER_OR_PLAYER_TARGET" }] })

/-- Handler `HERO_ACTIVE_FREEZE`: appends a two-turn `FROZEN` status (with a
`STATUS_IMMUNE` on-expire replacement) directly, bypassing immunity and
duplicate checks as the source does, and clears `can_attack`. -/
def handleHeroActiveFreeze : KeywordHandler := fun gs ctx _ =>
  match getMonsterRefFromTargets gs ctx with
  | none => (gs, noTargetResult)
  | some (pi, zi, card) =>
    let entry : StatusEntry :=
      { code := "FROZEN", durationType := "FIXED_TURNS",
        durationValue := some 2, onExpire := some "STATUS_IMMUNE" }
    let c1 := { card with statuses := card.statuses ++ [entry], canAttack := false }
    let p := getP gs pi
    let gs1 := setP gs pi { p with monsterZones := p.monsterZones.set zi (some c1) }
    (gs1,
     { logEvents := [{ type := "EFFECT_FREEZE_MONSTER", player := some pi,
                       zone := some (zi : Int),
                       cardInstanceId := some card.instanceId }] })

/-- Handler `SPELL_CLEANSE_MONSTER`: removes every status from the target. -/
def handleSpellCleanseMonster : KeywordHandler := fun gs ctx _ =>
  match getMonsterRefFromTargets gs ctx with
  | none => (gs, noTargetResult)
  | some (pi, zi, card) =>
    let p := getP gs pi
    let gs1 := setP gs pi
      { p with monsterZones := p.monsterZones.set zi (some { card with statuses := [] }) }
    (gs1,
     { logEvents := [{ type := "EFFECT_CLEANSE_MONSTER", player := some pi,
                       zone := some (zi : Int),
                       cardInstanceId := some card.instanceId }] })

/-- Handler `SPELL_COUNTER_SPELL` / `TRAP_COUNTER_SPELL`: sets the cancelled
flag; the `reflect_spell` parameter (with legacy alias `reflect`) selects
the reflecting event type. -/
def handleSpellCounterSpell : KeywordHandler := fun gs ctx e =>
  let reflect :=
    match e.reflectSpell with
    | some b => b
    | none => (e.reflectAlias).getD false
  (gs,
   { cancelled := true,
     logEvents := [{ type := if reflect then "EFFECT_COUNTER_AND_REFLECT_SPELL"
                             else "EFFECT_COUNTER_SPELL",
                     reflectSpell := some reflect,
                     cardInstanceId := some ctx.sourceCard.instanceId }] })

/-- Handler `TRAP_REFLECT_DAMAGE`: reflects a percentage (Python floor
division) of the trigger event's recorded amount onto the attacking
player. -/
def handleTrapReflectDamage : KeywordHandler := fun gs ctx e =>
  let tr := (ctx.triggerEvent).getD {}
  let rawAmount := tr.amount.getD 0
  let reflected := max 0 (Int.fdiv (rawAmount * e.percentage) 100)
  match tr.attackingPlayer with
  | none => (gs, {})
  | some ap =>
    if reflected ≤ 0 then (gs, {})
    else applyDamageToPlayer gs ap reflected

/-- Handler `TRAP_APPLY_STATUS`. -/
def handleTrapApplyStatus : KeywordHandler := fun gs ctx e =>
  applyStatusToMonster gs ctx e.statusCode e.durationType e.durationValue

/-- Handler `SPELL_REFLECT_INCOMING_STATUS`: applies the status to the
action-layer-chosen target and retags the emitted events. -/
def handleSpellReflectIncomingStatus : KeywordHandler := fun gs ctx e =>
  let (gs1, res) := applyStatusToMonster gs ctx e.statusCode e.durationType e.durationValue
  (gs1, { res with logEvents :=
            res.logEvents.map (fun ev => { ev with type := "EFFECT_STATUS_REFLECTED" }) })

/-- Handler `SPELL_DUPLICATE_INCOMING_STATUS`: like reflect, with its own
event tag. -/
def handleSpellDuplicateIncomingStatus : KeywordHandler := fun gs ctx e =>
  let (gs1, res) := applyStatusToMonster gs ctx e.statusCode e.durationType e.durationValue
  (gs1, { res with logEvents :=
            res.logEvents.map (fun ev => { ev with type := "EFFECT_STATUS_DUPLICATED" }) })

/-- Handler `TRAP_NEGATE_ATTACK`: cancels the attack and by default reflects
the attacker's ATK (or a declared amount) back onto the attacker monster.
A zero `attacker_atk` in the trigger event is Python-falsy and falls back
to the attacker card's ATK. -/
def handleTrapNegateAttack : KeywordHandler := fun gs ctx e =>
  let tr := (ctx.triggerEvent).getD {}
  let aid := (tr.attackerInstanceId).getD ""
  if aid = "" then
    (gs, { logEvents := [{ type := "EFFECT_NO_TARGET", reason := some "NO_ATTACKER" }] })
  else
    match findMonsterByInstanceId gs aid with
    | none =>
      (gs, { logEvents := [{ type := "EFFECT_NO_TARGET",
                             reason := some "ATTACKER_NOT_FOUND" }] })
    | some f =>
      let attackerAtk :=
        match tr.attackerAtk with
        | some v => if v = 0 then f.card.atk else v
        | none => f.card.atk
      if e.reflectDamage then
        let damageToDeal := (e.damageAmount).getD attackerAtk
        let hpBefore := f.card.hp
        let hpAfter := max 0 (hpBefore - damageToDeal)
        let p := getP gs f.playerIndex
        let gs1 := setP gs f.playerIndex
          { p with monsterZones :=
              p.monsterZones.set f.zoneIndex (some { f.card with hp := hpAfter }) }
        (gs1,
         { cancelled := true,
           destroyedMonsters := if hpAfter ≤ 0 then [(f.playerIndex, f.zoneIndex)] else [],
           logEvents :=
             [{ type := "EFFECT_NEGATE_ATTACK",
                cardInstanceId := some ctx.sourceCard.instanceId },
              { type := "EFFECT_DAMAGE_MONSTER", player := some f.playerIndex,
                zone := some (f.zoneIndex : Int), amount := some damageToDeal,
                hpBefore := some hpBefore, hpAfter := some hpAfter,
                cardInstanceId := some aid }] })
      else
        (gs, { cancelled := true,
               logEvents := [{ type := "EFFECT_NEGATE_ATTACK",
                               cardInstanceId := some ctx.sourceCard.instanceId }] })

/-- Handler `TRAP_PREVENT_DESTRUCTION`: floors the monster's HP at the
declared value (default 1) when it is currently zero or below; an
already-positive HP is left alone. -/
def handleTrapPreventDestruction : KeywordHandler := fun gs ctx e =>
  let tr := (ctx.triggerEvent).getD {}
  let ref0 := getMonsterRefFromTargets gs ctx
  let ref :=
    match ref0 with
    | some r => some r
    | none =>
      match tr.monsterInstanceId with
      | some mid =>
        if mid = "" then none
        else (findMonsterByInstanceId gs mid).map
          (fun (f : FoundMonster) => (f.playerIndex, f.zoneIndex, f.card))
      | none => none
  match ref with
  | none => (gs, noTargetResult)
  | some (pi, zi, card) =>
    let pdHp := e.preventDestructionHp
    let hpBefore := card.hp
    if hpBefore ≤ 0 then
      let p := getP gs pi
      let gs1 := setP gs pi
        { p with monsterZones := p.monsterZones.set zi (some { card with hp := pdHp }) }
      (gs1,
       { logEvents := [{ type := "EFFECT_PREVENT_DESTRUCTION", player := some pi,
                         zone := some (zi : Int), hpBefore := some hpBefore,
                         hpAfter := some pdHp,
                         cardInstanceId := some card.instanceId }] })
    else
      (gs,
       { logEvents := [{ type := "EFFECT_PREVENT_DESTRUCTION", player := some pi,
                         zone := some (zi : Int), hpBefore := some hpBefore,
                         hpAfter := some hpBefore,
                         cardInstanceId := some card.instanceId }] })

/-- The `KEYWORD_HANDLERS` registry as a lookup function over the exact key
set of the source dict. -/
def lookupHandler : String → Option KeywordHandler
  | "SPELL_DAMAGE_MONSTER" => some handleSpellDamageMonster
  | "SPELL_DAMAGE_PLAYER" => some handleSpellDamagePlayer
  | "SPELL_HEAL_MONSTER" => some handleSpellHealMonster
  | "SPELL_HEAL_PLAYER" => some handleSpellHealPlayer
  | "SPELL_APPLY_STATUS" => some handleSpellApplyStatus
  | "SPELL_DRAW_CARDS" => some handleSpellDrawCards
  | "SPELL_DRAW" => some handleSpellDrawCards
  | "SPELL_BUFF_MONSTER" => some handleSpellBuffMonster
  | "SPELL_CLEANSE_MONSTER" => some handleSpellCleanseMonster
  | "SPELL_HASTE" => some handleSpellHaste
  | "HERO_ACTIVE_DAMAGE" => some handleHeroActiveDamage
  | "HERO_ACTIVE_FREEZE" => some handleHeroActiveFreeze
  | "HERO_ACTIVE_SOUL_REND" => some handleHeroActiveSoulRend
  | "SPELL_COUNTER_SPELL" => some handleSpellCounterSpell
  | "TRAP_COUNTER_SPELL" => some handleSpellCounterSpell
  | "TRAP_NEGATE_ATTACK" => some handleTrapNegateAttack
  | "TRAP_REFLECT_DAMAGE" => some handleTrapReflectDamage
  | "TRAP_APPLY_STATUS" => some handleTrapApplyStatus
  | "TRAP_PREVENT_DESTRUCTION" => some handleTrapPreventDestruction
  | "SPELL_REFLECT_INCOMING_STATUS" => some handleSpellReflectIncomingStatus
  | "SPELL_DUPLICATE_INCOMING_STATUS" => some handleSpellDuplicateIncomingStatus
  | _ => none

/-- The whitespace set of Python's `str.strip` (its ASCII members, the only
ones arising here). -/
def isPyWhitespace (c : Char) : Bool :=
  c = ' ' ∨ c = '\t' ∨ c = '\n' ∨ c = '\x0d' ∨ c = '\x0b' ∨ c = '\x0c'

/-- Python's `str.upper` over the character list (ASCII data here). -/
def pyUpper (s : String) : String := ⟨s.data.map Char.toUpper⟩

/-- Python's `str.strip` over the character list. -/
def pyStrip (s : String) : String :=
  ⟨((s.data.dropWhile isPyWhitespace).reverse.dropWhile isPyWhitespace).reverse⟩

/-- The resolver's keyword normalization, `keyword.upper().strip()`. -/
def normalizeKeyword (k : String) : String := pyStrip (pyUpper k)

/-- The registry lookup of `resolve_card_effects`: normalized keyword first,
raw keyword as fallback. -/
def handlerFor (e : EffectEntry) : Option KeywordHandler :=
  match lookupHandler (normalizeKeyword e.keyword) with
  | some h => some h
  | none => lookupHandler e.keyword

/-- The sequential loop of `resolve_card_effects`: entries with a missing or
empty keyword are skipped silently; entries with no registered handler
append an `EFFECT_UNKNOWN_KEYWORD` diagnostic event and continue; after a
handler result is merged, a set cancelled flag stops the loop. -/
def resolveEffectsGo (ctx : EffectCtx) :
    List EffectEntry → GameState → EffectResult → GameState × EffectResult
  | [], gs, acc => (gs, acc)
  | e :: rest, gs, acc =>
    if e.keyword = "" then resolveEffectsGo ctx rest gs acc
    else
      match handlerFor e with
      | none =>
        resolveEffectsGo ctx rest gs
          { acc with logEvents := acc.logEvents ++
              [{ type := "EFFECT_UNKNOWN_KEYWORD", keyword := some e.keyword }] }
      | some h =>
        let (gs1, hres) := h gs ctx e
        let acc1 := mergeResults acc hres
        if acc1.cancelled then (gs1, acc1) else resolveEffectsGo ctx rest gs1 acc1

/-- The resolver entry point `resolve_card_effects`, iterating the source
card's `effect_params.effects` list. -/
def resolveCardEffects (gs : GameState) (ctx : EffectCtx) : GameState × EffectResult :=
  resolveEffectsGo ctx ctx.sourceCard.effectParams.effects gs {}

/-- The shared lethal check `_check_lethal_after_noncombat` of `main.py`:
zero or below is dead; both dead is a draw with the winner left unset. -/
def checkLethalAfterNoncombat (gs : GameState) (reason : String) : GameState :=
  let p1Dead := gs.player1.hp ≤ 0
  let p2Dead := gs.player2.hp ≤ 0
  if ¬p1Dead ∧ ¬p2Dead then gs
  else if p1Dead ∧ p2Dead then
    { gs with
      status := "completed"
      winner := none
      log := gs.log ++ [{ type := "MATCH_END", winner := none,
                          reason := some (reason ++ "_double_lethal") }] }
  else if p2Dead then
    { gs with
      status := "completed"
      winner := some 1
      log := gs.log ++ [{ type := "MATCH_END", winner := some 1,
                          reason := some reason }] }
  else
    { gs with
      status := "completed"
      winner := some 2
      log := gs.log ++ [{ type := "MATCH_END", winner := some 2,
                          reason := some reason }] }

/-- The graveyard-move loop of `_handle_destroyed_monsters`. -/
def moveDestroyed (gs : GameState) : List (Int × Nat) → GameState
  | [] => gs
  | (pi, zi) :: rest =>
    let gs1 :=
      if pi ≠ 1 ∧ pi ≠ 2 then gs
      else
        let p := getP gs pi
        if zi < p.monsterZones.length then
          match p.monsterZones.getD zi none with
          | some c =>
            setP gs pi { p with graveyard := p.graveyard ++ [c],
                                monsterZones := p.monsterZones.set zi none }
          | none => gs
        else gs
    moveDestroyed gs1 rest

/-- The hero charge-gain pass of `_handle_destroyed_monsters` for one
player: a `HERO_PASSIVE_GAIN_CHARGE_ON_DEATH` passive gains
`amount * destroyed` charges on the hero card. -/
def heroChargeGainFor (gs : GameState) (destroyedCount : Nat) (pi : Int) : GameState :=
  let p := getP gs pi
  match p.hero with
  | none => gs
  | some hero =>
    match hero.effectParams.passiveOnMonsterDeath with
    | none => gs
    | some passive =>
      if passive.keyword = "HERO_PASSIVE_GAIN_CHARGE_ON_DEATH" ∧
          passive.amount > 0 ∧ destroyedCount ≠ 0 then
        let gained := passive.amount * (destroyedCount : Int)
        setP { gs with log := gs.log ++
                 [{ type := "HERO_CHARGE_GAINED", player := some pi,
                    amount := some gained, reason := some "MONSTER_DEATH" }] }
          pi { p with hero := some { hero with heroCharges := hero.heroCharges + gained } }
      else gs

/-- `_handle_destroyed_monsters`: graveyard moves, then the hero charge-gain
pass over both players in dict order. -/
def handleDestroyedMonsters (gs : GameState) (destroyed : List (Int × Nat)) : GameState :=
  let gs1 := moveDestroyed gs destroyed
  heroChargeGainFor (heroChargeGainFor gs1 destroyed.length 1) destroyed.length 2

/-- The trigger-name pattern list for `ON_SPELL_CAST` in
`_get_available_trap_triggers`. -/
def spellTriggerPatterns : List String :=
  ["ON_SPELL_CAST", "ON_CAST_SPELL", "ON_ENEMY_SPELL",
   "ON_OPPONENT_SPELL", "TRAP_ON_SPELL", "TRAP_TRIGGER_ON_OPPONENT_SPELL",
   "TRAP_CANCEL_SPELL", "SPELL_COUNTER_SPELL", "TRAP_COUNTER_SPELL"]

/-- The trigger-name pattern list for `ON_ATTACK_DECLARED`. -/
def attackTriggerPatterns : List String :=
  ["ON_ATTACK", "ON_ATTACK_DECLARED", "ON_ATTACK_MONSTER", "ON_ATTACK_PLAYER",
   "ON_ENEMY_ATTACK", "ON_MONSTER_ATTACK", "ON_DIRECT_ATTACK",
   "ON_YOUR_MONSTER_ATTACKED", "ON_MONSTER_ATTACKS", "TRAP_ON_ATTACK",
   "TRAP_ON_ATTACK_MONSTER", "TRAP_ON_ATTACK_PLAYER", "TRAP_TRIGGER_ON_ATTACK",
   "TRAP_DAMAGE_ON_ATTACK", "TRAP_NEGATE_ATTACK", "TRAP_REFLECT_DAMAGE"]

/-- The trigger-name pattern list for `ON_ALLY_MONSTER_WOULD_BE_DESTROYED`. -/
def destructionTriggerPatterns : List String :=
  ["ON_ALLY_MONSTER_WOULD_BE_DESTROYED", "ON_MONSTER_WOULD_BE_DESTROYED",
   "ON_DESTRUCTION", "PREVENT_DESTRUCTION", "TRAP_PREVENT_DESTRUCTION",
   "ON_ALLY_MONSTER_WOULD_BE_DESTROYED_BY_DAMAGE"]

/-- Select the pattern list for a trigger type; the source's `elif` chain
matches nothing for other trigger types. -/
def patternsFor (triggerType : String) : List String :=
  if triggerType = "ON_SPELL_CAST" then spellTriggerPatterns
  else if triggerType = "ON_ATTACK_DECLARED" then attackTriggerPatterns
  else if triggerType = "ON_ALLY_MONSTER_WOULD_BE_DESTROYED" then destructionTriggerPatterns
  else []

/-- Whether one effect entry of a set trap matches a trigger type: the union
of the trap's top-level trigger, its `effect_tags`, the entry's keyword and
the entry's `trigger`/`trigger_condition`, filtered of empty strings, is
intersected with the pattern list. -/
def trapEffMatches (pats : List String) (topTrigger : String) (tags : List String)
    (e : EffectEntry) : Bool :=
  let trigCond := if e.trigger ≠ "" then e.trigger else e.triggerCondition
  let allTriggers := ([topTrigger] ++ tags ++ [e.keyword, trigCond]).filter (fun t => t ≠ "")
  allTriggers.any (fun t => pats.contains t)

/-- Whether a face-down set card is eligible for a trigger type, returning
the keyword of the first matching effect entry (the source appends once per
trap and breaks). -/
def trapSlotEligible (triggerType : String) (c : Card) : Option String :=
  let pats := patternsFor triggerType
  (c.effectParams.effects.find?
    (trapEffMatches pats c.effectParams.trigger c.effectTags)).map (fun e => e.keyword)

/-- One row of the trap-trigger availability list. -/
structure TrapTrigger where
  trapInstanceId : String
  zoneIndex : Nat
  triggerKeyword : String
deriving DecidableEq, Repr

/-- The indexed collection loop of `_get_available_trap_triggers`: skips
empty slots and face-up cards. -/
def collectTrapsFrom (triggerType : String) : Nat → List (Option Card) → List TrapTrigger
  | _, [] => []
  | i, none :: rest => collectTrapsFrom triggerType (i + 1) rest
  | i, some c :: rest =>
    let tail := collectTrapsFrom triggerType (i + 1) rest
    if ¬c.faceDown then tail
    else
      match trapSlotEligible triggerType c with
      | none => tail
      | some kw => ⟨c.instanceId, i, kw⟩ :: tail

/-- `_get_available_trap_triggers`: the defending player's eligible
face-down traps for a trigger type (the trigger-event argument of the
source is never consulted by the matching logic). -/
def getAvailableTrapTriggers (gs : GameState) (defendingPlayerIndex : Int)
    (triggerType : String) : List TrapTrigger :=
  if defendingPlayerIndex ≠ 1 ∧ defendingPlayerIndex ≠ 2 then []
  else collectTrapsFrom triggerType 0 (getP gs defendingPlayerIndex).spellTrapZones

/-- `_apply_element_variant`: swap a card to its element variant when the
lookup finds one, overwriting identity/stat/effect fields and leaving
runtime fields (instance id, statuses, flags, summon turn, charges)
untouched.  `_apply_element_variant_preserve_runtime` saves and restores
exactly those untouched fields, so both source functions denote this one
operation. -/
def applyElementVariantCard (env : Env) (elementId : Option Int) (c : Card) : Card :=
  match elementId with
  | none => c
  | some el =>
    match env.variantRow c.cardCode el with
    | none => c
    | some v =>
      let vType :=
        if v.cardTypeId = 1 then CardType.monster
        else if v.cardTypeId = 2 then CardType.spell
        else if v.cardTypeId = 3 then CardType.trap
        else if v.cardTypeId = 4 then CardType.hero
        else c.cardType
      { c with name := v.name, cardType := vType, stars := v.stars, atk := v.atk,
               hp := v.hp, maxHp := v.hp, elementId := some ((v.elementId).getD el),
               effectTags := if v.effectTags ≠ [] then v.effectTags else c.effectTags,
               effectParams := (v.effectParams).getD c.effectParams }

/-- `_retarget_player_cards_to_element`: convert a player's deck, hand,
monster zones and spell/trap zones to the element variant, skipping heroes
and six-star cards everywhere except the spell/trap zones (which the source
converts unconditionally); the hero slot itself is not touched. -/
def retargetPlayerCards (env : Env) (p : PlayerState) (elementId : Option Int) :
    PlayerState :=
  match elementId with
  | none => p
  | some _ =>
    let keep := fun (c : Card) => c.cardType = CardType.hero ∨ c.stars = 6
    let conv := fun (c : Card) =>
      if keep c then c else applyElementVariantCard env elementId c
    { p with
      deck := p.deck.map conv
      hand := p.hand.map conv
      monsterZones := p.monsterZones.map (fun s => s.map conv)
      spellTrapZones := p.spellTrapZones.map
        (fun s => s.map (applyElementVariantCard env elementId)) }

/-- The per-card update of `_apply_hero_passive_aura`: flat ATK and HP adds,
HP clamped into `[0, new max]`, with a zero stored max falling back to the
current HP (Python truthiness of `card.get("max_hp")`). -/
def auraCard (atkInc hpInc : Int) (c : Card) : Card :=
  let beforeMax := if c.maxHp = 0 then c.hp else c.maxHp
  let newMax := beforeMax + hpInc
  { c with atk := c.atk + atkInc, hp := max 0 (min (c.hp + hpInc) newMax),
           maxHp := newMax }

/-- The all-monsters loop of `_apply_hero_passive_aura`. -/
def auraZonesFrom (pi : Int) (atkInc hpInc : Int) :
    Nat → List (Option Card) → List (Option Card) × List LogEvent
  | _, [] => ([], [])
  | i, none :: rest =>
    let (zs, evs) := auraZonesFrom pi atkInc hpInc (i + 1) rest
    (none :: zs, evs)
  | i, some c :: rest =>
    let c1 := auraCard atkInc hpInc c
    let (zs, evs) := auraZonesFrom pi atkInc hpInc (i + 1) rest
    (some c1 :: zs,
     { type := "HERO_PASSIVE_AURA", player := some pi, zone := some (i : Int),
       hpBefore := some c.hp, hpAfter := some c1.hp } :: evs)

/-- `_apply_hero_passive_aura`: apply the hero's `passive_aura` ATK/HP adds
either to one newly summoned monster or to every monster on the board,
appending one `HERO_PASSIVE_AURA` log event per affected card. -/
def applyHeroPassiveAura (gs : GameState) (pi : Int) (hero : Card)
    (targetZone : Option Nat) : GameState :=
  if pi ≠ 1 ∧ pi ≠ 2 then gs
  else
    match hero.effectParams.passiveAura with
    | none => gs
    | some aura =>
      if aura.atkIncrease = 0 ∧ aura.hpIncrease = 0 then gs
      else
        let p := getP gs pi
        match targetZone with
        | some zi =>
          if zi < p.monsterZones.length then
            match p.monsterZones.getD zi none with
            | some c =>
              let c1 := auraCard aura.atkIncrease aura.hpIncrease c
              setP { gs with log := gs.log ++
                       [{ type := "HERO_PASSIVE_AURA", player := some pi,
                          zone := some (zi : Int), hpBefore := some c.hp,
                          hpAfter := some c1.hp }] }
                pi { p with monsterZones := p.monsterZones.set zi (some c1) }
            | none => gs
          else gs
        | none =>
          let (zs, evs) := auraZonesFrom pi aura.atkIncrease aura.hpIncrease 0 p.monsterZones
          setP { gs with log := gs.log ++ evs } pi { p with monsterZones := zs }

/-- The heal-to-full loop of `_apply_end_turn_passives`, with one
`HERO_PASSIVE_HEAL_FULL` event per occupied slot.  A missing `max_hp` key
falls back to the current HP; in this model the field is always present. -/
def healFullZonesFrom (pi : Int) :
    Nat → List (Option Card) → List (Option Card) × List LogEvent
  | _, [] => ([], [])
  | i, none :: rest =>
    let (zs, evs) := healFullZonesFrom pi (i + 1) rest
    (none :: zs, evs)
  | i, some c :: rest =>
    let (zs, evs) := healFullZonesFrom pi (i + 1) rest
    (some { c with hp := c.maxHp } :: zs,
     { type := "HERO_PASSIVE_HEAL_FULL", player := some pi, zone := some (i : Int),
       hpBefore := some c.hp, hpAfter := some c.maxHp,
       cardInstanceId := some c.instanceId } :: evs)

/-- `_apply_end_turn_passives`: a hero whose `passive_end_turn` keyword is
`HERO_PASSIVE_END_TURN_HEAL_FULL` heals all of its controller's monsters to
full at the end of the controller's turn. -/
def applyEndTurnPassives (gs : GameState) (pi : Int) : GameState :=
  if pi ≠ 1 ∧ pi ≠ 2 then gs
  else
    let p := getP gs pi
    match p.hero with
    | none => gs
    | some hero =>
      match hero.effectParams.passiveEndTurn with
      | none => gs
      | some passive =>
        if passive.keyword = "HERO_PASSIVE_END_TURN_HEAL_FULL" then
          let (zs, evs) := healFullZonesFrom pi 0 p.monsterZones
          setP { gs with log := gs.log ++ evs } pi { p with monsterZones := zs }
        else gs

/-- The per-status-list tick of `_tick_statuses_on_board` for monsters:
decrement positive `FIXED_TURNS` durations; on reaching zero install the
declared `on_expire` replacement (two fixed turns) or drop the status; a
`FIXED_TURNS` status with a missing or non-positive duration is dropped
silently; everything else is kept. -/
def tickStatusEntry (s : StatusEntry) : List StatusEntry :=
  if s.durationType = "FIXED_TURNS" then
    match s.durationValue with
    | some v =>
      if v > 0 then
        if v - 1 > 0 then [{ s with durationValue := some (v - 1) }]
        else
          match s.onExpire with
          | some code =>
            [{ code := code, durationType := "FIXED_TURNS", durationValue := some 2 }]
          | none => []
      else []
    | none => []
  else [s]

/-- The hero status tick of `_tick_statuses_on_board`: like the monster
tick, but an expired status never installs a replacement. -/
def tickHeroStatusEntry (s : StatusEntry) : List StatusEntry :=
  if s.durationType = "FIXED_TURNS" then
    match s.durationValue with
    | some v =>
      if v > 0 ∧ v - 1 > 0 then [{ s with durationValue := some (v - 1) }]
      else []
    | none => []
  else [s]

/-- Tick one monster card: the new status list, plus `FROZEN` clearing
`can_attack`. -/
def tickMonsterCard (c : Card) : Card :=
  let statuses1 := c.statuses.flatMap tickStatusEntry
  let c1 := { c with statuses := statuses1 }
  if statuses1.any (fun s => s.code = "FROZEN") then { c1 with canAttack := false }
  else c1

/-- `_tick_statuses_on_board`: tick every monster's statuses and the hero's
statuses at the start of the controller's turn. -/
def tickStatusesOnBoard (p : PlayerState) : PlayerState :=
  let p1 := { p with monsterZones :=
                p.monsterZones.map (fun (s : Option Card) => s.map tickMonsterCard) }
  match p1.hero with
  | none => p1
  | some hero =>
    { p1 with hero := some { hero with statuses := hero.statuses.flatMap tickHeroStatusEntry } }

/-- The draw loop of `_draw_with_reshuffle`: draw from the front of the
deck; on an empty deck shuffle the graveyard in and continue, or stop when
both piles are empty.  Every drawn card passes through the element-variant
conversion for the player's active element.  `random.shuffle` permutes in
place, so its output of a non-empty list is non-empty; the impossible empty
result is mapped to stopping the draw. -/
def drawReshuffleLoop (env : Env) (activeElement : Option Int) :
    Nat → List Card → List Card → List Card → List Card × List Card × List Card
  | 0, deck, gy, hand => (deck, gy, hand)
  | Nat.succ _, [], [], hand => ([], [], hand)
  | Nat.succ n, [], g :: gy, hand =>
    match env.shuffle (g :: gy) with
    | [] => ([], [], hand)
    | d :: ds =>
      drawReshuffleLoop env activeElement n ds []
        (hand ++ [applyElementVariantCard env activeElement d])
  | Nat.succ n, d :: ds, gy, hand =>
    drawReshuffleLoop env activeElement n ds gy
      (hand ++ [applyElementVariantCard env activeElement d])

/-- `_draw_with_reshuffle` over a player state. -/
def drawWithReshuffle (env : Env) (p : PlayerState) (amount : Nat) : PlayerState :=
  let (deck, gy, hand) :=
    drawReshuffleLoop env p.activeElement amount p.deck p.graveyard p.hand
  { p with deck := deck, graveyard := gy, hand := hand }

/-- The target-context construction shared by the spell / trap action
branches: an optional player index, and a monster coordinate resolved
through `find_monster_by_instance_id` (an empty id string is Python-falsy
and skipped, and an unresolved id silently leaves the monster target
unset). -/
def buildTargets (gs : GameState) (tp : Option Int) (tm : Option String) : Targets :=
  let t1 : Targets := { player := tp }
  match tm with
  | none => t1
  | some mid =>
    if mid = "" then t1
    else
      match findMonsterByInstanceId gs mid with
      | none => t1
      | some f => { t1 with monster := some (f.playerIndex, (f.zoneIndex : Int)) }

/-- The `turn_state.setdefault(...)` plus stale-turn refresh that every
counter-guarded action branch performs: a missing entry or an entry from a
different turn counts as fresh zeros for the current turn. -/
def refreshedCounters (gs : GameState) (pi : Int) : TurnCounters :=
  let t :=
    match getTS gs pi with
    | none => { turn := gs.turn : TurnCounters }
    | some t => t
  if t.turn ≠ gs.turn then { turn := gs.turn } else t

/-- The `PLAY_MONSTER` request payload. -/
structure PlayMonsterPayload where
  cardInstanceId : String
  zoneIndex : Int
  tributeInstanceIds : List String := []
deriving DecidableEq, Repr

/-- The `PLAY_SPELL` request payload. -/
structure PlaySpellPayload where
  cardInstanceId : String
  targetPlayerIndex : Option Int := none
  targetMonsterInstanceId : Option String := none
deriving DecidableEq, Repr

/-- The `PLAY_TRAP` request payload. -/
structure PlayTrapPayload where
  cardInstanceId : String
  zoneIndex : Int
deriving DecidableEq, Repr

/-- The `ACTIVATE_TRAP` request payload. -/
structure ActivateTrapPayload where
  trapInstanceId : String
  targetPlayerIndex : Option Int := none
  targetMonsterInstanceId : Option String := none
deriving DecidableEq, Repr

/-- The `ACTIVATE_HERO_ABILITY` request payload. -/
structure ActivateHeroAbilityPayload where
  targetPlayerIndex : Option Int := none
  targetMonsterInstanceId : Option String := none
deriving DecidableEq, Repr

/-- The `ATTACK_MONSTER` request payload. -/
structure AttackMonsterPayload where
  attackerInstanceId : String
  defenderInstanceId : String
deriving DecidableEq, Repr

/-- The `ATTACK_PLAYER` request payload. -/
structure AttackPlayerPayload where
  attackerInstanceId : String
deriving DecidableEq, Repr

/-- One battle action with its payload.  A request naming an action but
missing its payload is rejected by the source before touching state and is
unrepresentable here. -/
inductive BattleAction where
  | endTurn
  | playMonster (p : PlayMonsterPayload)
  | playSpell (p : PlaySpellPayload)
  | playTrap (p : PlayTrapPayload)
  | activateTrap (p : ActivateTrapPayload)
  | activateHeroAbility (p : ActivateHeroAbilityPayload)
  | attackMonster (p : AttackMonsterPayload)
  | attackPlayer (p : AttackPlayerPayload)
deriving DecidableEq, Repr

/-- The suspended-intent descriptor of a pending-decision response: the
`pending_action` dict of the wire contract. -/
structure PendingAction where
  action : String := ""
  playerIndex : Option Int := none
  playSpell : Option PlaySpellPayload := none
  attackMonster : Option AttackMonsterPayload := none
  attackPlayer : Option AttackPlayerPayload := none
deriving DecidableEq, Repr

/-- The extra fields of a pending-decision response of `battle_action`. -/
structure PendingDecision where
  trapTriggersAvailable : List TrapTrigger
  triggerPlayerIndex : Int
  pendingAction : PendingAction
  triggerType : String
  triggerEvent : TriggerEvent
deriving DecidableEq, Repr

/-- The observable outcome of one `battle_action` call: a completed
transition, a suspended pending-trap decision carrying the in-memory state
the endpoint echoes back, or a rejection (an `HTTPException` or an
uncaught exception).  Which of these persists anything is decided by
`battleActionStep`. -/
inductive ActionOutcome where
  | ok (gs : GameState)
  | pending (gs : GameState) (p : PendingDecision)
  | err (reason : String)
deriving DecidableEq, Repr

/-- The rejection reason raised when an AI-owned trap should auto-trigger:
`main.py` then executes `from app.engine.action_handlers import
handle_activate_trap`, and `app/engine/action_handlers.py` is not an
importable module (from line 195 on it is markdown prose, starting with a
code fence), so the deferred import raises `SyntaxError` and the request
fails with an unhandled server error and no persistence.  The branch body
after the import (trap auto-activation, cancellation handling, combat
continuation) is unreachable. -/
def actionHandlersImportError : String :=
  "SyntaxError importing app.engine.action_handlers"

/-- The monster-zone refresh loop at the start of the new active player's
turn inside the `END_TURN` branch: flip face-down monsters face-up, then
grant `can_attack` to live monsters except those whose recorded summon turn
equals the turn now starting. -/
def refreshMonsterZonesForTurn (newTurn : Int) (zs : List (Option Card)) :
    List (Option Card) :=
  zs.map fun slot =>
    match slot with
    | none => none
    | some c =>
      let c1 := if c.faceDown then { c with faceDown := false } else c
      if c1.hp > 0 then
        if c1.summonedTurn = some newTurn then some { c1 with canAttack := false }
        else some { c1 with canAttack := true }
      else some c1

/-- The `END_TURN` branch of `battle_action`: end-of-turn hero passives for
the ending player, turn increment and hand-over, the new active player's
start-of-turn refresh (face-up flip, attack refresh, status tick, draw two
with reshuffle), a fresh per-turn counter record for the new active player,
and phase `main`. -/
def endTurnAction (env : Env) (gs0 : GameState) (pi : Int) : ActionOutcome :=
  let nextPlayer := if gs0.currentPlayer = 1 then 2 else 1
  let gs1 := applyEndTurnPassives gs0 gs0.currentPlayer
  let gs2 := { gs1 with turn := gs1.turn + 1, currentPlayer := nextPlayer }
  let p := getP gs2 nextPlayer
  let p1 := { p with monsterZones := refreshMonsterZonesForTurn gs2.turn p.monsterZones }
  let p2 := tickStatusesOnBoard p1
  let p3 := drawWithReshuffle env p2 2
  let gs3 := setP gs2 nextPlayer p3
  let gs4 := setTS gs3 nextPlayer (some { turn := gs3.turn })
  .ok { gs4 with
        phase := "main"
        log := gs4.log ++ [{ type := "END_TURN", player := some pi }] }

/-- The tribute-removal loop shared by the hero and 4-5 star summon
branches: each tribute id is looked up among the monster zones, moved to
the graveyard, and its slot emptied; a missing id aborts with that id. -/
def removeTributesLoop (zones : List (Option Card)) (gy : List Card) :
    List String → Except String (List (Option Card) × List Card)
  | [] => .ok (zones, gy)
  | tid :: rest =>
    match findInZones zones tid with
    | none => .error tid
    | some (zi, c) => removeTributesLoop (zones.set zi none) (gy ++ [c]) rest

/-- The `PLAY_MONSTER` branch of `battle_action`: the per-turn summon
limit, the hand lookup (after filtering entries without an instance id),
the element-variant conversion under the player's active element, and the
star-tier dispatch — hero kind or six stars to the hero branch (two
tributes, hero slot, never attacks, element retarget plus aura), one to
three stars summoned face-down without tributes and unable to attack, four
or five stars with exactly one tribute summoned face-up and able to attack,
anything else a configuration error. -/
def playMonsterAction (env : Env) (gs : GameState) (pi : Int)
    (pm : PlayMonsterPayload) : ActionOutcome :=
  let pt := refreshedCounters gs pi
  if pt.summons ≥ 1 then .err "Summon limit reached (1 per turn)"
  else
    let p := getP gs pi
    let hand := p.hand.filter (fun c => c.instanceId ≠ "")
    match findInHand hand pm.cardInstanceId with
    | none => .err "Card not in hand"
    | some (hi, card0) =>
      let hand1 := hand.eraseIdx hi
      let card1 := applyElementVariantCard env p.activeElement card0
      if card1.cardType = .hero ∨ card1.stars = 6 then
        if pm.tributeInstanceIds.length ≠ 2 then .err "Hero requires exactly 2 tributes"
        else if p.hero.isSome then .err "Hero zone already occupied"
        else
          match removeTributesLoop p.monsterZones p.graveyard pm.tributeInstanceIds with
          | .error _ =>
            .err "Selected tribute is no longer on the board. Please reselect tributes."
          | .ok (zones1, gy1) =>
            let heroCard := { card1 with faceDown := false, canAttack := false,
                                         summonedTurn := some gs.turn }
            let pA := { p with
                        hero := some heroCard
                        monsterZones := zones1
                        graveyard := gy1
                        hand := hand1
                        activeElement := heroCard.elementId }
            let pB := retargetPlayerCards env pA heroCard.elementId
            let gsA := setP gs pi pB
            let gsB := applyHeroPassiveAura gsA pi heroCard none
            let gsC := setTS gsB pi (some { pt with summons := 1 })
            .ok { gsC with
                  phase := "main"
                  log := gsC.log ++
                    [{ type := "PLAY_HERO", player := some pi,
                       cardInstanceId := some pm.cardInstanceId }] }
      else if 1 ≤ card1.stars ∧ card1.stars ≤ 3 then
        if pm.zoneIndex < 0 ∨ pm.zoneIndex ≥ (p.monsterZones.length : Int) then
          .err "Invalid monster zone index"
        else if (p.monsterZones.getD pm.zoneIndex.toNat none).isSome then
          .err "Monster zone is already occupied"
        else if pm.tributeInstanceIds ≠ [] then
          .err "1-3 star monsters do not require tributes"
        else
          let placed := { card1 with faceDown := true, canAttack := false,
                                     summonedTurn := some gs.turn }
          let pA := { p with
                      monsterZones := p.monsterZones.set pm.zoneIndex.toNat (some placed)
                      hand := hand1 }
          let gsA := setP gs pi pA
          let gsB :=
            match p.hero with
            | some h => applyHeroPassiveAura gsA pi h (some pm.zoneIndex.toNat)
            | none => gsA
          let gsC := setTS gsB pi (some { pt with summons := 1 })
          .ok { gsC with
                phase := "main"
                log := gsC.log ++
                  [{ type := "PLAY_MONSTER", player := some pi,
                     cardInstanceId := some pm.cardInstanceId,
                     zone := some pm.zoneIndex }] }
      else if card1.stars = 4 ∨ card1.stars = 5 then
        if pm.zoneIndex < 0 ∨ pm.zoneIndex ≥ (p.monsterZones.length : Int) then
          .err "Invalid monster zone index"
        else if (p.monsterZones.getD pm.zoneIndex.toNat none).isSome then
          .err "Monster zone is already occupied"
        else if pm.tributeInstanceIds.length ≠ 1 then
          .err "4-5 star monsters require exactly 1 tribute"
        else
          match removeTributesLoop p.monsterZones p.graveyard pm.tributeInstanceIds with
          | .error tid => .err ("Tribute monster " ++ tid ++ " not found")
          | .ok (zones1, gy1) =>
            let placed := { card1 with faceDown := false, canAttack := true,
                                       summonedTurn := some gs.turn }
            let pA := { p with
                        monsterZones := zones1.set pm.zoneIndex.toNat (some placed)
                        graveyard := gy1
                        hand := hand1 }
            let gsA := setP gs pi pA
            let gsB :=
              match p.hero with
              | some h => applyHeroPassiveAura gsA pi h (some pm.zoneIndex.toNat)
              | none => gsA
            let gsC := setTS gsB pi (some { pt with summons := 1 })
            .ok { gsC with
                  phase := "main"
                  log := gsC.log ++
                    [{ type := "PLAY_MONSTER", player := some pi,
                       cardInstanceId := some pm.cardInstanceId,
                       zone := some pm.zoneIndex }] }
      else .err ("Invalid star count: " ++ toString card1.stars)

/-- The `PLAY_SPELL` branch of `battle_action`: the per-turn spell/trap
limit, the hand lookup and kind check, the `ON_SPELL_CAST` trap-interrupt
check (an AI defender's auto-trigger dies at the `action_handlers` import;
a human defender suspends the intent), then effect resolution, destroyed
reconciliation, graveyard move, counter increment and the lethal check. -/
def playSpellAction (mode : String) (gs : GameState) (pi : Int)
    (ps : PlaySpellPayload) : ActionOutcome :=
  let pt := refreshedCounters gs pi
  if pt.spellsTraps ≥ 1 then .err "Spell/Trap play limit reached (1 per turn)"
  else
    let p := getP gs pi
    let hand := p.hand.filter (fun c => c.instanceId ≠ "")
    match findInHand hand ps.cardInstanceId with
    | none => .err "Spell card not in hand"
    | some (hi, card) =>
      if card.cardType ≠ .spell then .err "Selected card is not a spell"
      else
        let hand1 := hand.eraseIdx hi
        let gs1 := setP gs pi { p with hand := hand1 }
        let defIdx := otherPlayerIndex pi
        let avail := getAvailableTrapTriggers gs1 defIdx "ON_SPELL_CAST"
        if avail ≠ [] then
          if mode = "PVE" ∧ defIdx = 2 then .err actionHandlersImportError
          else
            .pending gs1
              { trapTriggersAvailable := avail
                triggerPlayerIndex := defIdx
                pendingAction := { action := "PLAY_SPELL", playerIndex := some pi,
                                   playSpell := some ps }
                triggerType := "ON_SPELL_CAST"
                triggerEvent := { type := "SPELL_CAST", cardName := card.name,
                                  spellCard := some card,
                                  spellTarget := ps.targetMonsterInstanceId,
                                  spellCaster := some pi } }
        else
          let targets := buildTargets gs1 ps.targetPlayerIndex ps.targetMonsterInstanceId
          let ctx : EffectCtx :=
            { sourcePlayer := pi, sourceCard := card, targets := targets }
          let (gs2, eres) := resolveCardEffects gs1 ctx
          let gs3 := handleDestroyedMonsters gs2 eres.destroyedMonsters
          let p3 := getP gs3 pi
          let gs4 := setP gs3 pi { p3 with graveyard := p3.graveyard ++ [card] }
          let gs5 := { gs4 with log := gs4.log ++
                       [{ type := "PLAY_SPELL", player := some pi,
                          cardInstanceId := some ps.cardInstanceId }] }
          let gs6 := setTS gs5 pi (some { pt with spellsTraps := 1 })
          .ok (checkLethalAfterNoncombat gs6 "spell_effects")

/-- The `PLAY_TRAP` branch of `battle_action`: the per-turn spell/trap
limit, zone bounds and occupancy, the hand lookup and kind check; the trap
is set face-down with `can_attack` cleared, the counter incremented, and no
effects evaluated. -/
def playTrapAction (gs : GameState) (pi : Int) (ptp : PlayTrapPayload) : ActionOutcome :=
  let pt := refreshedCounters gs pi
  if pt.spellsTraps ≥ 1 then .err "Spell/Trap play limit reached"
  else
    let p := getP gs pi
    if ptp.zoneIndex < 0 ∨ ptp.zoneIndex ≥ (p.spellTrapZones.length : Int) then
      .err "Invalid spell/trap zone index"
    else if (p.spellTrapZones.getD ptp.zoneIndex.toNat none).isSome then
      .err "Spell/Trap zone is already occupied"
    else
      let hand := p.hand.filter (fun c => c.instanceId ≠ "")
      match findInHand hand ptp.cardInstanceId with
      | none => .err "Trap card not in hand"
      | some (hi, card) =>
        if card.cardType ≠ .trap then .err "Selected card is not a trap"
        else
          let hand1 := hand.eraseIdx hi
          let card1 := { card with faceDown := true, canAttack := false }
          let pA := { p with
                      hand := hand1
                      spellTrapZones := p.spellTrapZones.set ptp.zoneIndex.toNat (some card1) }
          let gsA := setP gs pi pA
          let gsB := setTS gsA pi (some { pt with spellsTraps := 1 })
          .ok { gsB with log := gsB.log ++
                [{ type := "PLAY_TRAP", player := some pi,
                   cardInstanceId := some ptp.cardInstanceId,
                   zone := some ptp.zoneIndex }] }

/-- The `ACTIVATE_TRAP` branch of `battle_action` (the manual activation
path): find the set trap by instance id, resolve its effects with the
supplied targets, reconcile destroyed monsters, move the trap to the
graveyard, and run the lethal check.  No per-turn counter is consulted. -/
def activateTrapAction (gs : GameState) (pi : Int) (atp : ActivateTrapPayload) :
    ActionOutcome :=
  let p := getP gs pi
  match findInZones p.spellTrapZones atp.trapInstanceId with
  | none => .err "Trap card not found on battlefield"
  | some (zi, trapCard) =>
    if trapCard.cardType ≠ .trap then .err "Selected card is not a trap"
    else
      let targets := buildTargets gs atp.targetPlayerIndex atp.targetMonsterInstanceId
      let ctx : EffectCtx :=
        { sourcePlayer := pi, sourceCard := trapCard, targets := targets }
      let (gs1, eres) := resolveCardEffects gs ctx
      let gs2 := handleDestroyedMonsters gs1 eres.destroyedMonsters
      let p2 := getP gs2 pi
      let gs3 := setP gs2 pi
        { p2 with
          spellTrapZones := p2.spellTrapZones.set zi none
          graveyard := p2.graveyard ++ [trapCard] }
      let gs4 := { gs3 with log := gs3.log ++
                   [{ type := "ACTIVATE_TRAP", player := some pi,
                      cardInstanceId := some atp.trapInstanceId }] }
      .ok (checkLethalAfterNoncombat gs4 "trap_effects")

/-- The live-slot enumeration
`[(idx, m) for idx, m in enumerate(...) if m is not None and m.get("hp", 0) > 0]`
used by hero-ability auto-targeting. -/
def aliveIndexedFrom : Nat → List (Option Card) → List (Nat × Card)
  | _, [] => []
  | i, none :: rest => aliveIndexedFrom (i + 1) rest
  | i, some c :: rest =>
    if c.hp > 0 then (i, c) :: aliveIndexedFrom (i + 1) rest
    else aliveIndexedFrom (i + 1) rest

/-- The `ACTIVATE_HERO_ABILITY` branch of `battle_action`: the per-turn
hero-ability limit and hero-presence check, target auto-selection (a
supplied monster id must resolve; otherwise exactly one live enemy monster
is auto-targeted, zero falls back to the enemy player, and more than one is
rejected), the ability card built from the declared `active_ability` (with
an `effect_tags` fallback for the keyword), resolution, destroyed
reconciliation and the counter increment.  This branch runs no lethal
check. -/
def activateHeroAbilityAction (gs : GameState) (pi : Int)
    (aha : ActivateHeroAbilityPayload) : ActionOutcome :=
  let pt := refreshedCounters gs pi
  if pt.heroAbility ≥ 1 then .err "Hero ability already used this turn"
  else
    let p := getP gs pi
    match p.hero with
    | none => .err "No hero on field"
    | some hero =>
      let oppIdx := if pi = 1 then 2 else 1
      let targetsE : Except String Targets :=
        match aha.targetMonsterInstanceId with
        | some mid =>
          if mid = "" then .error "AUTO"
          else
            match findMonsterByInstanceId gs mid with
            | none => .error "Target monster not found"
            | some f => .ok { monster := some (f.playerIndex, (f.zoneIndex : Int)) }
        | none => .error "AUTO"
      let targetsE2 : Except String Targets :=
        match targetsE with
        | .ok t => .ok t
        | .error e =>
          if e = "AUTO" then
            let opp := getP gs oppIdx
            match aliveIndexedFrom 0 opp.monsterZones with
            | [(zi, _)] => .ok { monster := some (oppIdx, (zi : Int)) }
            | [] => .ok { player := some oppIdx }
            | _ => .error "Hero ability requires selecting a target monster"
          else .error e
      match targetsE2 with
      | .error e => .err e
      | .ok targets0 =>
        let targets :=
          match aha.targetPlayerIndex with
          | some tp => { targets0 with player := some tp }
          | none => targets0
        let abilityCardE : Except String Card :=
          match hero.effectParams.activeAbility with
          | some ab =>
            let kw :=
              if ab.keyword ≠ "" then ab.keyword
              else
                match hero.effectTags.find?
                    (fun t => "HERO_ACTIVE_".data.isPrefixOf t.data) with
                | some t => t
                | none => ""
            if kw = "" then .error "Hero active ability keyword not found"
            else .ok { hero with effectParams := { effects := [{ ab with keyword := kw }] } }
          | none => .ok hero
        match abilityCardE with
        | .error e => .err e
        | .ok abilityCard =>
          let ctx : EffectCtx :=
            { sourcePlayer := pi, sourceCard := abilityCard, targets := targets,
              trigger := some "HERO_ACTIVE",
              triggerEvent := some { type := "HERO_ACTIVE" } }
          let (gs1, eres) := resolveCardEffects gs ctx
          let gs2 := handleDestroyedMonsters gs1 eres.destroyedMonsters
          let gs3 := { gs2 with log := gs2.log ++
                       [{ type := "ACTIVATE_HERO_ABILITY", player := some pi,
                          cardInstanceId := some hero.instanceId }] }
          .ok (setTS gs3 pi (some { pt with heroAbility := 1 }))

/-- The `ATTACK_MONSTER` branch of `battle_action`.  Attacker and defender
are located by instance id on the two boards; an eligible defending trap on
`ON_ATTACK_DECLARED` interrupts before combat (AI defender: the
auto-trigger import failure; human defender: suspension without
persistence).  Combat applies simultaneous clamped damage with attack
values clamped at zero and overflow spillover to both players' life
totals.  A participant dropping to zero re-checks
`ON_ALLY_MONSTER_WOULD_BE_DESTROYED` traps on its owner's side (same AI /
human split — the human split suspends with the combat-mutated in-memory
state that is never persisted); with no eligible traps the re-check of the
current HP decides the graveyard move, a surviving attacker's `can_attack`
is cleared, and the lethal check completes the branch. -/
def attackMonsterAction (mode : String) (gs : GameState) (pi : Int)
    (am : AttackMonsterPayload) : ActionOutcome :=
  let defIdx := if pi = 1 then 2 else 1
  let atkP := getP gs pi
  let defP := getP gs defIdx
  match findInZones atkP.monsterZones am.attackerInstanceId with
  | none => .err "Attacker not found on battlefield"
  | some (ai, attacker) =>
    if ¬attacker.canAttack then .err "This monster cannot attack right now"
    else if attacker.hp ≤ 0 then .err "This monster has been destroyed"
    else
      match findInZones defP.monsterZones am.defenderInstanceId with
      | none => .err "Defender not found on battlefield"
      | some (di, defender) =>
        let declaredTraps := getAvailableTrapTriggers gs defIdx "ON_ATTACK_DECLARED"
        if declaredTraps ≠ [] then
          if mode = "PVE" ∧ defIdx = 2 then .err actionHandlersImportError
          else
            .pending gs
              { trapTriggersAvailable := declaredTraps
                triggerPlayerIndex := defIdx
                pendingAction := { action := "ATTACK_MONSTER", playerIndex := some pi,
                                   attackMonster := some am }
                triggerType := "ON_ATTACK_DECLARED"
                triggerEvent := { type := "ATTACK_MONSTER",
                                  attackerInstanceId := some am.attackerInstanceId,
                                  defenderInstanceId := some am.defenderInstanceId,
                                  attackingPlayer := some pi,
                                  defendingPlayer := some defIdx } }
        else
          let defender1 := { defender with faceDown := false }
          let attackerHpBefore := attacker.hp
          let defenderHpBefore := defender1.hp
          let atkValue := max attacker.atk 0
          let defValue := max defender1.atk 0
          let defenderHpAfter := max 0 (defenderHpBefore - atkValue)
          let attackerHpAfter := max 0 (attackerHpBefore - defValue)
          let defender2 := { defender1 with hp := defenderHpAfter }
          let attacker2 := { attacker with hp := attackerHpAfter }
          let overflowToDefPlayer := max 0 (atkValue - defenderHpBefore)
          let overflowToAtkPlayer := max 0 (defValue - attackerHpBefore)
          let atkPlayerHpAfter := max 0 (atkP.hp - overflowToAtkPlayer)
          let defPlayerHpAfter := max 0 (defP.hp - overflowToDefPlayer)
          let atkP1 := { atkP with
                         hp := atkPlayerHpAfter
                         monsterZones := atkP.monsterZones.set ai (some attacker2) }
          let defP1 := { defP with
                         hp := defPlayerHpAfter
                         monsterZones := defP.monsterZones.set di (some defender2) }
          let gs1 := setP (setP gs pi atkP1) defIdx defP1
          let defenderDied := defenderHpAfter ≤ 0
          let attackerDied := attackerHpAfter ≤ 0
          if defenderDied ∧
              getAvailableTrapTriggers gs1 defIdx "ON_ALLY_MONSTER_WOULD_BE_DESTROYED" ≠ [] then
            if mode = "PVE" ∧ defIdx = 2 then .err actionHandlersImportError
            else
              .pending gs1
                { trapTriggersAvailable :=
                    getAvailableTrapTriggers gs1 defIdx "ON_ALLY_MONSTER_WOULD_BE_DESTROYED"
                  triggerPlayerIndex := defIdx
                  pendingAction := { action := "ATTACK_MONSTER", playerIndex := some pi,
                                     attackMonster := some am }
                  triggerType := "ON_ALLY_MONSTER_WOULD_BE_DESTROYED"
                  triggerEvent := { type := "MONSTER_WOULD_BE_DESTROYED",
                                    monsterInstanceId := some am.defenderInstanceId,
                                    playerIndex := some defIdx,
                                    zoneIndex := some (di : Int),
                                    attackerInstanceId := some am.attackerInstanceId,
                                    attackerAtk := some atkValue,
                                    attackingPlayer := some pi,
                                    defendingPlayer := some defIdx } }
          else if attackerDied ∧
              getAvailableTrapTriggers gs1 pi "ON_ALLY_MONSTER_WOULD_BE_DESTROYED" ≠ [] then
            if mode = "PVE" ∧ pi = 2 then .err actionHandlersImportError
            else
              .pending gs1
                { trapTriggersAvailable :=
                    getAvailableTrapTriggers gs1 pi "ON_ALLY_MONSTER_WOULD_BE_DESTROYED"
                  triggerPlayerIndex := pi
                  pendingAction := { action := "ATTACK_MONSTER", playerIndex := some pi,
                                     attackMonster := some am }
                  triggerType := "ON_ALLY_MONSTER_WOULD_BE_DESTROYED"
                  triggerEvent := { type := "MONSTER_WOULD_BE_DESTROYED",
                                    monsterInstanceId := some am.attackerInstanceId,
                                    playerIndex := some pi,
                                    zoneIndex := some (ai : Int) } }
          else
            let gs2 :=
              if defenderDied then
                match findMonsterByInstanceId gs1 am.defenderInstanceId with
                | some f =>
                  if f.card.hp > 0 then
                    let dp := getP gs1 defIdx
                    setP gs1 defIdx
                      { dp with monsterZones := dp.monsterZones.set di (some f.card) }
                  else
                    let dp := getP gs1 defIdx
                    setP gs1 defIdx
                      { dp with
                        monsterZones := dp.monsterZones.set di none
                        graveyard := dp.graveyard ++ [defender2] }
                | none =>
                  let dp := getP gs1 defIdx
                  setP gs1 defIdx
                    { dp with
                      monsterZones := dp.monsterZones.set di none
                      graveyard := dp.graveyard ++ [defender2] }
              else gs1
            let gs3 :=
              if attackerDied then
                match findMonsterByInstanceId gs2 am.attackerInstanceId with
                | some f =>
                  if f.card.hp > 0 then
                    let ap := getP gs2 pi
                    setP gs2 pi
                      { ap with monsterZones :=
                          ap.monsterZones.set ai (some { f.card with canAttack := false }) }
                  else
                    let ap := getP gs2 pi
                    setP gs2 pi
                      { ap with
                        monsterZones := ap.monsterZones.set ai none
                        graveyard := ap.graveyard ++ [attacker2] }
                | none =>
                  let ap := getP gs2 pi
                  setP gs2 pi
                    { ap with
                      monsterZones := ap.monsterZones.set ai none
                      graveyard := ap.graveyard ++ [attacker2] }
              else
                let ap := getP gs2 pi
                setP gs2 pi
                  { ap with monsterZones :=
                      ap.monsterZones.set ai (some { attacker2 with canAttack := false }) }
            let gs4 := { gs3 with log := gs3.log ++
                         [{ type := "ATTACK_MONSTER", player := some pi,
                            amount := some atkValue,
                            hpBefore := some defenderHpBefore,
                            hpAfter := some defenderHpAfter,
                            cardInstanceId := some am.attackerInstanceId }] }
            let atkDead := atkPlayerHpAfter ≤ 0
            let defDead := defPlayerHpAfter ≤ 0
            if atkDead ∧ defDead then
              .ok { gs4 with
                    status := "completed"
                    winner := none
                    log := gs4.log ++ [{ type := "MATCH_END", winner := none,
                                         reason := some "double_lethal" }] }
            else if defDead then
              .ok { gs4 with
                    status := "completed"
                    winner := some pi
                    log := gs4.log ++ [{ type := "MATCH_END", winner := some pi,
                                         reason := some "combat_lethal" }] }
            else if atkDead then
              .ok { gs4 with
                    status := "completed"
                    winner := some defIdx
                    log := gs4.log ++ [{ type := "MATCH_END", winner := some defIdx,
                                         reason := some "combat_lethal" }] }
            else .ok gs4

/-- The `ATTACK_PLAYER` branch of `battle_action`: only legal with zero
occupied defending monster slots; the same attacker eligibility and
`ON_ATTACK_DECLARED` interrupt checks; damage equal to the attacker's ATK
(clamped at zero) applied to the defending player's life with no overflow
concept; the attacker's `can_attack` cleared; lethal check. -/
def attackPlayerAction (mode : String) (gs : GameState) (pi : Int)
    (ap : AttackPlayerPayload) : ActionOutcome :=
  let defIdx := if pi = 1 then 2 else 1
  let atkP := getP gs pi
  let defP := getP gs defIdx
  if defP.monsterZones.any (fun s => s.isSome) then
    .err "Opponent controls monsters; you must attack their monsters first"
  else
    match findInZones atkP.monsterZones ap.attackerInstanceId with
    | none => .err "Attacker not found on battlefield"
    | some (ai, attacker) =>
      if ¬attacker.canAttack then .err "This monster cannot attack right now"
      else if attacker.hp ≤ 0 then .err "This monster has been destroyed"
      else
        let avail := getAvailableTrapTriggers gs defIdx "ON_ATTACK_DECLARED"
        if avail ≠ [] then
          if mode = "PVE" ∧ defIdx = 2 then .err actionHandlersImportError
          else
            .pending gs
              { trapTriggersAvailable := avail
                triggerPlayerIndex := defIdx
                pendingAction := { action := "ATTACK_PLAYER", playerIndex := some pi,
                                   attackPlayer := some ap }
                triggerType := "ON_ATTACK_DECLARED"
                triggerEvent := { type := "ATTACK_PLAYER",
                                  attackerInstanceId := some ap.attackerInstanceId,
                                  attackerAtk := some attacker.atk,
                                  attackingPlayer := some pi,
                                  defendingPlayer := some defIdx } }
        else
          let atkValue := max attacker.atk 0
          let beforeHp := defP.hp
          let afterHp := max (beforeHp - atkValue) 0
          let attacker2 := { attacker with canAttack := false }
          let gs1 := setP (setP gs defIdx { defP with hp := afterHp }) pi
                       { atkP with monsterZones := atkP.monsterZones.set ai (some attacker2) }
          let gs2 := { gs1 with log := gs1.log ++
                       [{ type := "ATTACK_PLAYER", player := some pi,
                          amount := some atkValue, hpBefore := some beforeHp,
                          hpAfter := some afterHp,
                          cardInstanceId := some ap.attackerInstanceId }] }
          if afterHp ≤ 0 then
            .ok { gs2 with
                  status := "completed"
                  winner := some pi
                  log := gs2.log ++ [{ type := "MATCH_END", winner := some pi,
                                       reason := some "direct_attack" }] }
          else .ok gs2

/-- The `battle_action` endpoint body after the match row is loaded: the
row-level and state-level status checks, the turn-ownership check, the
players-dict membership check, then the per-action dispatch. -/
def battleActionCore (env : Env) (row : MatchRow) (pi : Int) (act : BattleAction) :
    ActionOutcome :=
  if row.rowStatus ≠ "in_progress" then .err "Match is not in progress"
  else
    let gs := row.state
    if gs.status ≠ "in_progress" then .err "Match is not in progress"
    else if gs.currentPlayer ≠ pi then .err "It is not this player's turn"
    else if pi ≠ 1 ∧ pi ≠ 2 then .err "Player state missing"
    else
      match act with
      | .endTurn => endTurnAction env gs pi
      | .playMonster pm => playMonsterAction env gs pi pm
      | .playSpell ps => playSpellAction row.mode gs pi ps
      | .playTrap ptp => playTrapAction gs pi ptp
      | .activateTrap atp => activateTrapAction gs pi atp
      | .activateHeroAbility aha => activateHeroAbilityAction gs pi aha
      | .attackMonster am => attackMonsterAction row.mode gs pi am
      | .attackPlayer app2 => attackPlayerAction row.mode gs pi app2

/-- The `battle_action` endpoint over the persistence row: only a completed
outcome reaches the final `supabase.update` (which also refreshes the
row-level status column from the state); a pending-decision return and a
raised rejection both leave the stored row untouched. -/
def battleActionStep (env : Env) (row : MatchRow) (pi : Int) (act : BattleAction) :
    MatchRow × ActionOutcome :=
  match battleActionCore env row pi act with
  | .ok gs => ({ row with state := gs, rowStatus := gs.status }, .ok gs)
  | .pending gs p => (row, .pending gs p)
  | .err r => (row, .err r)

/-- The `/battle/trigger-trap` request body. -/
structure TriggerTrapRequest where
  playerIndex : Int
  trapInstanceId : String
  pendingAction : Option PendingAction := none
  triggerType : Option String := none
  triggerEvent : Option TriggerEvent := none
deriving DecidableEq, Repr

/-- The `/battle/trigger-trap` response payload (alongside the updated
state). -/
structure TriggerTrapResult where
  state : GameState
  trapActivated : Bool
  cancelledAction : Bool
  attackCompleted : Bool
deriving DecidableEq, Repr

/-- The target extraction of `trigger_trap` from the trigger event:
prevent-destruction triggers resolve the threatened monster, attack
triggers resolve the attacker plus the attacking player (a zero attacking
player is Python-falsy and skipped). -/
def triggerTrapTargets (gs : GameState) (te : TriggerEvent) : Targets :=
  if te.type = "MONSTER_WOULD_BE_DESTROYED" then
    match te.monsterInstanceId with
    | some mid =>
      if mid = "" then {}
      else
        match findMonsterByInstanceId gs mid with
        | none => {}
        | some f => { monster := some (f.playerIndex, (f.zoneIndex : Int)) }
    | none => {}
  else if te.type = "ATTACK_MONSTER" ∨ te.type = "ATTACK_PLAYER" then
    match te.attackerInstanceId with
    | some aid =>
      if aid = "" then {}
      else
        match findMonsterByInstanceId gs aid with
        | none => {}
        | some f =>
          let t : Targets := { monster := some (f.playerIndex, (f.zoneIndex : Int)) }
          match te.attackingPlayer with
          | some ap => if ap = 0 then t else { t with player := some ap }
          | none => t
    | none => {}
  else {}

/-- The spell-reflection block of `trigger_trap`: when a reflecting counter
cancelled a pending `PLAY_SPELL`, the original spell card (carried in the
trigger event) is re-resolved by the trap controller against the first live
monster on the original caster's side, followed by destroyed reconciliation
and a lethal check.  With no live monster on the caster's side, or missing
event data, nothing happens. -/
def reflectSpellBack (gs : GameState) (req : TriggerTrapRequest) (te : TriggerEvent) :
    GameState :=
  let pa := (req.pendingAction).getD {}
  match te.spellCard, pa.playerIndex with
  | some spellCard, some caster =>
    if caster = 0 then gs
    else if caster ≠ 1 ∧ caster ≠ 2 then gs
    else
      let casterState := getP gs caster
      match (casterState.monsterZones.filterMap id).filter (fun m => m.hp > 0) with
      | [] => gs
      | t :: _ =>
        match findMonsterByInstanceId gs t.instanceId with
        | none => gs
        | some f =>
          let ctx : EffectCtx :=
            { sourcePlayer := req.playerIndex, sourceCard := spellCard,
              targets := { monster := some (f.playerIndex, (f.zoneIndex : Int)) } }
          let (gs1, rres) := resolveCardEffects gs ctx
          let gs2 := handleDestroyedMonsters gs1 rres.destroyedMonsters
          let gs3 := { gs2 with log := gs2.log ++
                       [{ type := "SPELL_REFLECTED", player := some req.playerIndex }] }
          checkLethalAfterNoncombat gs3 "reflected_spell_effects"
  | _, _ => gs

/-- The `trigger_trap` endpoint body after the row is loaded: locate the
face-down trap, resolve it with targets derived from the trigger event,
reconcile destroyed monsters, consume the trap to the graveyard, handle
cancellation (with optional spell reflection), and compute the
`attack_completed` flag — set exactly when a non-cancelling trap resolved
an `ON_ALLY_MONSTER_WOULD_BE_DESTROYED` interrupt of a pending
`ATTACK_MONSTER`, telling the client not to resend the attack.  No lethal
check runs outside the reflection block. -/
def triggerTrapCore (row : MatchRow) (req : TriggerTrapRequest) :
    Except String TriggerTrapResult :=
  if row.rowStatus ≠ "in_progress" then .error "Match is not in progress"
  else
    let gs := row.state
    if req.playerIndex ≠ 1 ∧ req.playerIndex ≠ 2 then .error "Player state missing"
    else
      let p := getP gs req.playerIndex
      match findInZones p.spellTrapZones req.trapInstanceId with
      | none => .error "Trap not found"
      | some (zi, trapCard) =>
        if ¬trapCard.faceDown then .error "Trap is already face-up"
        else
          let te := (req.triggerEvent).getD {}
          let targets := triggerTrapTargets gs te
          let trig :=
            match req.triggerType with
            | some t => if t = "" then "ON_SPELL_CAST" else t
            | none => "ON_SPELL_CAST"
          let ctx : EffectCtx :=
            { sourcePlayer := req.playerIndex, sourceCard := trapCard,
              targets := targets, trigger := some trig, triggerEvent := some te }
          let (gs1, eres) := resolveCardEffects gs ctx
          let gs2 := handleDestroyedMonsters gs1 eres.destroyedMonsters
          let p2 := getP gs2 req.playerIndex
          let gs3 := setP gs2 req.playerIndex
            { p2 with
              spellTrapZones := p2.spellTrapZones.set zi none
              graveyard := p2.graveyard ++ [trapCard] }
          let gs4 := { gs3 with log := gs3.log ++
                       [{ type := "TRAP_TRIGGERED", player := some req.playerIndex,
                          cardInstanceId := some req.trapInstanceId,
                          cancelled := some eres.cancelled }] }
          let gs5 :=
            if eres.cancelled ∧ req.pendingAction.isSome then
              let gsA := { gs4 with log := gs4.log ++
                           [{ type := "ACTION_CANCELLED",
                              reason := some "trap_counter" }] }
              let reflect := eres.logEvents.any
                (fun ev => ev.type = "EFFECT_COUNTER_AND_REFLECT_SPELL" ∨
                           ev.reflectSpell = some true)
              if reflect ∧ ((req.pendingAction).getD {}).action = "PLAY_SPELL" then
                reflectSpellBack gsA req te
              else gsA
            else gs4
          let attackCompleted :=
            ¬eres.cancelled ∧ req.pendingAction.isSome ∧
              ((req.pendingAction).getD {}).action = "ATTACK_MONSTER" ∧
              req.triggerType = some "ON_ALLY_MONSTER_WOULD_BE_DESTROYED"
          .ok { state := gs5, trapActivated := true,
                cancelledAction := eres.cancelled,
                attackCompleted := decide attackCompleted }

/-- The `trigger_trap` endpoint over the persistence row: the success path
updates only the serialized state (not the row-level status column); an
error leaves the row untouched. -/
def triggerTrapStep (row : MatchRow) (req : TriggerTrapRequest) :
    MatchRow × Except String TriggerTrapResult :=
  match triggerTrapCore row req with
  | .ok res => ({ row with state := res.state }, .ok res)
  | .error r => (row, .error r)

/-- `models.CardInstance.new_from_definition`: a fresh runtime instance,
face-down and unable to attack, with `max_hp` initialized from the
definition's HP.  The opaque `uuid4` instance id is supplied by the
caller. -/
def newFromDefinition (iid : String) (cd : CardDef) : Card :=
  { instanceId := iid, cardCode := cd.cardCode, name := cd.name,
    cardType := cd.cardType, stars := cd.stars, atk := cd.atk, hp := cd.hp,
    maxHp := cd.hp, elementId := cd.elementId, faceDown := true,
    canAttack := false, effectTags := cd.effectTags,
    effectParams := cd.effectParams }

/-- `factory.build_player_state`: instantiate the definitions, shuffle, and
deal `min(5, deck size)` cards from the front of the shuffled sequence as
the starting hand, with the rest as the deck and 1500 life. -/
def buildPlayerState (env : Env) (mkId : Nat → String) (playerIndex : Int)
    (name : String) (deckDefs : List CardDef) : PlayerState :=
  let instances := deckDefs.enum.map (fun (p : Nat × CardDef) => newFromDefinition (mkId p.1) p.2)
  let shuffled := env.shuffle instances
  let draws := min 5 shuffled.length
  { playerIndex := playerIndex, name := name, hp := 1500,
    deck := shuffled.drop draws, hand := shuffled.take draws }

/-- `factory.create_new_game_state`: a fresh match at turn 1 with player 1
active, phase `start`, status `in_progress`, no winner, and the initial
`GAME_INIT` log entry. -/
def createNewGameState (env : Env) (mkId1 mkId2 : Nat → String) (matchId : String)
    (p1Name p2Name : String) (deck1Defs deck2Defs : List CardDef) : GameState :=
  { matchId := matchId, turn := 1, currentPlayer := 1, phase := "start",
    status := "in_progress", winner := none,
    player1 := buildPlayerState env mkId1 1 p1Name deck1Defs,
    player2 := buildPlayerState env mkId2 2 p2Name deck2Defs,
    log := [{ type := "GAME_INIT" }] }

/-- The deck checks plus factory call of the `battle_start` endpoint
(`main.py` lines 630-649): an empty resolved deck list on either side is
rejected before the factory runs.  Player, deck-ownership and NPC lookups
are external collaborators and already resolved in the inputs here. -/
def battleStartCreate (env : Env) (mkId1 mkId2 : Nat → String) (matchId : String)
    (p1Name p2Name : String) (deck1Defs deck2Defs : List CardDef) :
    Except String GameState :=
  if deck1Defs = [] then .error "Player deck has no cards"
  else if deck2Defs = [] then .error "Player 2 deck has no cards"
  else .ok (createNewGameState env mkId1 mkId2 matchId p1Name p2Name deck1Defs deck2Defs)

/-! Concrete instances used to evaluate the model on specific inputs. -/

/-- An environment whose shuffle is the identity permutation and whose
variant lookup finds nothing. -/
def idEnv : Env := { shuffle := id, variantRow := fun _ _ => none }

/-- A hero card whose active ability deals 100 direct damage
(`HERO_ACTIVE_DAMAGE`). -/
def c2Hero : Card :=
  { instanceId := "H1", cardCode := "hero", name := "Flamecaller",
    cardType := .hero, stars := 6, faceDown := false,
    effectParams := { activeAbility := some { keyword := "HERO_ACTIVE_DAMAGE",
                                              amount := some 100 } } }

/-- A stored match where player 1 controls the damage hero and player 2 is
at 50 life with an empty board. -/
def c2Row : MatchRow :=
  { rowStatus := "in_progress", mode := "PVE",
    state := { currentPlayer := 1,
               player1 := { playerIndex := 1, hp := 1500, hero := some c2Hero },
               player2 := { playerIndex := 2, hp := 50 } } }

/-- The outcome of activating the hero ability in `c2Row`. -/
def c2Out : ActionOutcome := battleActionCore idEnv c2Row 1 (.activateHeroAbility {})

/-- The state carried by `c2Out` (the branch succeeds). -/
def c2After : GameState :=
  match c2Out with
  | .ok g => g
  | _ => {}

/-- An attacker monster for the suspended-attack scenario. -/
def c4Attacker : Card :=
  { instanceId := "A1", cardCode := "m1", name := "Raider", cardType := .monster,
    stars := 3, atk := 100, hp := 50, maxHp := 50, faceDown := false,
    canAttack := true }

/-- A defender monster that the attack would destroy. -/
def c4Defender : Card :=
  { instanceId := "D1", cardCode := "m2", name := "Guard", cardType := .monster,
    stars := 3, atk := 30, hp := 80, maxHp := 80, faceDown := false,
    canAttack := true }

/-- A face-down prevent-destruction trap on the human side. -/
def c4Trap : Card :=
  { instanceId := "T1", cardCode := "t1", name := "Last Stand Ward",
    cardType := .trap, stars := 1, faceDown := true,
    effectParams := { effects := [{ keyword := "TRAP_PREVENT_DESTRUCTION" }] } }

/-- A stored PVE match where the AI (player 2, the active player) attacks
the human player 1's monster while the human holds the set
prevent-destruction trap. -/
def c4Row : MatchRow :=
  { rowStatus := "in_progress", mode := "PVE",
    state := { currentPlayer := 2,
               player1 := { playerIndex := 1, hp := 1500,
                            monsterZones := [some c4Defender, none, none, none],
                            spellTrapZones := [some c4Trap, none, none, none] },
               player2 := { playerIndex := 2, hp := 1500,
                            monsterZones := [some c4Attacker, none, none, none] } } }

/-- The attack request of the scenario. -/
def c4Payload : AttackMonsterPayload :=
  { attackerInstanceId := "A1", defenderInstanceId := "D1" }

/-- The first call: the attack, which suspends on the human's trap. -/
def c4Step1 : MatchRow × ActionOutcome :=
  battleActionStep idEnv c4Row 2 (.attackMonster c4Payload)

/-- Whether the first call suspended on the would-be-destroyed interrupt. -/
def c4Suspended : Bool :=
  match c4Step1.2 with
  | .pending _ p => p.triggerType == "ON_ALLY_MONSTER_WOULD_BE_DESTROYED"
  | _ => false

/-- The resolve-trap call the client then makes, echoing back the pending
descriptor the first call returned. -/
def c4Req : TriggerTrapRequest :=
  { playerIndex := 1, trapInstanceId := "T1",
    pendingAction := some { action := "ATTACK_MONSTER", playerIndex := some 2,
                            attackMonster := some c4Payload },
    triggerType := some "ON_ALLY_MONSTER_WOULD_BE_DESTROYED",
    triggerEvent := some { type := "MONSTER_WOULD_BE_DESTROYED",
                           monsterInstanceId := some "D1", playerIndex := some 1,
                           zoneIndex := some 0, attackerInstanceId := some "A1",
                           attackerAtk := some 100, attackingPlayer := some 2,
                           defendingPlayer := some 1 } }

/-- The second call: resolving the trap decision against the stored row the
first call left behind. -/
def c4Step2 : MatchRow × Except String TriggerTrapResult :=
  triggerTrapStep c4Step1.1 c4Req

/-- Whether the second call succeeded without cancellation while reporting
the attack as completed. -/
def c4Completed : Bool :=
  match c4Step2.2 with
  | .ok r => r.attackCompleted && !r.cancelledAction
  | .error _ => false

/-- A one-copy deck definition used to probe the factory. -/
def c9Def : CardDef :=
  { cardCode := "c1", name := "Sprout", cardType := .monster, stars := 1,
    atk := 10, hp := 10 }

/-- An instance-id supply that numbers the instances. -/
def c9Ids : Nat → String := fun n => "inst-" ++ toString n

/-- The factory outcome on singleton (non-empty) decks. -/
def c9Out : Except String GameState :=
  battleStartCreate idEnv c9Ids c9Ids "m1" "Ann" "Bob" [c9Def] [c9Def]

/-- The state carried by `c9Out` (the creation succeeds). -/
def c9After : GameState :=
  match c9Out with
  | .ok g => g
  | .error _ => {}

/-- A face-down attack-negating trap on the AI side. -/
def c10Trap : Card :=
  { instanceId := "T2", cardCode := "t2", name := "Ambush", cardType := .trap,
    stars := 1, faceDown := true,
    effectParams := { effects := [{ keyword := "TRAP_NEGATE_ATTACK" }] } }

/-- A stored PVE match where the human player 1 attacks the AI's monster
while the AI (player 2) holds the set negate-attack trap. -/
def c10Row : MatchRow :=
  { rowStatus := "in_progress", mode := "PVE",
    state := { currentPlayer := 1,
               player1 := { playerIndex := 1, hp := 1500,
                            monsterZones := [some c4Attacker, none, none, none] },
               player2 := { playerIndex := 2, hp := 1500,
                            monsterZones := [some c4Defender, none, none, none],
                            spellTrapZones := [some c10Trap, none, none, none] } } }

/-- The outcome of the attack into the AI's eligible on-attack trap. -/
def c10Step : MatchRow × ActionOutcome :=
  battleActionStep idEnv c10Row 1 (.attackMonster c4Payload)

/-- A player holds no face-down spell/trap cards (so no trap of theirs is
eligible for any interrupt trigger). -/
def noFaceDownTraps (p : PlayerState) : Prop :=
  ∀ s ∈ p.spellTrapZones, ∀ c : Card, s = some c → c.faceDown = false

/-- The three per-turn usage counters of one `turn_state` entry are at most
one (a missing entry counts as zeros). -/
def countersLe1 : Option TurnCounters → Prop
  | none => True
  | some t => t.summons ≤ 1 ∧ t.spellsTraps ≤ 1 ∧ t.heroAbility ≤ 1

/-- Both players' per-turn usage counters are at most one. -/
def countersOk (gs : GameState) : Prop :=
  countersLe1 gs.turnState1 ∧ countersLe1 gs.turnState2

/-- A combat scenario for the ATTACK_MONSTER formulas: a 100-ATK/50-HP
attacker into a 30-ATK/80-HP defender. -/
def c1Attacker : Card :=
  { instanceId := "CA", cardCode := "m1", name := "Striker", cardType := .monster,
    stars := 3, atk := 100, hp := 50, maxHp := 50, faceDown := false,
    canAttack := true }

/-- The defender of the combat scenario. -/
def c1Defender : Card :=
  { instanceId := "CD", cardCode := "m2", name := "Warden", cardType := .monster,
    stars := 3, atk := 30, hp := 80, maxHp := 80, faceDown := false,
    canAttack := true }

/-- A stored PVP match where player 1 (the active player) attacks player
2's monster; neither side has a face-down trap. -/
def c1Row : MatchRow :=
  { rowStatus := "in_progress", mode := "PVP",
    state := { currentPlayer := 1,
               player1 := { playerIndex := 1, hp := 1500,
                            monsterZones := [some c1Attacker, none, none, none] },
               player2 := { playerIndex := 2, hp := 1500,
                            monsterZones := [some c1Defender, none, none, none] } } }

/-- The attack request of the combat scenario. -/
def c1Pay : AttackMonsterPayload :=
  { attackerInstanceId := "CA", defenderInstanceId := "CD" }

/-- The state the combat scenario's attack produces. -/
def c1Out : GameState :=
  match battleActionCore idEnv c1Row 1 (.attackMonster c1Pay) with
  | .ok gs => gs
  | _ => c1Row.state

/-- The endpoint outcome is a persisted ok state satisfying `P`. -/
def okWith (o : ActionOutcome) (P : GameState → Prop) : Prop :=
  match o with
  | .ok gs => P gs
  | _ => False

/-- A three-star monster in hand for the summon scenario. -/
def c3Card : Card :=
  { instanceId := "M3", cardCode := "c3", name := "Scout", cardType := .monster,
    stars := 3, atk := 40, hp := 40, maxHp := 40, faceDown := false,
    canAttack := false }

/-- A game state where player 1 holds the three-star monster and has an
empty board. -/
def c3State : GameState :=
  { currentPlayer := 1, turn := 1,
    player1 := { playerIndex := 1, hand := [c3Card] },
    player2 := { playerIndex := 2 } }

/-- The summon request of the scenario. -/
def c3Pm : PlayMonsterPayload :=
  { cardInstanceId := "M3", zoneIndex := 0 }

/-- A persisted PVP row whose active player (player 1) has already used
all three per-turn allowances this turn. -/
def c6Row : MatchRow :=
  { rowStatus := "in_progress", mode := "PVP",
    state := { currentPlayer := 1,
               turnState1 := some { summons := 1, spellsTraps := 1,
                                    heroAbility := 1, turn := 1 } } }

/-! Theorems. -/

theorem getP_setP_same (gs : GameState) (i : Int) (p : PlayerState) :
    getP (setP gs i p) i = p := by
  unfold getP setP
  by_cases h : i = 1 <;> simp [h]

theorem getP_setTS (gs : GameState) (i : Int) (t : Option TurnCounters) (j : Int) :
    getP (setTS gs i t) j = getP gs j := by
  unfold getP setTS
  by_cases h : i = 1 <;> by_cases h2 : j = 1 <;> simp [h, h2]

theorem getTS_setTS_same (gs : GameState) (i : Int) (t : Option TurnCounters) :
    getTS (setTS gs i t) i = t := by
  unfold getTS setTS
  by_cases h : i = 1 <;> simp [h]

theorem getTS_setP (gs : GameState) (i : Int) (p : PlayerState) (j : Int) :
    getTS (setP gs i p) j = getTS gs j := by
  unfold getTS setP
  by_cases h : i = 1 <;> by_cases h2 : j = 1 <;> simp [h, h2]

theorem removeTributesLoop_single (zones : List (Option Card)) (gy : List Card)
    (tid : String) (zi : Nat) (c : Card)
    (h : findInZones zones tid = some (zi, c)) :
    removeTributesLoop zones gy [tid] = .ok (zones.set zi none, gy ++ [c]) := by
  unfold removeTributesLoop
  rw [h]
  rfl

theorem retarget_hero (env : Env) (p : PlayerState) (e : Option Int) :
    (retargetPlayerCards env p e).hero = p.hero := by
  unfold retargetPlayerCards
  cases e <;> rfl

theorem retarget_graveyard (env : Env) (p : PlayerState) (e : Option Int) :
    (retargetPlayerCards env p e).graveyard = p.graveyard := by
  unfold retargetPlayerCards
  cases e <;> rfl

theorem aura_getP_hero (gs : GameState) (pi : Int) (h : Card) (tz : Option Nat) :
    (getP (applyHeroPassiveAura gs pi h tz) pi).hero = (getP gs pi).hero := by
  unfold applyHeroPassiveAura
  split
  · rfl
  · split
    · rfl
    · split
      · rfl
      · dsimp only
        split
        · split
          · split
            · rw [getP_setP_same]
            · rfl
          · rfl
        · rw [getP_setP_same]

theorem aura_getP_graveyard (gs : GameState) (pi : Int) (h : Card) (tz : Option Nat) :
    (getP (applyHeroPassiveAura gs pi h tz) pi).graveyard = (getP gs pi).graveyard := by
  unfold applyHeroPassiveAura
  split
  · rfl
  · split
    · rfl
    · split
      · rfl
      · dsimp only
        split
        · split
          · split
            · rw [getP_setP_same]
            · rfl
          · rfl
        · rw [getP_setP_same]

theorem aura_getTS (gs : GameState) (pi : Int) (h : Card) (tz : Option Nat) (j : Int) :
    getTS (applyHeroPassiveAura gs pi h tz) j = getTS gs j := by
  unfold applyHeroPassiveAura
  split
  · rfl
  · split
    · rfl
    · split
      · rfl
      · dsimp only
        split
        · split
          · split
            · rw [getTS_setP]
              unfold getTS
              by_cases hj : j = 1 <;> simp [hj]
            · rfl
          · rfl
        · rw [getTS_setP]
          unfold getTS
          by_cases hj : j = 1 <;> simp [hj]

theorem getP_update (gs : GameState) (ph : String) (L : List LogEvent) (j : Int) :
    getP { gs with phase := ph, log := L } j = getP gs j := by
  unfold getP
  by_cases h : j = 1 <;> simp [h]

theorem getTS_update (gs : GameState) (ph : String) (L : List LogEvent) (j : Int) :
    getTS { gs with phase := ph, log := L } j = getTS gs j := by
  unfold getTS
  by_cases h : j = 1 <;> simp [h]


/-- Claim C2, counterexample: activating a hero ability that drops the
opponent to 0 life leaves the match InProgress with no winner — the status
does not flip the instant a player's life reaches 0, because the
`ACTIVATE_HERO_ABILITY` branch runs no lethal check. -/
theorem C2_cex_hero_ability_no_lethal_check :
    c2Out = ActionOutcome.ok c2After ∧ c2After.player2.hp ≤ 0 ∧
      c2After.status = "in_progress" ∧ c2After.winner = none := by
  refine ⟨rfl, by decide, by decide, by decide⟩

theorem getP_setLog (gs : GameState) (L : List LogEvent) (k : Int) :
    getP { gs with log := L } k = getP gs k := by
  unfold getP; split <;> rfl

theorem getP_setSWL (gs : GameState) (st : String) (w : Option Int)
    (L : List LogEvent) (k : Int) :
    getP { gs with status := st, winner := w, log := L } k = getP gs k := by
  unfold getP; split <;> rfl

theorem status_setP (gs : GameState) (i : Int) (p : PlayerState) :
    (setP gs i p).status = gs.status := by
  unfold setP; split <;> rfl

theorem winner_setP (gs : GameState) (i : Int) (p : PlayerState) :
    (setP gs i p).winner = gs.winner := by
  unfold setP; split <;> rfl

theorem getP_hp_setP_sameHp (gs : GameState) (i : Int) (p : PlayerState) (k : Int)
    (h : p.hp = (getP gs i).hp) : (getP (setP gs i p) k).hp = (getP gs k).hp := by
  by_cases hi : i = 1 <;> by_cases hk : k = 1 <;>
    simp [getP, setP, hi, hk] at h ⊢ <;> simp [h]

theorem getP_doubleSetP_hp (gs : GameState) (i : Int) (pA pD : PlayerState) :
    (getP (setP (setP gs i pA) (if i = 1 then 2 else 1) pD) i).hp = pA.hp ∧
    (getP (setP (setP gs i pA) (if i = 1 then 2 else 1) pD)
        (if i = 1 then 2 else 1)).hp = pD.hp := by
  unfold getP setP
  by_cases hi : i = 1 <;> simp [hi]

theorem getP_doubleSetP2_hp (gs : GameState) (i : Int) (pD pA : PlayerState) :
    (getP (setP (setP gs (if i = 1 then 2 else 1) pD) i pA)
        (if i = 1 then 2 else 1)).hp = pD.hp ∧
    (getP (setP (setP gs (if i = 1 then 2 else 1) pD) i pA) i).hp = pA.hp := by
  unfold getP setP
  by_cases hi : i = 1 <;> simp [hi]

theorem attackPlayer_lethal (mode : String) (gs : GameState) (pi : Int)
    (ap : AttackPlayerPayload) (gs2 : GameState)
    (hout : attackPlayerAction mode gs pi ap = .ok gs2) :
    ((getP gs2 (if pi = 1 then 2 else 1)).hp ≤ 0 →
       gs2.status = "completed" ∧ gs2.winner = some pi) ∧
    (0 < (getP gs2 (if pi = 1 then 2 else 1)).hp →
       gs2.status = gs.status ∧ gs2.winner = gs.winner) := by
  unfold attackPlayerAction at hout
  lift_lets at hout
  extract_lets dIdx atkP defP at hout
  split at hout
  · exact ActionOutcome.noConfusion hout
  split at hout
  · exact ActionOutcome.noConfusion hout
  next ai attacker heq =>
    split at hout
    · exact ActionOutcome.noConfusion hout
    split at hout
    · exact ActionOutcome.noConfusion hout
    lift_lets at hout
    extract_lets avail atkV beforeHp afterHp attacker2 gsA gsB at hout
    split at hout
    · split at hout
      · exact ActionOutcome.noConfusion hout
      · exact ActionOutcome.noConfusion hout
    have hD : (getP gsB (if pi = 1 then 2 else 1)).hp = afterHp := by
      unfold gsB
      rw [getP_setLog]
      unfold gsA dIdx
      rw [(getP_doubleSetP2_hp gs pi { defP with hp := afterHp } _).1]
    have hst : gsB.status = gs.status := by
      unfold gsB
      dsimp only
      unfold gsA
      rw [status_setP, status_setP]
    have hw : gsB.winner = gs.winner := by
      unfold gsB
      dsimp only
      unfold gsA
      rw [winner_setP, winner_setP]
    split at hout
    next hl =>
      injection hout with h
      subst h
      refine ⟨fun _ => ⟨rfl, rfl⟩, fun hc => ?_⟩
      rw [getP_setSWL, hD] at hc
      exact absurd hc (by omega)
    next hl =>
      injection hout with h
      subst h
      refine ⟨fun hc => ?_, fun _ => ⟨hst, hw⟩⟩
      rw [hD] at hc
      exact absurd hc hl

theorem attackMonster_lethal (mode : String) (gs : GameState) (pi : Int)
    (am : AttackMonsterPayload) (gs2 : GameState)
    (hout : attackMonsterAction mode gs pi am = .ok gs2) :
    ((0 < (getP gs2 pi).hp ∧ 0 < (getP gs2 (if pi = 1 then 2 else 1)).hp) →
       gs2.status = gs.status ∧ gs2.winner = gs.winner) ∧
    (((getP gs2 pi).hp ≤ 0 ∧ (getP gs2 (if pi = 1 then 2 else 1)).hp ≤ 0) →
       gs2.status = "completed" ∧ gs2.winner = none) ∧
    (((getP gs2 (if pi = 1 then 2 else 1)).hp ≤ 0 ∧ 0 < (getP gs2 pi).hp) →
       gs2.status = "completed" ∧ gs2.winner = some pi) ∧
    (((getP gs2 pi).hp ≤ 0 ∧ 0 < (getP gs2 (if pi = 1 then 2 else 1)).hp) →
       gs2.status = "completed" ∧
       gs2.winner = some (if pi = 1 then 2 else 1)) := by
  unfold attackMonsterAction at hout
  lift_lets at hout
  extract_lets dIdx atkP defP at hout
  split at hout
  · exact ActionOutcome.noConfusion hout
  next ai attacker heq =>
    split at hout
    · exact ActionOutcome.noConfusion hout
    split at hout
    · exact ActionOutcome.noConfusion hout
    split at hout
    · exact ActionOutcome.noConfusion hout
    next di defender heq2 =>
      lift_lets at hout
      extract_lets dTraps aHb atkV defender1 dHb defV dHa aHa defender2
        attacker2 oD oA aPH dPH atkP1 defP1 gsA dd ad dp1 gB ap1 gC gD
        atkDead defDead at hout
      split at hout
      · split at hout
        · exact ActionOutcome.noConfusion hout
        · exact ActionOutcome.noConfusion hout
      split at hout
      · split at hout
        · exact ActionOutcome.noConfusion hout
        · exact ActionOutcome.noConfusion hout
      split at hout
      · split at hout
        · exact ActionOutcome.noConfusion hout
        · exact ActionOutcome.noConfusion hout
      have hpB : ∀ k : Int, (getP gB k).hp = (getP gsA k).hp := by
        intro k
        unfold gB
        repeat' (first | split | dsimp only)
        all_goals first
          | rfl
          | exact getP_hp_setP_sameHp _ _ _ _ rfl
      have hpC : ∀ k : Int, (getP gC k).hp = (getP gB k).hp := by
        intro k
        unfold gC
        repeat' (first | split | dsimp only)
        all_goals first
          | rfl
          | exact getP_hp_setP_sameHp _ _ _ _ rfl
      have hAC : (getP gC pi).hp = aPH := by
        rw [hpC, hpB]
        unfold gsA dIdx
        rw [(getP_doubleSetP_hp gs pi atkP1 defP1).1]
      have hDC : (getP gC (if pi = 1 then 2 else 1)).hp = dPH := by
        rw [hpC, hpB]
        unfold gsA dIdx
        rw [(getP_doubleSetP_hp gs pi atkP1 defP1).2]
      have hAD : (getP gD pi).hp = aPH := by
        unfold gD
        rw [getP_setLog]
        try exact hAC
      have hDD : (getP gD (if pi = 1 then 2 else 1)).hp = dPH := by
        unfold gD
        rw [getP_setLog]
        try exact hDC
      have hstB : gB.status = gsA.status := by
        unfold gB
        repeat' (first | split | dsimp only)
        all_goals first
          | rfl
          | exact status_setP _ _ _
      have hstC : gC.status = gB.status := by
        unfold gC
        repeat' (first | split | dsimp only)
        all_goals first
          | rfl
          | exact status_setP _ _ _
      have hwB : gB.winner = gsA.winner := by
        unfold gB
        repeat' (first | split | dsimp only)
        all_goals first
          | rfl
          | exact winner_setP _ _ _
      have hwC : gC.winner = gB.winner := by
        unfold gC
        repeat' (first | split | dsimp only)
        all_goals first
          | rfl
          | exact winner_setP _ _ _
      have hst : gD.status = gs.status := by
        unfold gD
        dsimp only
        rw [hstC, hstB]
        unfold gsA
        rw [status_setP, status_setP]
      have hw : gD.winner = gs.winner := by
        unfold gD
        dsimp only
        rw [hwC, hwB]
        unfold gsA
        rw [winner_setP, winner_setP]
      split at hout
      next hcond =>
        injection hout with h
        subst h
        have h1 : aPH ≤ 0 := hcond.1
        have h2 : dPH ≤ 0 := hcond.2
        refine ⟨fun hc => ?_, fun _ => ⟨rfl, rfl⟩, fun hc => ?_, fun hc => ?_⟩
        all_goals
          simp only [getP_setSWL, hAC, hDC, hAD, hDD] at hc
        · exact absurd hc.1 (by omega)
        · exact absurd hc.2 (by omega)
        · exact absurd hc.2 (by omega)
      next hn1 =>
        have hn1' : ¬(aPH ≤ 0 ∧ dPH ≤ 0) := hn1
        split at hout
        next hcond =>
          injection hout with h
          subst h
          have h2 : dPH ≤ 0 := hcond
          have h1 : 0 < aPH := by omega
          refine ⟨fun hc => ?_, fun hc => ?_, fun _ => ⟨rfl, rfl⟩, fun hc => ?_⟩
          all_goals
            simp only [getP_setSWL, hAC, hDC, hAD, hDD] at hc
          · exact absurd hc.2 (by omega)
          · exact absurd hc.1 (by omega)
          · exact absurd hc.1 (by omega)
        next hn2 =>
          have hn2' : ¬dPH ≤ 0 := hn2
          split at hout
          next hcond =>
            injection hout with h
            subst h
            have h1 : aPH ≤ 0 := hcond
            refine ⟨fun hc => ?_, fun hc => ?_, fun hc => ?_, fun _ => ⟨rfl, rfl⟩⟩
            all_goals
              simp only [getP_setSWL, hAC, hDC, hAD, hDD] at hc
            · exact absurd hc.1 (by omega)
            · exact absurd hc.2 (by omega)
            · exact absurd hc.2 (by omega)
          next hn3 =>
            have hn3' : ¬aPH ≤ 0 := hn3
            injection hout with h
            subst h
            refine ⟨fun _ => ⟨hst, hw⟩, fun hc => ?_, fun hc => ?_, fun hc => ?_⟩
            all_goals
              simp only [hAD, hDD] at hc
            · exact absurd hc.1 (by omega)
            · exact absurd hc.1 (by omega)
            · exact absurd hc.1 (by omega)

/-- Claim C2 as amended: a lethal check does not run everywhere — where one
runs, the shared `_check_lethal_after_noncombat` (spell, trap and
reflected-spell resolution) and the `ATTACK_MONSTER` inline check implement
the flip rule: a state with both players above 0 life keeps its status and
winner; on a double lethal the status flips to Completed with the winner
unset; otherwise it flips to Completed with the surviving player as winner.
The `ATTACK_PLAYER` inline check has no draw case: whenever the defending
player's life falls to 0 it completes with the attacker as winner,
regardless of the attacker's own life, and otherwise leaves status and
winner unchanged. Afterwards exactly one of Completed, or InProgress with
no winner, holds on these paths. -/
theorem C2_lethal_check_flip (gs : GameState) (reason mode : String) (pi : Int)
    (am : AttackMonsterPayload) (ap : AttackPlayerPayload)
    (_hst : gs.status = "in_progress") (hw : gs.winner = none) :
    ((0 < gs.player1.hp ∧ 0 < gs.player2.hp) →
        checkLethalAfterNoncombat gs reason = gs) ∧
    ((gs.player1.hp ≤ 0 ∧ gs.player2.hp ≤ 0) →
        (checkLethalAfterNoncombat gs reason).status = "completed" ∧
        (checkLethalAfterNoncombat gs reason).winner = none) ∧
    ((gs.player2.hp ≤ 0 ∧ 0 < gs.player1.hp) →
        (checkLethalAfterNoncombat gs reason).status = "completed" ∧
        (checkLethalAfterNoncombat gs reason).winner = some 1) ∧
    ((gs.player1.hp ≤ 0 ∧ 0 < gs.player2.hp) →
        (checkLethalAfterNoncombat gs reason).status = "completed" ∧
        (checkLethalAfterNoncombat gs reason).winner = some 2) ∧
    ((checkLethalAfterNoncombat gs reason).status = "in_progress" →
        (checkLethalAfterNoncombat gs reason).winner = none) ∧
    (∀ gs2, attackMonsterAction mode gs pi am = .ok gs2 →
      ((0 < (getP gs2 pi).hp ∧ 0 < (getP gs2 (if pi = 1 then 2 else 1)).hp) →
         gs2.status = gs.status ∧ gs2.winner = gs.winner) ∧
      (((getP gs2 pi).hp ≤ 0 ∧ (getP gs2 (if pi = 1 then 2 else 1)).hp ≤ 0) →
         gs2.status = "completed" ∧ gs2.winner = none) ∧
      (((getP gs2 (if pi = 1 then 2 else 1)).hp ≤ 0 ∧ 0 < (getP gs2 pi).hp) →
         gs2.status = "completed" ∧ gs2.winner = some pi) ∧
      (((getP gs2 pi).hp ≤ 0 ∧ 0 < (getP gs2 (if pi = 1 then 2 else 1)).hp) →
         gs2.status = "completed" ∧
         gs2.winner = some (if pi = 1 then 2 else 1))) ∧
    (∀ gs2, attackPlayerAction mode gs pi ap = .ok gs2 →
      ((getP gs2 (if pi = 1 then 2 else 1)).hp ≤ 0 →
         gs2.status = "completed" ∧ gs2.winner = some pi) ∧
      (0 < (getP gs2 (if pi = 1 then 2 else 1)).hp →
         gs2.status = gs.status ∧ gs2.winner = gs.winner)) := by
  unfold checkLethalAfterNoncombat
  refine ⟨?_, ?_, ?_, ?_, ?_,
    fun gs2 hout => attackMonster_lethal mode gs pi am gs2 hout,
    fun gs2 hout => attackPlayer_lethal mode gs pi ap gs2 hout⟩
  · intro h
    rw [if_pos]
    constructor <;> omega
  · intro h
    rw [if_neg, if_pos ⟨h.1, h.2⟩]
    · exact ⟨rfl, rfl⟩
    · omega
  · intro h
    rw [if_neg, if_neg, if_pos h.1]
    · exact ⟨rfl, rfl⟩
    · omega
    · omega
  · intro h
    rw [if_neg, if_neg, if_neg]
    · exact ⟨rfl, rfl⟩
    · omega
    · omega
    · omega
  · intro h
    by_cases h1 : ¬gs.player1.hp ≤ 0 ∧ ¬gs.player2.hp ≤ 0
    · rw [if_pos h1]
      exact hw
    · by_cases h2 : gs.player1.hp ≤ 0 ∧ gs.player2.hp ≤ 0
      · rw [if_neg h1, if_pos h2] at h
        simp at h
      · by_cases h3 : gs.player2.hp ≤ 0
        · rw [if_neg h1, if_neg h2, if_pos h3] at h
          simp at h
        · rw [if_neg h1, if_neg h2, if_neg h3] at h
          simp at h

theorem C2_lethal_check_flip_witness :
    ((checkLethalAfterNoncombat
        { player1 := { playerIndex := 1, hp := 0 },
          player2 := { playerIndex := 2, hp := -5 } } "spell_effects").status
      = "completed" ∧
     (checkLethalAfterNoncombat
        { player1 := { playerIndex := 1, hp := 0 },
          player2 := { playerIndex := 2, hp := -5 } } "spell_effects").winner
      = none) ∧
    (c1Out.status = c1Row.state.status ∧ c1Out.winner = c1Row.state.winner) := by
  constructor
  · exact (C2_lethal_check_flip
      { player1 := { playerIndex := 1, hp := 0 },
        player2 := { playerIndex := 2, hp := -5 } } "spell_effects" "PVP" 1
      c1Pay { attackerInstanceId := "CA" } rfl rfl).2.1 ⟨by decide, by decide⟩
  · exact ((C2_lethal_check_flip c1Row.state "combat" "PVP" 1
      c1Pay { attackerInstanceId := "CA" } rfl rfl).2.2.2.2.2.1 c1Out
      (by rfl)).1 ⟨by decide, by decide⟩

/-- Claim C5: a rejected intent leaves the stored match row exactly as it
was (the endpoint persists only on the completed path; every rejection
raises before the final update), and representative rejections carry their
specific reasons — a match not in progress at the row level, and a request
out of turn. -/
theorem C5_rejection_atomic :
    (∀ (env : Env) (row : MatchRow) (pi : Int) (act : BattleAction) (r : String),
        battleActionCore env row pi act = .err r →
        battleActionStep env row pi act = (row, .err r)) ∧
    (∀ (env : Env) (row : MatchRow) (pi : Int) (act : BattleAction),
        row.rowStatus ≠ "in_progress" →
        battleActionStep env row pi act = (row, .err "Match is not in progress")) ∧
    (∀ (env : Env) (row : MatchRow) (pi : Int) (act : BattleAction),
        row.rowStatus = "in_progress" → row.state.status = "in_progress" →
        row.state.currentPlayer ≠ pi →
        battleActionStep env row pi act = (row, .err "It is not this player's turn")) := by
  refine ⟨?_, ?_, ?_⟩
  · intro env row pi act r h
    unfold battleActionStep
    rw [h]
  · intro env row pi act h
    unfold battleActionStep battleActionCore
    rw [if_pos h]
  · intro env row pi act h1 h2 h3
    unfold battleActionStep battleActionCore
    rw [if_neg (by simp [h1]), if_neg (by simp [h2]), if_pos h3]

/-- Witness for C5 at a concrete out-of-turn request. -/
theorem C5_rejection_atomic_witness :
    battleActionStep idEnv c4Row 1 .endTurn =
      (c4Row, .err "It is not this player's turn") := by
  exact C5_rejection_atomic.2.2 idEnv c4Row 1 .endTurn rfl rfl (by decide)

/-- Claim C7: effect resolution walks the entry list in order —
`resolve_card_effects` starts the sequential loop on the card's effect
list; an entry whose (non-empty) keyword has no registered handler is a
no-op that appends exactly one `EFFECT_UNKNOWN_KEYWORD` diagnostic event
and continues with the remaining entries; a handled entry whose merged
result is not cancelled continues sequentially with the handler's state and
the merged result; and once the merged result is cancelled the remaining
entries are skipped (the outcome does not depend on them). -/
theorem C7_resolver_control_flow :
    (∀ (gs : GameState) (ctx : EffectCtx),
        resolveCardEffects gs ctx =
          resolveEffectsGo ctx ctx.sourceCard.effectParams.effects gs {}) ∧
    (∀ (gs : GameState) (ctx : EffectCtx) (acc : EffectResult)
        (e : EffectEntry) (rest : List EffectEntry),
        e.keyword ≠ "" → handlerFor e = none →
        resolveEffectsGo ctx (e :: rest) gs acc =
          resolveEffectsGo ctx rest gs
            { acc with logEvents := acc.logEvents ++
                [{ type := "EFFECT_UNKNOWN_KEYWORD", keyword := some e.keyword }] }) ∧
    (∀ (gs : GameState) (ctx : EffectCtx) (acc : EffectResult)
        (e : EffectEntry) (rest : List EffectEntry) (h : KeywordHandler),
        e.keyword ≠ "" → handlerFor e = some h →
        (mergeResults acc (h gs ctx e).2).cancelled = false →
        resolveEffectsGo ctx (e :: rest) gs acc =
          resolveEffectsGo ctx rest (h gs ctx e).1 (mergeResults acc (h gs ctx e).2)) ∧
    (∀ (gs : GameState) (ctx : EffectCtx) (acc : EffectResult)
        (e : EffectEntry) (rest rest2 : List EffectEntry) (h : KeywordHandler),
        e.keyword ≠ "" → handlerFor e = some h →
        (mergeResults acc (h gs ctx e).2).cancelled = true →
        resolveEffectsGo ctx (e :: rest) gs acc =
          resolveEffectsGo ctx (e :: rest2) gs acc) := by
  refine ⟨fun gs ctx => rfl, ?_, ?_, ?_⟩
  · intro gs ctx acc e rest hk hnone
    rw [resolveEffectsGo, if_neg hk, hnone]
  · intro gs ctx acc e rest h hk hsome hnc
    rw [resolveEffectsGo, if_neg hk, hsome]
    simp only []
    rw [if_neg (by rw [hnc]; exact Bool.false_ne_true)]
  · intro gs ctx acc e rest rest2 h hk hsome hc
    rw [resolveEffectsGo, if_neg hk, hsome, resolveEffectsGo, if_neg hk, hsome]
    simp only []
    rw [if_pos hc, if_pos hc]

/-- Length bookkeeping of the reshuffle-draw loop: the hand grows by
exactly the requested amount capped by the combined deck-plus-graveyard
size, which shrinks by the same number. -/
theorem drawReshuffleLoop_lengths (env : Env) (ae : Option Int)
    (hs : ∀ l, (env.shuffle l).length = l.length) :
    ∀ (n : Nat) (deck gy hand : List Card),
      (drawReshuffleLoop env ae n deck gy hand).2.2.length
          = hand.length + min n (deck.length + gy.length) ∧
      (drawReshuffleLoop env ae n deck gy hand).1.length
          + (drawReshuffleLoop env ae n deck gy hand).2.1.length
          = deck.length + gy.length - min n (deck.length + gy.length) := by
  intro n
  induction n with
  | zero =>
    intro deck gy hand
    simp [drawReshuffleLoop]
  | succ n ih =>
    intro deck gy hand
    match deck, gy with
    | [], [] => simp [drawReshuffleLoop]
    | [], g :: gy =>
      rcases hsh : env.shuffle (g :: gy) with _ | ⟨d, ds⟩
      · have hlen := hs (g :: gy)
        rw [hsh] at hlen
        simp at hlen
      · have hlen := hs (g :: gy)
        rw [hsh] at hlen
        simp only [drawReshuffleLoop, hsh]
        have h1 := ih ds [] (hand ++ [applyElementVariantCard env ae d])
        simp only [List.length_append, List.length_cons, List.length_nil] at h1 hlen ⊢
        omega
    | d :: ds, gy =>
      simp only [drawReshuffleLoop]
      have h1 := ih ds gy (hand ++ [applyElementVariantCard env ae d])
      simp only [List.length_append, List.length_cons, List.length_nil] at h1 ⊢
      omega

/-- Claim C8: during the end-of-turn draw (`_draw_with_reshuffle`), under
any length-preserving shuffle the hand grows by the requested amount capped
at the combined deck-plus-graveyard size (so the draw stops short exactly
when both piles run out and never draws more than deck plus graveyard
hold), and the total number of cards across deck, graveyard and hand is
conserved. -/
theorem C8_draw_with_reshuffle (env : Env) (p : PlayerState) (amount : Nat)
    (hs : ∀ l, (env.shuffle l).length = l.length) :
    (drawWithReshuffle env p amount).hand.length
        = p.hand.length + min amount (p.deck.length + p.graveyard.length) ∧
    (drawWithReshuffle env p amount).deck.length
        + (drawWithReshuffle env p amount).graveyard.length
        = p.deck.length + p.graveyard.length
          - min amount (p.deck.length + p.graveyard.length) ∧
    (drawWithReshuffle env p amount).deck.length
        + (drawWithReshuffle env p amount).graveyard.length
        + (drawWithReshuffle env p amount).hand.length
        = p.deck.length + p.graveyard.length + p.hand.length := by
  have h := drawReshuffleLoop_lengths env p.activeElement hs amount p.deck p.graveyard p.hand
  have hmin : min amount (p.deck.length + p.graveyard.length)
      ≤ p.deck.length + p.graveyard.length := Nat.min_le_right _ _
  unfold drawWithReshuffle
  rcases hres : drawReshuffleLoop env p.activeElement amount p.deck p.graveyard p.hand
    with ⟨d1, g1, h1⟩
  rw [hres] at h
  simp only at h ⊢
  omega

/-- Witness for C8: a two-card draw that empties a one-card deck and
reshuffles a two-card graveyard mid-draw. -/
theorem C8_draw_with_reshuffle_witness :
    (drawWithReshuffle idEnv
        { playerIndex := 1, deck := [c4Attacker], graveyard := [c4Defender, c4Trap],
          hand := [] } 2).hand.length = 0 + min 2 (1 + 2) := by
  exact (C8_draw_with_reshuffle idEnv
    { playerIndex := 1, deck := [c4Attacker], graveyard := [c4Defender, c4Trap],
      hand := [] } 2 (fun l => rfl)).1

/-- Per-side factory bookkeeping: the starting hand is the first
`min 5 deck` cards of the shuffled instance list, the deck is the rest, and
life starts at 1500. -/
theorem buildPlayerState_deal (env : Env) (mkId : Nat → String) (pi : Int)
    (name : String) (defs : List CardDef)
    (hs : ∀ l, (env.shuffle l).length = l.length) :
    (buildPlayerState env mkId pi name defs).hand
        ++ (buildPlayerState env mkId pi name defs).deck
      = env.shuffle (defs.enum.map
          (fun (p : Nat × CardDef) => newFromDefinition (mkId p.1) p.2)) ∧
    (buildPlayerState env mkId pi name defs).hand.length = min 5 defs.length ∧
    (buildPlayerState env mkId pi name defs).deck.length
        = defs.length - min 5 defs.length ∧
    (buildPlayerState env mkId pi name defs).hp = 1500 := by
  have hlen : (env.shuffle (defs.enum.map
      (fun (p : Nat × CardDef) => newFromDefinition (mkId p.1) p.2))).length
      = defs.length := by
    rw [hs]
    simp
  unfold buildPlayerState
  refine ⟨List.take_append_drop _ _, ?_, ?_, rfl⟩
  · simp only [List.length_take, hlen]
    omega
  · simp only [List.length_drop, hlen]

/-- Claim C9, counterexample: a non-empty one-card deck passes the
empty-deck check, and the factory then deals a one-card starting hand, not
the five-card hand the claim asserts for every non-empty deck. -/
theorem C9_cex_short_deck_hand :
    c9Out = Except.ok c9After ∧ [c9Def] ≠ [] ∧
      c9After.player1.hand.length = 1 ∧ c9After.player1.hand.length ≠ 5 := by
  exact ⟨rfl, by decide, by decide, by decide⟩

/-- Claim C9 as amended: match creation fails with the configuration error
when either resolved deck is empty; otherwise the factory produces a state
with turn 1, active player 1, status InProgress and no winner, and each
side's starting hand is the first `min(5, deck size)` cards removed from
the front of that side's shuffled deck (so 25-card decks yield hand 5 and
deck 20). -/
theorem C9_factory_hand_deal (env : Env) (mkId1 mkId2 : Nat → String)
    (mid n1 n2 : String) (d1 d2 : List CardDef)
    (hs : ∀ l, (env.shuffle l).length = l.length) :
    (d1 = [] →
        battleStartCreate env mkId1 mkId2 mid n1 n2 d1 d2
          = .error "Player deck has no cards") ∧
    (d1 ≠ [] → d2 = [] →
        battleStartCreate env mkId1 mkId2 mid n1 n2 d1 d2
          = .error "Player 2 deck has no cards") ∧
    (d1 ≠ [] → d2 ≠ [] →
        battleStartCreate env mkId1 mkId2 mid n1 n2 d1 d2
            = .ok (createNewGameState env mkId1 mkId2 mid n1 n2 d1 d2) ∧
          (createNewGameState env mkId1 mkId2 mid n1 n2 d1 d2).turn = 1 ∧
          (createNewGameState env mkId1 mkId2 mid n1 n2 d1 d2).currentPlayer = 1 ∧
          (createNewGameState env mkId1 mkId2 mid n1 n2 d1 d2).status = "in_progress" ∧
          (createNewGameState env mkId1 mkId2 mid n1 n2 d1 d2).winner = none ∧
          (createNewGameState env mkId1 mkId2 mid n1 n2 d1 d2).player1.hand
              ++ (createNewGameState env mkId1 mkId2 mid n1 n2 d1 d2).player1.deck
            = env.shuffle (d1.enum.map
                (fun (p : Nat × CardDef) => newFromDefinition (mkId1 p.1) p.2)) ∧
          (createNewGameState env mkId1 mkId2 mid n1 n2 d1 d2).player1.hand.length
            = min 5 d1.length ∧
          (createNewGameState env mkId1 mkId2 mid n1 n2 d1 d2).player1.deck.length
            = d1.length - min 5 d1.length ∧
          (createNewGameState env mkId1 mkId2 mid n1 n2 d1 d2).player2.hand.length
            = min 5 d2.length ∧
          (createNewGameState env mkId1 mkId2 mid n1 n2 d1 d2).player2.deck.length
            = d2.length - min 5 d2.length) := by
  refine ⟨?_, ?_, ?_⟩
  · intro h
    unfold battleStartCreate
    rw [if_pos h]
  · intro h1 h2
    unfold battleStartCreate
    rw [if_neg h1, if_pos h2]
  · intro h1 h2
    have hb1 := buildPlayerState_deal env mkId1 1 n1 d1 hs
    have hb2 := buildPlayerState_deal env mkId2 2 n2 d2 hs
    refine ⟨?_, rfl, rfl, rfl, rfl, ?_, ?_, ?_, ?_, ?_⟩
    · unfold battleStartCreate
      rw [if_neg h1, if_neg h2]
    · exact hb1.1
    · exact hb1.2.1
    · exact hb1.2.2.1
    · exact hb2.2.1
    · exact hb2.2.2.1

/-- Witness for C9's amended theorem on concrete 25-card decks: hand 5 and
deck 20 on both sides, at turn 1 with player 1 active and the match in
progress. -/
theorem C9_factory_hand_deal_witness :
    (createNewGameState idEnv c9Ids c9Ids "m2" "Ann" "Bob"
        (List.replicate 25 c9Def) (List.replicate 25 c9Def)).player1.hand.length
      = min 5 (List.replicate 25 c9Def).length ∧
    (createNewGameState idEnv c9Ids c9Ids "m2" "Ann" "Bob"
        (List.replicate 25 c9Def) (List.replicate 25 c9Def)).player1.deck.length
      = (List.replicate 25 c9Def).length - min 5 (List.replicate 25 c9Def).length := by
  have h := (C9_factory_hand_deal idEnv c9Ids c9Ids "m2" "Ann" "Bob"
    (List.replicate 25 c9Def) (List.replicate 25 c9Def) (fun l => rfl)).2.2
    (by decide) (by decide)
  exact ⟨h.2.2.2.2.2.2.1, h.2.2.2.2.2.2.2.1⟩

/-- Claim C10: an `ATTACK_MONSTER` into an AI-controlled defender holding
an eligible face-down on-attack trap does not cancel-and-consume the
attack; the auto-trigger branch dies importing `app.engine.action_handlers`
(the module is unparsable and its `handle_activate_trap` does not even
accept the `trigger_event` argument `main.py` passes), so the request fails
with a server error, nothing is persisted, and the attacker's `can_attack`
flag stays true in the stored state. -/
theorem C10_ai_trap_cancel_unreachable :
    c10Step = (c10Row, .err actionHandlersImportError) ∧
    getAvailableTrapTriggers c10Row.state 2 "ON_ATTACK_DECLARED" ≠ [] ∧
    ((getP c10Step.1.state 1).monsterZones.getD 0 none).map
        (fun (c : Card) => c.canAttack) = some true := by
  refine ⟨by decide, by decide, by decide⟩

/-- Claim C4: the suspended-attack exactly-once guarantee fails.  In the
concrete scenario the AI's attack on the human's monster suspends on the
human's prevent-destruction trap without persisting the computed combat
damage; resolving the trap via `trigger_trap` succeeds without
cancellation and reports `attack_completed` (the client must not resend),
yet in the stored state the defender still has its full 80 HP, the
attacker's `can_attack` is still true and both life totals are untouched —
the original intent's remaining effects were applied zero times, not
exactly once. -/
theorem C4_pending_attack_lost :
    c4Step1.1 = c4Row ∧ c4Suspended = true ∧ c4Completed = true ∧
    ((getP c4Step2.1.state 1).monsterZones.getD 0 none).map
        (fun (c : Card) => c.hp) = some 80 ∧
    ((getP c4Step2.1.state 2).monsterZones.getD 0 none).map
        (fun (c : Card) => c.canAttack) = some true ∧
    (getP c4Step2.1.state 1).spellTrapZones.getD 0 none = none ∧
    (getP c4Step2.1.state 1).graveyard = [c4Trap] ∧
    (getP c4Step2.1.state 1).hp = 1500 ∧ (getP c4Step2.1.state 2).hp = 1500 := by
  refine ⟨by decide, by decide, by decide, by decide, by decide, by decide,
    by decide, by decide, by decide⟩

/-- Witness for C7 on a concrete two-entry effect list with an unregistered
keyword followed by a damage keyword. -/
theorem C7_resolver_control_flow_witness :
    resolveEffectsGo { sourcePlayer := 1, sourceCard := c4Trap }
        [{ keyword := "NOT_A_KEYWORD" }] {} {} =
      resolveEffectsGo { sourcePlayer := 1, sourceCard := c4Trap } [] {}
        { logEvents := [{ type := "EFFECT_UNKNOWN_KEYWORD",
                          keyword := some "NOT_A_KEYWORD" }] } := by
  exact C7_resolver_control_flow.2.1 {} { sourcePlayer := 1, sourceCard := c4Trap } {}
    { keyword := "NOT_A_KEYWORD" } [] (by decide) rfl

/-- Reading a freshly set position of a list. -/
theorem getD_set_self {α : Type} (l : List α) (i : Nat) (v d : α) (h : i < l.length) :
    (l.set i v).getD i d = v := by
  induction l generalizing i with
  | nil => simp at h
  | cons a t ih =>
    cases i with
    | zero => rfl
    | succ n =>
      simp only [List.set, List.getD, List.get?]
      have := ih n (by simpa using h)
      simpa [List.getD] using this

/-- A successful zone scan returns an in-range index holding the matching
card. -/
theorem findInZones_some_spec (iid : String) :
    ∀ (zs : List (Option Card)) (i : Nat) (c : Card),
      findInZones zs iid = some (i, c) →
      i < zs.length ∧ zs.getD i none = some c ∧ c.instanceId = iid := by
  intro zs
  induction zs with
  | nil =>
    intro i c h
    simp [findInZones] at h
  | cons s t ih =>
    intro i c h
    match s with
    | none =>
      rw [findInZones, Option.map_eq_some'] at h
      obtain ⟨⟨j, c2⟩, ht, hmk⟩ := h
      injection hmk with hi hc
      subst hi
      subst hc
      obtain ⟨h1, h2, h3⟩ := ih j c2 ht
      refine ⟨by simpa using h1, by simpa [List.getD] using h2, h3⟩
    | some a =>
      rw [findInZones] at h
      by_cases ha : a.instanceId = iid
      · rw [if_pos ha] at h
        injection h with hmk
        injection hmk with hi hc
        subst hi
        subst hc
        exact ⟨by simp, rfl, ha⟩
      · rw [if_neg ha, Option.map_eq_some'] at h
        obtain ⟨⟨j, c2⟩, ht, hmk⟩ := h
        injection hmk with hi hc
        subst hi
        subst hc
        obtain ⟨h1, h2, h3⟩ := ih j c2 ht
        refine ⟨by simpa using h1, by simpa [List.getD] using h2, h3⟩

/-- Replacing the found slot by a card with the same instance id is found
at the same position. -/
theorem findInZones_set_self (iid : String) (c2 : Card) (h2 : c2.instanceId = iid) :
    ∀ (zs : List (Option Card)) (i : Nat) (c : Card),
      findInZones zs iid = some (i, c) →
      findInZones (zs.set i (some c2)) iid = some (i, c2) := by
  intro zs
  induction zs with
  | nil =>
    intro i c h
    simp [findInZones] at h
  | cons s t ih =>
    intro i c h
    match s with
    | none =>
      rw [findInZones, Option.map_eq_some'] at h
      obtain ⟨⟨j, c3⟩, ht, hmk⟩ := h
      injection hmk with hi hc
      subst hi
      subst hc
      show findInZones (none :: t.set j (some c2)) iid = _
      rw [findInZones, ih j c3 ht]
      rfl
    | some a =>
      rw [findInZones] at h
      by_cases ha : a.instanceId = iid
      · rw [if_pos ha] at h
        injection h with hmk
        injection hmk with hi hc
        subst hi
        subst hc
        show findInZones (some c2 :: t) iid = _
        rw [findInZones, if_pos h2]
      · rw [if_neg ha, Option.map_eq_some'] at h
        obtain ⟨⟨j, c3⟩, ht, hmk⟩ := h
        injection hmk with hi hc
        subst hi
        subst hc
        show findInZones (some a :: t.set j (some c2)) iid = _
        rw [findInZones, if_neg ha, ih j c3 ht]
        rfl

/-- Setting any slot to a non-matching content preserves an unsuccessful
zone scan. -/
theorem findInZones_none_set (iid : String) (v : Option Card)
    (hv : ∀ c2 : Card, v = some c2 → c2.instanceId ≠ iid) :
    ∀ (zs : List (Option Card)) (i : Nat),
      findInZones zs iid = none → findInZones (zs.set i v) iid = none := by
  intro zs
  induction zs with
  | nil =>
    intro i h
    simp [List.set]
    exact h
  | cons s t ih =>
    intro i h
    match s with
    | none =>
      rw [findInZones, Option.map_eq_none'] at h
      cases i with
      | zero =>
        show findInZones (v :: t) iid = none
        match v with
        | none =>
          rw [findInZones, Option.map_eq_none']
          exact h
        | some c2 =>
          rw [findInZones, if_neg (hv c2 rfl), Option.map_eq_none']
          exact h
      | succ n =>
        show findInZones (none :: t.set n v) iid = none
        rw [findInZones, Option.map_eq_none']
        exact ih n h
    | some a =>
      rw [findInZones] at h
      by_cases ha : a.instanceId = iid
      · rw [if_pos ha] at h
        simp at h
      · rw [if_neg ha, Option.map_eq_none'] at h
        cases i with
        | zero =>
          show findInZones (v :: t) iid = none
          match v with
          | none =>
            rw [findInZones, Option.map_eq_none']
            exact h
          | some c2 =>
            rw [findInZones, if_neg (hv c2 rfl), Option.map_eq_none']
            exact h
        | succ n =>
          show findInZones (some a :: t.set n v) iid = none
          rw [findInZones, if_neg ha, Option.map_eq_none']
          exact ih n h

/-- With no face-down card in the scanned zones, the trap-trigger
collection is empty. -/
theorem collectTrapsFrom_eq_nil (tt : String) :
    ∀ (zs : List (Option Card)) (i : Nat),
      (∀ s ∈ zs, ∀ c : Card, s = some c → c.faceDown = false) →
      collectTrapsFrom tt i zs = [] := by
  intro zs
  induction zs with
  | nil =>
    intro i _
    rfl
  | cons s t ih =>
    intro i h
    match s with
    | none =>
      rw [collectTrapsFrom]
      exact ih _ (fun s2 hs => h s2 (List.mem_cons_of_mem _ hs))
    | some c =>
      rw [collectTrapsFrom]
      have hc : c.faceDown = false := h (some c) (List.mem_cons_self _ _) c rfl
      rw [if_pos (by simp [hc])]
      exact ih _ (fun s2 hs => h s2 (List.mem_cons_of_mem _ hs))

/-- A player with no face-down spell/trap cards never yields an available
trap trigger. -/
theorem getAvailableTrapTriggers_eq_nil (gs : GameState) (j : Int) (tt : String)
    (h : noFaceDownTraps (getP gs j)) :
    getAvailableTrapTriggers gs j tt = [] := by
  unfold getAvailableTrapTriggers
  split
  · rfl
  · exact collectTrapsFrom_eq_nil tt _ 0 h

/-- C1: for every resolved ATTACK_MONSTER action (both players found on the
battlefield, the attacker eligible, no face-down trap interrupting, the
outcome persisted as ok), the defender monster ends at
`max 0 (dHP0 - aATK)` HP (face-up in its slot if positive, else removed to
its owner's graveyard at that HP), the attacker monster ends at
`max 0 (aHP0 - dATK)` HP (with `can_attack` cleared if it survives), the
defending player's life becomes `max 0 (life - max 0 (aATK - dHP0))` --
a reduction by exactly the overflow whenever that overflow fits in the
remaining life -- the attacking player's life symmetrically, and neither
player's life ends below 0. -/
theorem C1_attack_monster_combat
    (env : Env) (row : MatchRow) (pi defIdx : Int) (am : AttackMonsterPayload)
    (ai di : Nat) (attacker defender : Card) (gsOut : GameState)
    (hpi : pi = 1 ∨ pi = 2)
    (hdIdx : defIdx = if pi = 1 then 2 else 1)
    (hrow : row.rowStatus = "in_progress") (hst : row.state.status = "in_progress")
    (hcur : row.state.currentPlayer = pi)
    (hA : findInZones (getP row.state pi).monsterZones am.attackerInstanceId
            = some (ai, attacker))
    (hD : findInZones (getP row.state defIdx).monsterZones am.defenderInstanceId
            = some (di, defender))
    (hnf1 : noFaceDownTraps row.state.player1)
    (hnf2 : noFaceDownTraps row.state.player2)
    (hne : am.attackerInstanceId ≠ am.defenderInstanceId)
    (hcrossA : findInZones (getP row.state defIdx).monsterZones am.attackerInstanceId = none)
    (hcrossD : findInZones (getP row.state pi).monsterZones am.defenderInstanceId = none)
    (hatk : 0 ≤ attacker.atk) (hdef : 0 ≤ defender.atk)
    (hout : battleActionCore env row pi (.attackMonster am) = .ok gsOut) :
    (getP gsOut defIdx).hp
        = max 0 ((getP row.state defIdx).hp - max 0 (attacker.atk - defender.hp))
    ∧ (getP gsOut pi).hp
        = max 0 ((getP row.state pi).hp - max 0 (defender.atk - attacker.hp))
    ∧ 0 ≤ (getP gsOut defIdx).hp
    ∧ 0 ≤ (getP gsOut pi).hp
    ∧ (max 0 (attacker.atk - defender.hp) ≤ (getP row.state defIdx).hp →
        (getP gsOut defIdx).hp
          = (getP row.state defIdx).hp - max 0 (attacker.atk - defender.hp))
    ∧ (max 0 (defender.atk - attacker.hp) ≤ (getP row.state pi).hp →
        (getP gsOut pi).hp
          = (getP row.state pi).hp - max 0 (defender.atk - attacker.hp))
    ∧ (if 0 < max 0 (defender.hp - attacker.atk) then
        (getP gsOut defIdx).monsterZones.getD di none
          = some { defender with faceDown := false, hp := max 0 (defender.hp - attacker.atk) }
       else
        (getP gsOut defIdx).monsterZones.getD di none = none
        ∧ (getP gsOut defIdx).graveyard
            = (getP row.state defIdx).graveyard
              ++ [{ defender with faceDown := false, hp := max 0 (defender.hp - attacker.atk) }])
    ∧ (if 0 < max 0 (attacker.hp - defender.atk) then
        (getP gsOut pi).monsterZones.getD ai none
          = some { attacker with hp := max 0 (attacker.hp - defender.atk), canAttack := false }
       else
        (getP gsOut pi).monsterZones.getD ai none = none
        ∧ (getP gsOut pi).graveyard
            = (getP row.state pi).graveyard
              ++ [{ attacker with hp := max 0 (attacker.hp - defender.atk) }]) := by
  rcases hpi with hpi | hpi
  · subst hpi
    norm_num at hdIdx
    subst hdIdx
    norm_num [getP] at hA hD hcrossA hcrossD
    unfold battleActionCore at hout
    rw [if_neg (by simp [hrow]), if_neg (by simp [hst]), if_neg (by simp [hcur]),
        if_neg (by simp)] at hout
    dsimp only at hout
    unfold attackMonsterAction at hout
    lift_lets at hout
    extract_lets dIdx atkP defP dT at hout
    have hA2 : findInZones atkP.monsterZones am.attackerInstanceId = some (ai, attacker) := hA
    split at hout
    next heq =>
      rw [hA2] at heq
      exact Option.noConfusion heq
    next ai0 attacker0 heq =>
      rw [hA2] at heq
      injection heq with heq1
      injection heq1 with heq2 heq3
      subst heq2
      subst heq3
      lift_lets at hout
      extract_lets aHb atkV at hout
      by_cases hcan : attacker.canAttack
      case neg =>
        rw [if_pos (by simp [hcan])] at hout
        simp at hout
      rw [if_neg (by simp [hcan])] at hout
      by_cases hhp : attacker.hp ≤ 0
      case pos =>
        rw [if_pos hhp] at hout
        simp at hout
      rw [if_neg hhp] at hout
      have hD2 : findInZones defP.monsterZones am.defenderInstanceId = some (di, defender) := hD
      split at hout
      next heq =>
        rw [hD2] at heq
        exact Option.noConfusion heq
      next di0 defender0 heq =>
        rw [hD2] at heq
        injection heq with heq1
        injection heq1 with heq2 heq3
        subst heq2
        subst heq3
        lift_lets at hout
        extract_lets d1 dHb defV dHa aHa d2 a2 oD oA aPH dPH aP1 dP1 g1 dd ad at hout
        extract_lets dp g2 apv g3 g4 aD dD at hout
        have hdT : dT = [] := getAvailableTrapTriggers_eq_nil _ _ _ hnf2
        rw [hdT] at hout
        have hnonil : ¬(([] : List TrapTrigger) ≠ []) := fun h => h rfl
        rw [if_neg hnonil] at hout
        have ht1 : getAvailableTrapTriggers g1 dIdx "ON_ALLY_MONSTER_WOULD_BE_DESTROYED" = []
            := getAvailableTrapTriggers_eq_nil _ _ _ hnf2
        rw [ht1] at hout
        have hc1 : ¬(dd ∧ ([] : List TrapTrigger) ≠ []) := fun h => h.2 rfl
        rw [if_neg hc1] at hout
        have ht2 : getAvailableTrapTriggers g1 1 "ON_ALLY_MONSTER_WOULD_BE_DESTROYED" = []
            := getAvailableTrapTriggers_eq_nil _ _ _ hnf1
        rw [ht2] at hout
        have hc2 : ¬(ad ∧ ([] : List TrapTrigger) ≠ []) := fun h => h.2 rfl
        rw [if_neg hc2] at hout
        have haid : attacker.instanceId = am.attackerInstanceId :=
          (findInZones_some_spec am.attackerInstanceId _ ai attacker hA).2.2
        have hdid : defender.instanceId = am.defenderInstanceId :=
          (findInZones_some_spec am.defenderInstanceId _ di defender hD).2.2
        have hdlen : di < row.state.player2.monsterZones.length :=
          (findInZones_some_spec am.defenderInstanceId _ di defender hD).1
        have halen : ai < row.state.player1.monsterZones.length :=
          (findInZones_some_spec am.attackerInstanceId _ ai attacker hA).1
        have ha2id : a2.instanceId = am.attackerInstanceId := haid
        have hd2id : d2.instanceId = am.defenderInstanceId := hdid
        have hv : ∀ c2 : Card, (some a2 : Option Card) = some c2 →
            c2.instanceId ≠ am.defenderInstanceId := by
          intro c2 h2 hq
          injection h2 with h3
          subst h3
          exact hne (by rw [← ha2id]; exact hq)
        have hfd : findMonsterByInstanceId g1 am.defenderInstanceId = some ⟨2, di, d2⟩ := by
          unfold findMonsterByInstanceId
          have e1 : g1.player1.monsterZones = row.state.player1.monsterZones.set ai (some a2) := rfl
          have e2 : g1.player2.monsterZones = row.state.player2.monsterZones.set di (some d2) := rfl
          rw [e1, e2, findInZones_none_set am.defenderInstanceId (some a2) hv _ ai hcrossD,
              findInZones_set_self am.defenderInstanceId d2 hd2id _ di defender hD]
        have hg2or : (dHa ≤ 0 ∧ g2 = setP g1 dIdx
              { dp with monsterZones := dp.monsterZones.set di none,
                        graveyard := dp.graveyard ++ [d2] })
            ∨ (0 < dHa ∧ g2 = g1) := by
          by_cases hdd : dd
          · refine Or.inl ⟨hdd, ?_⟩
            unfold g2
            rw [if_pos hdd, hfd]
            dsimp only
            rw [if_neg (show ¬(d2.hp > 0) from by
              have h1 : dHa ≤ 0 := hdd
              have h2 : d2.hp = dHa := rfl
              omega)]
          · refine Or.inr ⟨?_, ?_⟩
            · have h1 : ¬(dHa ≤ 0) := hdd
              omega
            · unfold g2
              rw [if_neg hdd]
        have hapvZ : apv.monsterZones = row.state.player1.monsterZones.set ai (some a2) := by
          rcases hg2or with ⟨h, h2⟩ | ⟨h, h2⟩ <;>
            (rw [show apv = g2.player1 from rfl, h2]; rfl)
        have hapvHp : apv.hp = aPH := by
          rcases hg2or with ⟨h3, h4⟩ | ⟨h3, h4⟩ <;>
            (rw [show apv = g2.player1 from rfl, h4]; rfl)
        have hapvG : apv.graveyard = row.state.player1.graveyard := by
          rcases hg2or with ⟨h3, h4⟩ | ⟨h3, h4⟩ <;>
            (rw [show apv = g2.player1 from rfl, h4]; rfl)
        have hfz1 : findInZones g2.player1.monsterZones am.attackerInstanceId
            = some (ai, a2) := by
          rw [show g2.player1.monsterZones = apv.monsterZones from rfl, hapvZ]
          exact findInZones_set_self am.attackerInstanceId a2 ha2id _ ai attacker hA
        have hfa : findMonsterByInstanceId g2 am.attackerInstanceId = some ⟨1, ai, a2⟩ := by
          unfold findMonsterByInstanceId
          rw [hfz1]
        have hg3or : (aHa ≤ 0 ∧ g3 = setP g2 1
              { apv with monsterZones := apv.monsterZones.set ai none,
                         graveyard := apv.graveyard ++ [a2] })
            ∨ (0 < aHa ∧ g3 = setP g2 1
              { apv with monsterZones :=
                  apv.monsterZones.set ai (some { a2 with canAttack := false }) }) := by
          by_cases had : ad
          · refine Or.inl ⟨had, ?_⟩
            unfold g3
            rw [if_pos had, hfa]
            dsimp only
            rw [if_neg (show ¬(a2.hp > 0) from by
              have h1 : aHa ≤ 0 := had
              have h2 : a2.hp = aHa := rfl
              omega)]
          · refine Or.inr ⟨?_, ?_⟩
            · have h1 : ¬(aHa ≤ 0) := had
              omega
            · unfold g3
              rw [if_neg had]
        have hg3p2 : g3.player2 = g2.player2 := by
          rcases hg3or with ⟨h, h2⟩ | ⟨h, h2⟩ <;> (rw [h2]; rfl)
        have hg2p2hp : g2.player2.hp = dPH := by
          rcases hg2or with ⟨h, h2⟩ | ⟨h, h2⟩ <;> (rw [h2]; rfl)
        have hg3p1hp : g3.player1.hp = aPH := by
          rcases hg3or with ⟨h, h2⟩ | ⟨h, h2⟩ <;> (rw [h2]; exact hapvHp)
        have hdHa : dHa = max 0 (defender.hp - attacker.atk) := by
          have h1 : dHa = max 0 (defender.hp - max attacker.atk 0) := rfl
          omega
        have haHa : aHa = max 0 (attacker.hp - defender.atk) := by
          have h1 : aHa = max 0 (attacker.hp - max defender.atk 0) := rfl
          omega
        have hd2eq : d2 = { defender with faceDown := false,
                                           hp := max 0 (defender.hp - attacker.atk) } := by
          rw [show d2 = ({ defender with faceDown := false, hp := dHa } : Card) from rfl, hdHa]
        have ha2eq : a2 = { attacker with hp := max 0 (attacker.hp - defender.atk) } := by
          rw [show a2 = ({ attacker with hp := aHa } : Card) from rfl, haHa]
        have key2 : g4.player2.hp
            = max 0 (row.state.player2.hp - max 0 (attacker.atk - defender.hp)) := by
          have h1 : g4.player2.hp = dPH := by
            rw [show g4.player2 = g3.player2 from rfl, hg3p2, hg2p2hp]
          have h2 : dPH = max 0 (row.state.player2.hp - max 0 (max attacker.atk 0 - defender.hp))
            := rfl
          rw [h1, h2]
          omega
        have key1 : g4.player1.hp
            = max 0 (row.state.player1.hp - max 0 (defender.atk - attacker.hp)) := by
          have h1 : g4.player1.hp = aPH := by
            rw [show g4.player1 = g3.player1 from rfl, hg3p1hp]
          have h2 : aPH = max 0 (row.state.player1.hp - max 0 (max defender.atk 0 - attacker.hp))
            := rfl
          rw [h1, h2]
          omega
        have keyZ2 : if 0 < max 0 (defender.hp - attacker.atk) then
            g4.player2.monsterZones.getD di none
              = some { defender with faceDown := false, hp := max 0 (defender.hp - attacker.atk) }
          else
            g4.player2.monsterZones.getD di none = none
            ∧ g4.player2.graveyard = row.state.player2.graveyard
                ++ [{ defender with faceDown := false, hp := max 0 (defender.hp - attacker.atk) }]
            := by
          rcases hg2or with ⟨h, h2⟩ | ⟨h, h2⟩
          · rw [if_neg (by omega : ¬(0 < max 0 (defender.hp - attacker.atk)))]
            constructor
            · rw [show g4.player2.monsterZones = g2.player2.monsterZones from by rw [← hg3p2],
                  h2,
                  show (setP g1 dIdx
                    { dp with monsterZones := dp.monsterZones.set di none,
                              graveyard := dp.graveyard ++ [d2] }).player2.monsterZones
                    = (row.state.player2.monsterZones.set di (some d2)).set di none from rfl,
                  List.set_set]
              exact getD_set_self _ _ _ _ (by simpa using hdlen)
            · rw [show g4.player2.graveyard = g2.player2.graveyard from by rw [← hg3p2],
                  h2,
                  show (setP g1 dIdx
                    { dp with monsterZones := dp.monsterZones.set di none,
                              graveyard := dp.graveyard ++ [d2] }).player2.graveyard
                    = row.state.player2.graveyard ++ [d2] from rfl,
                  hd2eq]
          · rw [if_pos (by omega : 0 < max 0 (defender.hp - attacker.atk))]
            rw [show g4.player2.monsterZones = g2.player2.monsterZones from by rw [← hg3p2],
                h2,
                show g1.player2.monsterZones
                  = row.state.player2.monsterZones.set di (some d2) from rfl]
            rw [getD_set_self _ _ _ _ hdlen, hd2eq]
        have keyZ1 : if 0 < max 0 (attacker.hp - defender.atk) then
            g4.player1.monsterZones.getD ai none
              = some { attacker with hp := max 0 (attacker.hp - defender.atk),
                                     canAttack := false }
          else
            g4.player1.monsterZones.getD ai none = none
            ∧ g4.player1.graveyard = row.state.player1.graveyard
                ++ [{ attacker with hp := max 0 (attacker.hp - defender.atk) }]
            := by
          rcases hg3or with ⟨h, h2⟩ | ⟨h, h2⟩
          · rw [if_neg (by omega : ¬(0 < max 0 (attacker.hp - defender.atk)))]
            constructor
            · rw [show g4.player1.monsterZones
                    = g3.player1.monsterZones from rfl, h2,
                  show (setP g2 1
                    { apv with monsterZones := apv.monsterZones.set ai none,
                               graveyard := apv.graveyard ++ [a2] }).player1.monsterZones
                    = apv.monsterZones.set ai none from rfl,
                  hapvZ, List.set_set]
              exact getD_set_self _ _ _ _ (by simpa using halen)
            · rw [show g4.player1.graveyard = g3.player1.graveyard from rfl, h2,
                  show (setP g2 1
                    { apv with monsterZones := apv.monsterZones.set ai none,
                               graveyard := apv.graveyard ++ [a2] }).player1.graveyard
                    = apv.graveyard ++ [a2] from rfl,
                  hapvG, ha2eq]
          · rw [if_pos (by omega : 0 < max 0 (attacker.hp - defender.atk))]
            rw [show g4.player1.monsterZones = g3.player1.monsterZones from rfl, h2,
                show (setP g2 1
                  { apv with monsterZones :=
                      apv.monsterZones.set ai (some { a2 with canAttack := false })
                  }).player1.monsterZones
                  = apv.monsterZones.set ai (some { a2 with canAttack := false }) from rfl,
                hapvZ, List.set_set]
            rw [getD_set_self _ _ _ _ halen,
                show ({ a2 with canAttack := false } : Card)
                  = { attacker with hp := aHa, canAttack := false } from rfl, haHa]
        have keyC : g4.player2.hp
              = max 0 (row.state.player2.hp - max 0 (attacker.atk - defender.hp))
            ∧ g4.player1.hp
              = max 0 (row.state.player1.hp - max 0 (defender.atk - attacker.hp))
            ∧ 0 ≤ g4.player2.hp
            ∧ 0 ≤ g4.player1.hp
            ∧ (max 0 (attacker.atk - defender.hp) ≤ row.state.player2.hp →
                g4.player2.hp = row.state.player2.hp - max 0 (attacker.atk - defender.hp))
            ∧ (max 0 (defender.atk - attacker.hp) ≤ row.state.player1.hp →
                g4.player1.hp = row.state.player1.hp - max 0 (defender.atk - attacker.hp))
            ∧ (if 0 < max 0 (defender.hp - attacker.atk) then
                g4.player2.monsterZones.getD di none
                  = some { defender with faceDown := false,
                                         hp := max 0 (defender.hp - attacker.atk) }
              else
                g4.player2.monsterZones.getD di none = none
                ∧ g4.player2.graveyard = row.state.player2.graveyard
                    ++ [{ defender with faceDown := false,
                                        hp := max 0 (defender.hp - attacker.atk) }])
            ∧ (if 0 < max 0 (attacker.hp - defender.atk) then
                g4.player1.monsterZones.getD ai none
                  = some { attacker with hp := max 0 (attacker.hp - defender.atk),
                                         canAttack := false }
              else
                g4.player1.monsterZones.getD ai none = none
                ∧ g4.player1.graveyard = row.state.player1.graveyard
                    ++ [{ attacker with hp := max 0 (attacker.hp - defender.atk) }]) :=
          ⟨key2, key1, by rw [key2]; omega, by rw [key1]; omega,
            fun hle => by rw [key2]; omega, fun hle => by rw [key1]; omega, keyZ2, keyZ1⟩
        by_cases hAD : aD <;> by_cases hDD : dD
        · rw [if_pos (⟨hAD, hDD⟩ : aD ∧ dD)] at hout
          injection hout with h
          subst h
          exact keyC
        · rw [if_neg (fun hq : aD ∧ dD => hDD hq.2), if_neg hDD, if_pos hAD] at hout
          injection hout with h
          subst h
          exact keyC
        · rw [if_neg (fun hq : aD ∧ dD => hAD hq.1), if_pos hDD] at hout
          injection hout with h
          subst h
          exact keyC
        · rw [if_neg (fun hq : aD ∧ dD => hAD hq.1), if_neg hDD, if_neg hAD] at hout
          injection hout with h
          subst h
          exact keyC
  · subst hpi
    norm_num at hdIdx
    subst hdIdx
    norm_num [getP] at hA hD hcrossA hcrossD
    unfold battleActionCore at hout
    rw [if_neg (by simp [hrow]), if_neg (by simp [hst]), if_neg (by simp [hcur]),
        if_neg (by simp)] at hout
    dsimp only at hout
    unfold attackMonsterAction at hout
    lift_lets at hout
    extract_lets dIdx atkP defP dT at hout
    have hA2 : findInZones atkP.monsterZones am.attackerInstanceId = some (ai, attacker) := hA
    split at hout
    next heq =>
      rw [hA2] at heq
      exact Option.noConfusion heq
    next ai0 attacker0 heq =>
      rw [hA2] at heq
      injection heq with heq1
      injection heq1 with heq2 heq3
      subst heq2
      subst heq3
      lift_lets at hout
      extract_lets aHb atkV at hout
      by_cases hcan : attacker.canAttack
      case neg =>
        rw [if_pos (by simp [hcan])] at hout
        simp at hout
      rw [if_neg (by simp [hcan])] at hout
      by_cases hhp : attacker.hp ≤ 0
      case pos =>
        rw [if_pos hhp] at hout
        simp at hout
      rw [if_neg hhp] at hout
      have hD2 : findInZones defP.monsterZones am.defenderInstanceId = some (di, defender) := hD
      split at hout
      next heq =>
        rw [hD2] at heq
        exact Option.noConfusion heq
      next di0 defender0 heq =>
        rw [hD2] at heq
        injection heq with heq1
        injection heq1 with heq2 heq3
        subst heq2
        subst heq3
        lift_lets at hout
        extract_lets d1 dHb defV dHa aHa d2 a2 oD oA aPH dPH aP1 dP1 g1 dd ad at hout
        extract_lets dp g2 apv g3 g4 aD dD at hout
        have hdT : dT = [] := getAvailableTrapTriggers_eq_nil _ _ _ hnf1
        rw [hdT] at hout
        have hnonil : ¬(([] : List TrapTrigger) ≠ []) := fun h => h rfl
        rw [if_neg hnonil] at hout
        have ht1 : getAvailableTrapTriggers g1 dIdx "ON_ALLY_MONSTER_WOULD_BE_DESTROYED" = []
            := getAvailableTrapTriggers_eq_nil _ _ _ hnf1
        rw [ht1] at hout
        have hc1 : ¬(dd ∧ ([] : List TrapTrigger) ≠ []) := fun h => h.2 rfl
        rw [if_neg hc1] at hout
        have ht2 : getAvailableTrapTriggers g1 2 "ON_ALLY_MONSTER_WOULD_BE_DESTROYED" = []
            := getAvailableTrapTriggers_eq_nil _ _ _ hnf2
        rw [ht2] at hout
        have hc2 : ¬(ad ∧ ([] : List TrapTrigger) ≠ []) := fun h => h.2 rfl
        rw [if_neg hc2] at hout
        have haid : attacker.instanceId = am.attackerInstanceId :=
          (findInZones_some_spec am.attackerInstanceId _ ai attacker hA).2.2
        have hdid : defender.instanceId = am.defenderInstanceId :=
          (findInZones_some_spec am.defenderInstanceId _ di defender hD).2.2
        have hdlen : di < row.state.player1.monsterZones.length :=
          (findInZones_some_spec am.defenderInstanceId _ di defender hD).1
        have halen : ai < row.state.player2.monsterZones.length :=
          (findInZones_some_spec am.attackerInstanceId _ ai attacker hA).1
        have ha2id : a2.instanceId = am.attackerInstanceId := haid
        have hd2id : d2.instanceId = am.defenderInstanceId := hdid
        have hfd : findMonsterByInstanceId g1 am.defenderInstanceId = some ⟨1, di, d2⟩ := by
          unfold findMonsterByInstanceId
          have e1 : g1.player1.monsterZones = row.state.player1.monsterZones.set di (some d2) := rfl
          rw [e1, findInZones_set_self am.defenderInstanceId d2 hd2id _ di defender hD]
        have hg2or : (dHa ≤ 0 ∧ g2 = setP g1 dIdx
              { dp with monsterZones := dp.monsterZones.set di none,
                        graveyard := dp.graveyard ++ [d2] })
            ∨ (0 < dHa ∧ g2 = g1) := by
          by_cases hdd : dd
          · refine Or.inl ⟨hdd, ?_⟩
            unfold g2
            rw [if_pos hdd, hfd]
            dsimp only
            rw [if_neg (show ¬(d2.hp > 0) from by
              have h1 : dHa ≤ 0 := hdd
              have h2 : d2.hp = dHa := rfl
              omega)]
          · refine Or.inr ⟨?_, ?_⟩
            · have h1 : ¬(dHa ≤ 0) := hdd
              omega
            · unfold g2
              rw [if_neg hdd]
        have hapvZ : apv.monsterZones = row.state.player2.monsterZones.set ai (some a2) := by
          rcases hg2or with ⟨h, h2⟩ | ⟨h, h2⟩ <;>
            (rw [show apv = g2.player2 from rfl, h2]; rfl)
        have hapvHp : apv.hp = aPH := by
          rcases hg2or with ⟨h3, h4⟩ | ⟨h3, h4⟩ <;>
            (rw [show apv = g2.player2 from rfl, h4]; rfl)
        have hapvG : apv.graveyard = row.state.player2.graveyard := by
          rcases hg2or with ⟨h3, h4⟩ | ⟨h3, h4⟩ <;>
            (rw [show apv = g2.player2 from rfl, h4]; rfl)
        have hvd : ∀ c2 : Card, (some d2 : Option Card) = some c2 →
            c2.instanceId ≠ am.attackerInstanceId := by
          intro c2 h2 hq
          injection h2 with h3
          subst h3
          exact hne (by rw [← hq]; exact hd2id)
        have hfz0 : findInZones g2.player1.monsterZones am.attackerInstanceId = none := by
          rcases hg2or with ⟨h, h2⟩ | ⟨h, h2⟩
          · rw [show g2.player1.monsterZones
                  = (row.state.player1.monsterZones.set di (some d2)).set di none from
                by rw [h2]; rfl, List.set_set]
            exact findInZones_none_set am.attackerInstanceId none
              (fun c2 h3 => Option.noConfusion h3) _ di hcrossA
          · rw [show g2.player1.monsterZones
                  = row.state.player1.monsterZones.set di (some d2) from by rw [h2]; rfl]
            exact findInZones_none_set am.attackerInstanceId (some d2) hvd _ di hcrossA
        have hfz2 : findInZones g2.player2.monsterZones am.attackerInstanceId
            = some (ai, a2) := by
          rw [show g2.player2.monsterZones = apv.monsterZones from rfl, hapvZ]
          exact findInZones_set_self am.attackerInstanceId a2 ha2id _ ai attacker hA
        have hfa : findMonsterByInstanceId g2 am.attackerInstanceId = some ⟨2, ai, a2⟩ := by
          unfold findMonsterByInstanceId
          rw [hfz0, hfz2]
        have hg3or : (aHa ≤ 0 ∧ g3 = setP g2 2
              { apv with monsterZones := apv.monsterZones.set ai none,
                         graveyard := apv.graveyard ++ [a2] })
            ∨ (0 < aHa ∧ g3 = setP g2 2
              { apv with monsterZones :=
                  apv.monsterZones.set ai (some { a2 with canAttack := false }) }) := by
          by_cases had : ad
          · refine Or.inl ⟨had, ?_⟩
            unfold g3
            rw [if_pos had, hfa]
            dsimp only
            rw [if_neg (show ¬(a2.hp > 0) from by
              have h1 : aHa ≤ 0 := had
              have h2 : a2.hp = aHa := rfl
              omega)]
          · refine Or.inr ⟨?_, ?_⟩
            · have h1 : ¬(aHa ≤ 0) := had
              omega
            · unfold g3
              rw [if_neg had]
        have hg3p1 : g3.player1 = g2.player1 := by
          rcases hg3or with ⟨h, h2⟩ | ⟨h, h2⟩ <;> (rw [h2]; rfl)
        have hg2p1hp : g2.player1.hp = dPH := by
          rcases hg2or with ⟨h, h2⟩ | ⟨h, h2⟩ <;> (rw [h2]; rfl)
        have hg3p2hp : g3.player2.hp = aPH := by
          rcases hg3or with ⟨h, h2⟩ | ⟨h, h2⟩ <;> (rw [h2]; exact hapvHp)
        have hdHa : dHa = max 0 (defender.hp - attacker.atk) := by
          have h1 : dHa = max 0 (defender.hp - max attacker.atk 0) := rfl
          omega
        have haHa : aHa = max 0 (attacker.hp - defender.atk) := by
          have h1 : aHa = max 0 (attacker.hp - max defender.atk 0) := rfl
          omega
        have hd2eq : d2 = { defender with faceDown := false,
                                           hp := max 0 (defender.hp - attacker.atk) } := by
          rw [show d2 = ({ defender with faceDown := false, hp := dHa } : Card) from rfl, hdHa]
        have ha2eq : a2 = { attacker with hp := max 0 (attacker.hp - defender.atk) } := by
          rw [show a2 = ({ attacker with hp := aHa } : Card) from rfl, haHa]
        have key2 : g4.player1.hp
            = max 0 (row.state.player1.hp - max 0 (attacker.atk - defender.hp)) := by
          have h1 : g4.player1.hp = dPH := by
            rw [show g4.player1 = g3.player1 from rfl, hg3p1, hg2p1hp]
          have h2 : dPH = max 0 (row.state.player1.hp - max 0 (max attacker.atk 0 - defender.hp))
            := rfl
          rw [h1, h2]
          omega
        have key1 : g4.player2.hp
            = max 0 (row.state.player2.hp - max 0 (defender.atk - attacker.hp)) := by
          have h1 : g4.player2.hp = aPH := by
            rw [show g4.player2 = g3.player2 from rfl, hg3p2hp]
          have h2 : aPH = max 0 (row.state.player2.hp - max 0 (max defender.atk 0 - attacker.hp))
            := rfl
          rw [h1, h2]
          omega
        have keyZ2 : if 0 < max 0 (defender.hp - attacker.atk) then
            g4.player1.monsterZones.getD di none
              = some { defender with faceDown := false, hp := max 0 (defender.hp - attacker.atk) }
          else
            g4.player1.monsterZones.getD di none = none
            ∧ g4.player1.graveyard = row.state.player1.graveyard
                ++ [{ defender with faceDown := false, hp := max 0 (defender.hp - attacker.atk) }]
            := by
          rcases hg2or with ⟨h, h2⟩ | ⟨h, h2⟩
          · rw [if_neg (by omega : ¬(0 < max 0 (defender.hp - attacker.atk)))]
            constructor
            · rw [show g4.player1.monsterZones = g2.player1.monsterZones from by rw [← hg3p1],
                  h2,
                  show (setP g1 dIdx
                    { dp with monsterZones := dp.monsterZones.set di none,
                              graveyard := dp.graveyard ++ [d2] }).player1.monsterZones
                    = (row.state.player1.monsterZones.set di (some d2)).set di none from rfl,
                  List.set_set]
              exact getD_set_self _ _ _ _ (by simpa using hdlen)
            · rw [show g4.player1.graveyard = g2.player1.graveyard from by rw [← hg3p1],
                  h2,
                  show (setP g1 dIdx
                    { dp with monsterZones := dp.monsterZones.set di none,
                              graveyard := dp.graveyard ++ [d2] }).player1.graveyard
                    = row.state.player1.graveyard ++ [d2] from rfl,
                  hd2eq]
          · rw [if_pos (by omega : 0 < max 0 (defender.hp - attacker.atk))]
            rw [show g4.player1.monsterZones = g2.player1.monsterZones from by rw [← hg3p1],
                h2,
                show g1.player1.monsterZones
                  = row.state.player1.monsterZones.set di (some d2) from rfl]
            rw [getD_set_self _ _ _ _ hdlen, hd2eq]
        have keyZ1 : if 0 < max 0 (attacker.hp - defender.atk) then
            g4.player2.monsterZones.getD ai none
              = some { attacker with hp := max 0 (attacker.hp - defender.atk),
                                     canAttack := false }
          else
            g4.player2.monsterZones.getD ai none = none
            ∧ g4.player2.graveyard = row.state.player2.graveyard
                ++ [{ attacker with hp := max 0 (attacker.hp - defender.atk) }]
            := by
          rcases hg3or with ⟨h, h2⟩ | ⟨h, h2⟩
          · rw [if_neg (by omega : ¬(0 < max 0 (attacker.hp - defender.atk)))]
            constructor
            · rw [show g4.player2.monsterZones
                    = g3.player2.monsterZones from rfl, h2,
                  show (setP g2 2
                    { apv with monsterZones := apv.monsterZones.set ai none,
                               graveyard := apv.graveyard ++ [a2] }).player2.monsterZones
                    = apv.monsterZones.set ai none from rfl,
                  hapvZ, List.set_set]
              exact getD_set_self _ _ _ _ (by simpa using halen)
            · rw [show g4.player2.graveyard = g3.player2.graveyard from rfl, h2,
                  show (setP g2 2
                    { apv with monsterZones := apv.monsterZones.set ai none,
                               graveyard := apv.graveyard ++ [a2] }).player2.graveyard
                    = apv.graveyard ++ [a2] from rfl,
                  hapvG, ha2eq]
          · rw [if_pos (by omega : 0 < max 0 (attacker.hp - defender.atk))]
            rw [show g4.player2.monsterZones = g3.player2.monsterZones from rfl, h2,
                show (setP g2 2
                  { apv with monsterZones :=
                      apv.monsterZones.set ai (some { a2 with canAttack := false })
                  }).player2.monsterZones
                  = apv.monsterZones.set ai (some { a2 with canAttack := false }) from rfl,
                hapvZ, List.set_set]
            rw [getD_set_self _ _ _ _ halen,
                show ({ a2 with canAttack := false } : Card)
                  = { attacker with hp := aHa, canAttack := false } from rfl, haHa]
        have keyC : g4.player1.hp
              = max 0 (row.state.player1.hp - max 0 (attacker.atk - defender.hp))
            ∧ g4.player2.hp
              = max 0 (row.state.player2.hp - max 0 (defender.atk - attacker.hp))
            ∧ 0 ≤ g4.player1.hp
            ∧ 0 ≤ g4.player2.hp
            ∧ (max 0 (attacker.atk - defender.hp) ≤ row.state.player1.hp →
                g4.player1.hp = row.state.player1.hp - max 0 (attacker.atk - defender.hp))
            ∧ (max 0 (defender.atk - attacker.hp) ≤ row.state.player2.hp →
                g4.player2.hp = row.state.player2.hp - max 0 (defender.atk - attacker.hp))
            ∧ (if 0 < max 0 (defender.hp - attacker.atk) then
                g4.player1.monsterZones.getD di none
                  = some { defender with faceDown := false,
                                         hp := max 0 (defender.hp - attacker.atk) }
              else
                g4.player1.monsterZones.getD di none = none
                ∧ g4.player1.graveyard = row.state.player1.graveyard
                    ++ [{ defender with faceDown := false,
                                        hp := max 0 (defender.hp - attacker.atk) }])
            ∧ (if 0 < max 0 (attacker.hp - defender.atk) then
                g4.player2.monsterZones.getD ai none
                  = some { attacker with hp := max 0 (attacker.hp - defender.atk),
                                         canAttack := false }
              else
                g4.player2.monsterZones.getD ai none = none
                ∧ g4.player2.graveyard = row.state.player2.graveyard
                    ++ [{ attacker with hp := max 0 (attacker.hp - defender.atk) }]) :=
          ⟨key2, key1, by rw [key2]; omega, by rw [key1]; omega,
            fun hle => by rw [key2]; omega, fun hle => by rw [key1]; omega, keyZ2, keyZ1⟩
        by_cases hAD : aD <;> by_cases hDD : dD
        · rw [if_pos (⟨hAD, hDD⟩ : aD ∧ dD)] at hout
          injection hout with h
          subst h
          exact keyC
        · rw [if_neg (fun hq : aD ∧ dD => hDD hq.2), if_neg hDD, if_pos hAD] at hout
          injection hout with h
          subst h
          exact keyC
        · rw [if_neg (fun hq : aD ∧ dD => hAD hq.1), if_pos hDD] at hout
          injection hout with h
          subst h
          exact keyC
        · rw [if_neg (fun hq : aD ∧ dD => hAD hq.1), if_neg hDD, if_neg hAD] at hout
          injection hout with h
          subst h
          exact keyC

/-- Witness for C1 at the concrete combat scenario. -/
theorem C1_attack_monster_combat_witness :
    battleActionCore idEnv c1Row 1 (.attackMonster c1Pay) = .ok c1Out
    ∧ (getP c1Out 2).hp
        = max 0 ((getP c1Row.state 2).hp - max 0 (c1Attacker.atk - c1Defender.hp))
    ∧ (getP c1Out 1).hp
        = max 0 ((getP c1Row.state 1).hp - max 0 (c1Defender.atk - c1Attacker.hp)) := by
  have h := C1_attack_monster_combat idEnv c1Row 1 2 c1Pay 0 0 c1Attacker c1Defender c1Out
    (Or.inl rfl) rfl rfl rfl rfl rfl rfl
    (by intro s hs c hc; simp [c1Row] at hs; subst hs; exact Option.noConfusion hc)
    (by intro s hs c hc; simp [c1Row] at hs; subst hs; exact Option.noConfusion hc)
    (by decide) rfl rfl (by decide) (by decide) rfl
  exact ⟨rfl, h.1, h.2.1⟩

/-- C3: PLAY_MONSTER follows the star tiers. With the summon counter free,
the card found in hand and converted by the active element, and the hero
slot empty: a 1-3 star card with a valid empty target zone and no tributes
is placed face-down, unable to attack, stamped with the summon turn, the
graveyard untouched and the summon counter set; supplying tributes there is
rejected; a 4-5 star card with exactly one tribute found on the board is
placed face-up and able to attack with the tribute moved to the graveyard;
any other tribute count there is rejected; a hero-kind or six-star card
with exactly two tributes removed successfully lands in the hero slot,
face-up but never able to attack; any other tribute count is rejected; an
occupied target zone is rejected; and any other star value is rejected as
a configuration error naming the star count. -/
theorem C3_play_monster_tiers
    (env : Env) (gs : GameState) (pi : Int) (pm : PlayMonsterPayload)
    (hi : Nat) (card0 card1 : Card)
    (hsum : ¬((refreshedCounters gs pi).summons ≥ 1))
    (hfind : findInHand ((getP gs pi).hand.filter (fun c => c.instanceId ≠ ""))
               pm.cardInstanceId = some (hi, card0))
    (hvar : applyElementVariantCard env (getP gs pi).activeElement card0 = card1)
    (hhero : (getP gs pi).hero = none) :
    (¬(card1.cardType = CardType.hero ∨ card1.stars = 6) →
      (1 ≤ card1.stars ∧ card1.stars ≤ 3) →
      ¬(pm.zoneIndex < 0 ∨ pm.zoneIndex ≥ ((getP gs pi).monsterZones.length : Int)) →
      (getP gs pi).monsterZones.getD pm.zoneIndex.toNat none = none →
      pm.tributeInstanceIds = [] →
      okWith (playMonsterAction env gs pi pm) (fun gs2 =>
        (getP gs2 pi).monsterZones.getD pm.zoneIndex.toNat none
          = some { card1 with faceDown := true, canAttack := false,
                              summonedTurn := some gs.turn }
        ∧ (getP gs2 pi).graveyard = (getP gs pi).graveyard
        ∧ getTS gs2 pi = some { refreshedCounters gs pi with summons := 1 }))
    ∧
    (¬(card1.cardType = CardType.hero ∨ card1.stars = 6) →
      (1 ≤ card1.stars ∧ card1.stars ≤ 3) →
      ¬(pm.zoneIndex < 0 ∨ pm.zoneIndex ≥ ((getP gs pi).monsterZones.length : Int)) →
      (getP gs pi).monsterZones.getD pm.zoneIndex.toNat none = none →
      pm.tributeInstanceIds ≠ [] →
      playMonsterAction env gs pi pm = .err "1-3 star monsters do not require tributes")
    ∧
    (∀ tid ti tc,
      ¬(card1.cardType = CardType.hero ∨ card1.stars = 6) →
      (card1.stars = 4 ∨ card1.stars = 5) →
      ¬(pm.zoneIndex < 0 ∨ pm.zoneIndex ≥ ((getP gs pi).monsterZones.length : Int)) →
      (getP gs pi).monsterZones.getD pm.zoneIndex.toNat none = none →
      pm.tributeInstanceIds = [tid] →
      findInZones (getP gs pi).monsterZones tid = some (ti, tc) →
      okWith (playMonsterAction env gs pi pm) (fun gs2 =>
        (getP gs2 pi).monsterZones.getD pm.zoneIndex.toNat none
          = some { card1 with faceDown := false, canAttack := true,
                              summonedTurn := some gs.turn }
        ∧ (getP gs2 pi).graveyard = (getP gs pi).graveyard ++ [tc]
        ∧ getTS gs2 pi = some { refreshedCounters gs pi with summons := 1 }))
    ∧
    (¬(card1.cardType = CardType.hero ∨ card1.stars = 6) →
      (card1.stars = 4 ∨ card1.stars = 5) →
      ¬(pm.zoneIndex < 0 ∨ pm.zoneIndex ≥ ((getP gs pi).monsterZones.length : Int)) →
      (getP gs pi).monsterZones.getD pm.zoneIndex.toNat none = none →
      pm.tributeInstanceIds.length ≠ 1 →
      playMonsterAction env gs pi pm = .err "4-5 star monsters require exactly 1 tribute")
    ∧
    (∀ zones1 gy1,
      (card1.cardType = CardType.hero ∨ card1.stars = 6) →
      pm.tributeInstanceIds.length = 2 →
      removeTributesLoop (getP gs pi).monsterZones (getP gs pi).graveyard
          pm.tributeInstanceIds = .ok (zones1, gy1) →
      okWith (playMonsterAction env gs pi pm) (fun gs2 =>
        (getP gs2 pi).hero
          = some { card1 with faceDown := false, canAttack := false,
                              summonedTurn := some gs.turn }
        ∧ (getP gs2 pi).graveyard = gy1
        ∧ getTS gs2 pi = some { refreshedCounters gs pi with summons := 1 }))
    ∧
    ((card1.cardType = CardType.hero ∨ card1.stars = 6) →
      pm.tributeInstanceIds.length ≠ 2 →
      playMonsterAction env gs pi pm = .err "Hero requires exactly 2 tributes")
    ∧
    (¬(card1.cardType = CardType.hero ∨ card1.stars = 6) →
      ((1 ≤ card1.stars ∧ card1.stars ≤ 3) ∨ (card1.stars = 4 ∨ card1.stars = 5)) →
      ¬(pm.zoneIndex < 0 ∨ pm.zoneIndex ≥ ((getP gs pi).monsterZones.length : Int)) →
      ((getP gs pi).monsterZones.getD pm.zoneIndex.toNat none).isSome = true →
      playMonsterAction env gs pi pm = .err "Monster zone is already occupied")
    ∧
    (¬(card1.cardType = CardType.hero ∨ card1.stars = 6) →
      ¬(1 ≤ card1.stars ∧ card1.stars ≤ 3) →
      ¬(card1.stars = 4 ∨ card1.stars = 5) →
      playMonsterAction env gs pi pm
        = .err ("Invalid star count: " ++ toString card1.stars)) := by
  refine ⟨?_, ?_, ?_, ?_, ?_, ?_, ?_, ?_⟩
  · intro hnh h13 hzi hempty htrib
    unfold playMonsterAction
    dsimp only
    rw [if_neg hsum, hfind]
    dsimp only
    rw [hvar, if_neg hnh, if_pos h13, if_neg hzi,
        if_neg (show ¬(((getP gs pi).monsterZones.getD pm.zoneIndex.toNat none).isSome = true)
          from by rw [hempty]; simp),
        if_neg (show ¬(pm.tributeInstanceIds ≠ []) from by simp [htrib]),
        hhero]
    dsimp only [okWith]
    refine ⟨?_, ?_, ?_⟩
    · rw [getP_update, getP_setTS, getP_setP_same]
      dsimp only
      exact getD_set_self _ _ _ _ (by omega)
    · rw [getP_update, getP_setTS, getP_setP_same]
    · rw [getTS_update, getTS_setTS_same]
  · intro hnh h13 hzi hempty htrib
    unfold playMonsterAction
    dsimp only
    rw [if_neg hsum, hfind]
    dsimp only
    rw [hvar, if_neg hnh, if_pos h13, if_neg hzi,
        if_neg (show ¬(((getP gs pi).monsterZones.getD pm.zoneIndex.toNat none).isSome = true)
          from by rw [hempty]; simp),
        if_pos htrib]
  · intro tid ti tc hnh h45 hzi hempty htrib hfindz
    have hn13 : ¬(1 ≤ card1.stars ∧ card1.stars ≤ 3) := by rcases h45 with h | h <;> omega
    unfold playMonsterAction
    dsimp only
    rw [if_neg hsum, hfind]
    dsimp only
    rw [hvar, if_neg hnh, if_neg hn13, if_pos h45, if_neg hzi,
        if_neg (show ¬(((getP gs pi).monsterZones.getD pm.zoneIndex.toNat none).isSome = true)
          from by rw [hempty]; simp),
        if_neg (show ¬(pm.tributeInstanceIds.length ≠ 1) from by rw [htrib]; simp),
        htrib, removeTributesLoop_single _ _ _ _ _ hfindz]
    dsimp only
    rw [hhero]
    dsimp only [okWith]
    refine ⟨?_, ?_, ?_⟩
    · rw [getP_update, getP_setTS, getP_setP_same]
      dsimp only
      exact getD_set_self _ _ _ _ (by simp only [List.length_set]; omega)
    · rw [getP_update, getP_setTS, getP_setP_same]
    · rw [getTS_update, getTS_setTS_same]
  · intro hnh h45 hzi hempty htlen
    have hn13 : ¬(1 ≤ card1.stars ∧ card1.stars ≤ 3) := by rcases h45 with h | h <;> omega
    unfold playMonsterAction
    dsimp only
    rw [if_neg hsum, hfind]
    dsimp only
    rw [hvar, if_neg hnh, if_neg hn13, if_pos h45, if_neg hzi,
        if_neg (show ¬(((getP gs pi).monsterZones.getD pm.zoneIndex.toNat none).isSome = true)
          from by rw [hempty]; simp),
        if_pos htlen]
  · intro zones1 gy1 hh htlen hrem
    unfold playMonsterAction
    dsimp only
    rw [if_neg hsum, hfind]
    dsimp only
    rw [hvar, if_pos hh,
        if_neg (show ¬(pm.tributeInstanceIds.length ≠ 2) from by rw [htlen]; simp),
        if_neg (show ¬((getP gs pi).hero.isSome = true) from by rw [hhero]; simp),
        hrem]
    dsimp only [okWith]
    refine ⟨?_, ?_, ?_⟩
    · rw [getP_update, getP_setTS, aura_getP_hero, getP_setP_same, retarget_hero]
    · rw [getP_update, getP_setTS, aura_getP_graveyard, getP_setP_same, retarget_graveyard]
    · rw [getTS_update, getTS_setTS_same]
  · intro hh htlen
    unfold playMonsterAction
    dsimp only
    rw [if_neg hsum, hfind]
    dsimp only
    rw [hvar, if_pos hh, if_pos htlen]
  · intro hnh htier hzi hocc
    unfold playMonsterAction
    dsimp only
    rw [if_neg hsum, hfind]
    dsimp only
    rcases htier with h13 | h45
    · rw [hvar, if_neg hnh, if_pos h13, if_neg hzi, if_pos hocc]
    · have hn13 : ¬(1 ≤ card1.stars ∧ card1.stars ≤ 3) := by rcases h45 with h | h <;> omega
      rw [hvar, if_neg hnh, if_neg hn13, if_pos h45, if_neg hzi, if_pos hocc]
  · intro hnh h13n h45n
    unfold playMonsterAction
    dsimp only
    rw [if_neg hsum, hfind]
    dsimp only
    rw [hvar, if_neg hnh, if_neg h13n, if_neg h45n]


/-- Witness for C3: the three-star summon scenario resolves as the tier
rules say. -/
theorem C3_play_monster_tiers_witness :
    okWith (playMonsterAction idEnv c3State 1 c3Pm) (fun gs2 =>
      (getP gs2 1).monsterZones.getD 0 none
        = some { c3Card with faceDown := true, canAttack := false,
                             summonedTurn := some c3State.turn }
      ∧ (getP gs2 1).graveyard = (getP c3State 1).graveyard
      ∧ getTS gs2 1 = some { refreshedCounters c3State 1 with summons := 1 }) := by
  exact (C3_play_monster_tiers idEnv c3State 1 c3Pm 0 c3Card c3Card
      (by decide) rfl rfl rfl).1
    (by decide) (by decide) (by decide) rfl rfl

theorem getTS_mk (m : String) (t c : Int) (ph st : String) (w : Option Int)
    (p1 p2 : PlayerState) (ts1 ts2 : Option TurnCounters) (l : List LogEvent) (j : Int) :
    getTS ⟨m, t, c, ph, st, w, p1, p2, ts1, ts2, l⟩ j = if j = 1 then ts1 else ts2 := rfl

theorem getTS_fold (g : GameState) (j : Int) :
    (if j = 1 then g.turnState1 else g.turnState2) = getTS g j := rfl

theorem getTS_damageP (gs : GameState) (pi amount : Int) (j : Int) :
    getTS (applyDamageToPlayer gs pi amount).1 j = getTS gs j := by
  unfold applyDamageToPlayer
  dsimp only
  rw [getTS_setP]

theorem getTS_healP (gs : GameState) (pi amount : Int) (j : Int) :
    getTS (applyHealToPlayer gs pi amount).1 j = getTS gs j := by
  unfold applyHealToPlayer
  dsimp only
  rw [getTS_setP]

theorem getTS_damageM (gs : GameState) (ctx : EffectCtx) (amount : Int) (j : Int) :
    getTS (applyDamageToMonster gs ctx amount).1 j = getTS gs j := by
  unfold applyDamageToMonster
  repeat' split
  all_goals simp [getTS_setP]

theorem getTS_healM (gs : GameState) (ctx : EffectCtx) (amount : Int) (j : Int) :
    getTS (applyHealToMonster gs ctx amount).1 j = getTS gs j := by
  unfold applyHealToMonster
  repeat' split
  all_goals simp [getTS_setP]

theorem getTS_statusM (gs : GameState) (ctx : EffectCtx) (sc dt : String)
    (dv : Option Int) (j : Int) :
    getTS (applyStatusToMonster gs ctx sc dt dv).1 j = getTS gs j := by
  unfold applyStatusToMonster
  repeat' split
  all_goals try dsimp only
  all_goals try split_ifs
  all_goals first | rfl | simp [getTS_setP, getTS_mk, getTS_fold]

theorem getTS_hSpellDamageMonster (gs : GameState) (ctx : EffectCtx) (e : EffectEntry)
    (j : Int) : getTS (handleSpellDamageMonster gs ctx e).1 j = getTS gs j := by
  unfold handleSpellDamageMonster
  repeat' (first | split | split_ifs | dsimp only)
  all_goals first
    | rfl
    | simp [getTS_damageP, getTS_damageM, getTS_setP, getTS_mk, getTS_fold]

theorem getTS_hSpellDamagePlayer (gs : GameState) (ctx : EffectCtx) (e : EffectEntry)
    (j : Int) : getTS (handleSpellDamagePlayer gs ctx e).1 j = getTS gs j := by
  unfold handleSpellDamagePlayer
  repeat' (first | split | split_ifs | dsimp only)
  all_goals first
    | rfl
    | simp [getTS_damageP, getTS_setP, getTS_mk, getTS_fold]

theorem getTS_hSpellHealPlayer (gs : GameState) (ctx : EffectCtx) (e : EffectEntry)
    (j : Int) : getTS (handleSpellHealPlayer gs ctx e).1 j = getTS gs j := by
  unfold handleSpellHealPlayer
  dsimp only
  simp [getTS_healP]

theorem getTS_hSpellHealMonster (gs : GameState) (ctx : EffectCtx) (e : EffectEntry)
    (j : Int) : getTS (handleSpellHealMonster gs ctx e).1 j = getTS gs j := by
  unfold handleSpellHealMonster
  simp [getTS_healM]

theorem getTS_hSpellApplyStatus (gs : GameState) (ctx : EffectCtx) (e : EffectEntry)
    (j : Int) : getTS (handleSpellApplyStatus gs ctx e).1 j = getTS gs j := by
  unfold handleSpellApplyStatus
  simp [getTS_statusM]

theorem getTS_hSpellDrawCards (gs : GameState) (ctx : EffectCtx) (e : EffectEntry)
    (j : Int) : getTS (handleSpellDrawCards gs ctx e).1 j = getTS gs j := by
  unfold handleSpellDrawCards
  repeat' (first | split | split_ifs | dsimp only)
  all_goals first
    | rfl
    | simp [getTS_setP, getTS_mk, getTS_fold]


theorem getTS_hHeroActiveSoulRend (gs : GameState) (ctx : EffectCtx) (e : EffectEntry)
    (j : Int) : getTS (handleHeroActiveSoulRend gs ctx e).1 j = getTS gs j := by
  unfold handleHeroActiveSoulRend
  repeat' (first | split | split_ifs | dsimp only)
  all_goals first
    | rfl
    | simp [getTS_setP, getTS_setP, getTS_mk, getTS_fold]

theorem getTS_foldl_pres (j : Int)
    (step : GameState × List LogEvent → Int → GameState × List LogEvent)
    (hstep : ∀ acc a, getTS (step acc a).1 j = getTS acc.1 j) :
    ∀ (l : List Int) (acc : GameState × List LogEvent),
      getTS (List.foldl step acc l).1 j = getTS acc.1 j := by
  intro l
  induction l with
  | nil => intro acc; rfl
  | cons a rest ih =>
    intro acc
    rw [List.foldl_cons, ih (step acc a), hstep]

theorem getTS_hSpellBuffMonster (gs : GameState) (ctx : EffectCtx) (e : EffectEntry)
    (j : Int) : getTS (handleSpellBuffMonster gs ctx e).1 j = getTS gs j := by
  unfold handleSpellBuffMonster
  dsimp only
  split
  · dsimp only
    rw [getTS_foldl_pres j _ ?hs]
    case hs =>
      intro acc a
      dsimp only
      split_ifs
      · rfl
      · dsimp only
        rw [getTS_setP]
  · repeat' (first | split | split_ifs | dsimp only)
    all_goals first
      | rfl
      | simp [getTS_setP, getTS_mk, getTS_fold]

theorem getTS_hSpellHaste (gs : GameState) (ctx : EffectCtx) (e : EffectEntry)
    (j : Int) : getTS (handleSpellHaste gs ctx e).1 j = getTS gs j := by
  unfold handleSpellHaste
  repeat' (first | split | split_ifs | dsimp only)
  all_goals first
    | rfl
    | simp [getTS_setP, getTS_mk, getTS_fold]

theorem getTS_hHeroActiveDamage (gs : GameState) (ctx : EffectCtx) (e : EffectEntry)
    (j : Int) : getTS (handleHeroActiveDamage gs ctx e).1 j = getTS gs j := by
  unfold handleHeroActiveDamage
  repeat' (first | split | split_ifs | dsimp only)
  all_goals first
    | rfl
    | simp [getTS_damageP, getTS_damageM, getTS_setP, getTS_mk, getTS_fold]

theorem getTS_hHeroActiveFreeze (gs : GameState) (ctx : EffectCtx) (e : EffectEntry)
    (j : Int) : getTS (handleHeroActiveFreeze gs ctx e).1 j = getTS gs j := by
  unfold handleHeroActiveFreeze
  repeat' (first | split | split_ifs | dsimp only)
  all_goals first
    | rfl
    | simp [getTS_setP, getTS_mk, getTS_fold]

theorem getTS_hSpellCleanseMonster (gs : GameState) (ctx : EffectCtx) (e : EffectEntry)
    (j : Int) : getTS (handleSpellCleanseMonster gs ctx e).1 j = getTS gs j := by
  unfold handleSpellCleanseMonster
  repeat' (first | split | split_ifs | dsimp only)
  all_goals first
    | rfl
    | simp [getTS_setP, getTS_mk, getTS_fold]

theorem getTS_hSpellCounterSpell (gs : GameState) (ctx : EffectCtx) (e : EffectEntry)
    (j : Int) : getTS (handleSpellCounterSpell gs ctx e).1 j = getTS gs j := rfl

theorem getTS_hTrapReflectDamage (gs : GameState) (ctx : EffectCtx) (e : EffectEntry)
    (j : Int) : getTS (handleTrapReflectDamage gs ctx e).1 j = getTS gs j := by
  unfold handleTrapReflectDamage
  repeat' (first | split | split_ifs | dsimp only)
  all_goals first
    | rfl
    | simp [getTS_damageP, getTS_setP, getTS_mk, getTS_fold]

theorem getTS_hTrapApplyStatus (gs : GameState) (ctx : EffectCtx) (e : EffectEntry)
    (j : Int) : getTS (handleTrapApplyStatus gs ctx e).1 j = getTS gs j := by
  unfold handleTrapApplyStatus
  simp [getTS_statusM]

theorem getTS_hSpellReflectIncomingStatus (gs : GameState) (ctx : EffectCtx)
    (e : EffectEntry) (j : Int) :
    getTS (handleSpellReflectIncomingStatus gs ctx e).1 j = getTS gs j := by
  unfold handleSpellReflectIncomingStatus
  dsimp only
  simp [getTS_statusM]

theorem getTS_hSpellDuplicateIncomingStatus (gs : GameState) (ctx : EffectCtx)
    (e : EffectEntry) (j : Int) :
    getTS (handleSpellDuplicateIncomingStatus gs ctx e).1 j = getTS gs j := by
  unfold handleSpellDuplicateIncomingStatus
  dsimp only
  simp [getTS_statusM]

theorem getTS_hTrapNegateAttack (gs : GameState) (ctx : EffectCtx) (e : EffectEntry)
    (j : Int) : getTS (handleTrapNegateAttack gs ctx e).1 j = getTS gs j := by
  unfold handleTrapNegateAttack
  repeat' (first | split | split_ifs | dsimp only)
  all_goals first
    | rfl
    | simp [getTS_setP, getTS_mk, getTS_fold]

theorem getTS_hTrapPreventDestruction (gs : GameState) (ctx : EffectCtx) (e : EffectEntry)
    (j : Int) : getTS (handleTrapPreventDestruction gs ctx e).1 j = getTS gs j := by
  unfold handleTrapPreventDestruction
  repeat' (first | split | split_ifs | dsimp only)
  all_goals first
    | rfl
    | simp [getTS_setP, getTS_mk, getTS_fold]

theorem getTS_lookup (s : String) (h : KeywordHandler) (hl : lookupHandler s = some h) :
    ∀ (gs : GameState) (ctx : EffectCtx) (e : EffectEntry) (j : Int),
      getTS (h gs ctx e).1 j = getTS gs j := by
  unfold lookupHandler at hl
  split at hl <;>
    first
      | exact Option.noConfusion hl
      | (injection hl with hl2
         subst hl2
         intro gs ctx e j
         first
           | exact getTS_hSpellDamageMonster gs ctx e j
           | exact getTS_hSpellDamagePlayer gs ctx e j
           | exact getTS_hSpellHealPlayer gs ctx e j
           | exact getTS_hSpellHealMonster gs ctx e j
           | exact getTS_hSpellApplyStatus gs ctx e j
           | exact getTS_hSpellDrawCards gs ctx e j
           | exact getTS_hHeroActiveSoulRend gs ctx e j
           | exact getTS_hSpellBuffMonster gs ctx e j
           | exact getTS_hSpellHaste gs ctx e j
           | exact getTS_hHeroActiveDamage gs ctx e j
           | exact getTS_hHeroActiveFreeze gs ctx e j
           | exact getTS_hSpellCleanseMonster gs ctx e j
           | exact getTS_hSpellCounterSpell gs ctx e j
           | exact getTS_hTrapReflectDamage gs ctx e j
           | exact getTS_hTrapApplyStatus gs ctx e j
           | exact getTS_hSpellReflectIncomingStatus gs ctx e j
           | exact getTS_hSpellDuplicateIncomingStatus gs ctx e j
           | exact getTS_hTrapNegateAttack gs ctx e j
           | exact getTS_hTrapPreventDestruction gs ctx e j)

theorem getTS_handlerFor (e0 : EffectEntry) (h : KeywordHandler)
    (hh : handlerFor e0 = some h) :
    ∀ (gs : GameState) (ctx : EffectCtx) (e : EffectEntry) (j : Int),
      getTS (h gs ctx e).1 j = getTS gs j := by
  unfold handlerFor at hh
  split at hh
  · injection hh with hh2
    subst hh2
    rename_i h2 heq
    exact getTS_lookup _ _ heq
  · exact getTS_lookup _ _ hh

theorem getTS_resolveGo (ctx : EffectCtx) :
    ∀ (es : List EffectEntry) (gs : GameState) (acc : EffectResult) (j : Int),
      getTS (resolveEffectsGo ctx es gs acc).1 j = getTS gs j := by
  intro es
  induction es with
  | nil => intro gs acc j; rfl
  | cons e rest ih =>
    intro gs acc j
    rw [resolveEffectsGo]
    split_ifs with hk
    · exact ih gs acc j
    · rcases hh : handlerFor e with _ | h
      · dsimp only
        exact ih gs _ j
      · dsimp only
        split
        · dsimp only
          exact getTS_handlerFor e h hh gs ctx e j
        · rw [ih _ _ j]
          exact getTS_handlerFor e h hh gs ctx e j

theorem getTS_resolveCardEffects (gs : GameState) (ctx : EffectCtx) (j : Int) :
    getTS (resolveCardEffects gs ctx).1 j = getTS gs j := by
  unfold resolveCardEffects
  exact getTS_resolveGo ctx _ gs {} j

theorem getTS_checkLethal (gs : GameState) (reason : String) (j : Int) :
    getTS (checkLethalAfterNoncombat gs reason) j = getTS gs j := by
  unfold checkLethalAfterNoncombat
  repeat' (first | split | split_ifs | dsimp only)
  all_goals rfl

theorem getTS_moveDestroyed (j : Int) :
    ∀ (l : List (Int × Nat)) (gs : GameState),
      getTS (moveDestroyed gs l) j = getTS gs j := by
  intro l
  induction l with
  | nil => intro gs; rfl
  | cons a rest ih =>
    intro gs
    rw [moveDestroyed]
    rw [ih]
    repeat' (first | split | split_ifs | dsimp only)
    all_goals first
      | rfl
      | simp [getTS_setP, getTS_mk, getTS_fold]

theorem getTS_heroChargeGainFor (gs : GameState) (n : Nat) (pi : Int) (j : Int) :
    getTS (heroChargeGainFor gs n pi) j = getTS gs j := by
  unfold heroChargeGainFor
  repeat' (first | split | split_ifs | dsimp only)
  all_goals first
    | rfl
    | simp [getTS_setP, getTS_mk, getTS_fold]

theorem getTS_handleDestroyed (gs : GameState) (l : List (Int × Nat)) (j : Int) :
    getTS (handleDestroyedMonsters gs l) j = getTS gs j := by
  unfold handleDestroyedMonsters
  dsimp only
  rw [getTS_heroChargeGainFor, getTS_heroChargeGainFor, getTS_moveDestroyed]

theorem getTS_endTurnPassives (gs : GameState) (pi : Int) (j : Int) :
    getTS (applyEndTurnPassives gs pi) j = getTS gs j := by
  unfold applyEndTurnPassives
  repeat' (first | split | split_ifs | dsimp only)
  all_goals first
    | rfl
    | simp [getTS_setP, getTS_mk, getTS_fold]

theorem countersOk_iff (gs : GameState) :
    countersOk gs ↔ countersLe1 (getTS gs 1) ∧ countersLe1 (getTS gs 2) := Iff.rfl

theorem countersOk_of_getTS_eq {gs gs2 : GameState}
    (h : ∀ j : Int, getTS gs2 j = getTS gs j) (hok : countersOk gs) : countersOk gs2 := by
  rw [countersOk_iff] at hok ⊢
  rw [h 1, h 2]
  exact hok

theorem countersLe1_getTS (gs : GameState) (pi : Int) (hok : countersOk gs) :
    countersLe1 (getTS gs pi) := by
  rw [countersOk_iff] at hok
  unfold getTS
  split
  · exact hok.1
  · exact hok.2

theorem refreshedCounters_le1 (gs : GameState) (pi : Int) (hok : countersOk gs) :
    (refreshedCounters gs pi).summons ≤ 1 ∧ (refreshedCounters gs pi).spellsTraps ≤ 1 ∧
      (refreshedCounters gs pi).heroAbility ≤ 1 := by
  have h := countersLe1_getTS gs pi hok
  unfold refreshedCounters
  rcases hts : getTS gs pi with _ | t
  · dsimp only
    split_ifs <;> exact ⟨by simp, by simp, by simp⟩
  · rw [hts] at h
    unfold countersLe1 at h
    dsimp only
    split_ifs
    · exact ⟨by simp, by simp, by simp⟩
    · exact h

theorem countersOk_setTS (gs : GameState) (i : Int) (t : Option TurnCounters)
    (hok : countersOk gs) (ht : countersLe1 t) : countersOk (setTS gs i t) := by
  unfold setTS
  split
  · exact ⟨ht, hok.2⟩
  · exact ⟨hok.1, ht⟩

theorem countersOk_playTrap (gs : GameState) (pi : Int) (ptp : PlayTrapPayload)
    (gs2 : GameState) (hout : playTrapAction gs pi ptp = .ok gs2)
    (hok : countersOk gs) : countersOk gs2 := by
  unfold playTrapAction at hout
  repeat' (first | split at hout | dsimp only at hout)
  all_goals first
    | exact ActionOutcome.noConfusion hout
    | (injection hout with h
       subst h
       exact countersOk_setTS _ _ _
         (countersOk_of_getTS_eq (fun j => by simp [getTS_setP]) hok)
         ⟨by first | exact (refreshedCounters_le1 gs pi hok).1 | simp,
          by first | exact (refreshedCounters_le1 gs pi hok).2.1 | simp,
          by first | exact (refreshedCounters_le1 gs pi hok).2.2 | simp⟩)

theorem countersOk_playSpell (mode : String) (gs : GameState) (pi : Int)
    (ps : PlaySpellPayload) (gs2 : GameState)
    (hout : playSpellAction mode gs pi ps = .ok gs2)
    (hok : countersOk gs) : countersOk gs2 := by
  unfold playSpellAction at hout
  repeat' (first | split at hout | dsimp only at hout)
  all_goals first
    | exact ActionOutcome.noConfusion hout
    | (injection hout with h
       subst h
       exact countersOk_of_getTS_eq (fun j => getTS_checkLethal _ _ j)
         (countersOk_setTS _ _ _
           (countersOk_of_getTS_eq (fun j => by
             simp [getTS_setP, getTS_mk, getTS_fold, getTS_resolveCardEffects,
                   getTS_handleDestroyed]) hok)
           ⟨by first | exact (refreshedCounters_le1 gs pi hok).1 | simp,
            by first | exact (refreshedCounters_le1 gs pi hok).2.1 | simp,
            by first | exact (refreshedCounters_le1 gs pi hok).2.2 | simp⟩))

theorem countersOk_activateTrap (gs : GameState) (pi : Int) (atp : ActivateTrapPayload)
    (gs2 : GameState) (hout : activateTrapAction gs pi atp = .ok gs2)
    (hok : countersOk gs) : countersOk gs2 := by
  unfold activateTrapAction at hout
  repeat' (first | split at hout | dsimp only at hout)
  all_goals first
    | exact ActionOutcome.noConfusion hout
    | (injection hout with h
       subst h
       exact countersOk_of_getTS_eq (fun j => by
         simp [getTS_checkLethal, getTS_setP, getTS_mk, getTS_fold,
               getTS_resolveCardEffects, getTS_handleDestroyed]) hok)

theorem countersOk_activateHero (gs : GameState) (pi : Int)
    (aha : ActivateHeroAbilityPayload) (gs2 : GameState)
    (hout : activateHeroAbilityAction gs pi aha = .ok gs2)
    (hok : countersOk gs) : countersOk gs2 := by
  unfold activateHeroAbilityAction at hout
  repeat' (first | split at hout | dsimp only at hout)
  all_goals first
    | exact ActionOutcome.noConfusion hout
    | (injection hout with h
       subst h
       exact countersOk_setTS _ _ _
         (countersOk_of_getTS_eq (fun j => by
           simp [getTS_setP, getTS_mk, getTS_fold, getTS_resolveCardEffects,
                 getTS_handleDestroyed]) hok)
         ⟨by first | exact (refreshedCounters_le1 gs pi hok).1 | simp,
          by first | exact (refreshedCounters_le1 gs pi hok).2.1 | simp,
          by first | exact (refreshedCounters_le1 gs pi hok).2.2 | simp⟩)

theorem countersOk_playMonster (env : Env) (gs : GameState) (pi : Int)
    (pm : PlayMonsterPayload) (gs2 : GameState)
    (hout : playMonsterAction env gs pi pm = .ok gs2)
    (hok : countersOk gs) : countersOk gs2 := by
  unfold playMonsterAction at hout
  repeat' (first | split at hout | dsimp only at hout)
  all_goals first
    | exact ActionOutcome.noConfusion hout
    | (injection hout with h
       subst h
       exact countersOk_of_getTS_eq (fun j => getTS_update _ _ _ j)
         (countersOk_setTS _ _ _
           (countersOk_of_getTS_eq (fun j => by
             simp [getTS_setP, getTS_mk, getTS_fold, aura_getTS]) hok)
           ⟨by first | exact (refreshedCounters_le1 gs pi hok).1 | simp,
            by first | exact (refreshedCounters_le1 gs pi hok).2.1 | simp,
            by first | exact (refreshedCounters_le1 gs pi hok).2.2 | simp⟩))

theorem currentPlayer_setP (gs : GameState) (i : Int) (p : PlayerState) :
    (setP gs i p).currentPlayer = gs.currentPlayer := by
  unfold setP; split <;> rfl

theorem currentPlayer_setTS (gs : GameState) (i : Int) (t : Option TurnCounters) :
    (setTS gs i t).currentPlayer = gs.currentPlayer := by
  unfold setTS; split <;> rfl

theorem turn_setP (gs : GameState) (i : Int) (p : PlayerState) :
    (setP gs i p).turn = gs.turn := by
  unfold setP; split <;> rfl

theorem turn_setTS (gs : GameState) (i : Int) (t : Option TurnCounters) :
    (setTS gs i t).turn = gs.turn := by
  unfold setTS; split <;> rfl

theorem currentPlayer_endTurnPassives (gs : GameState) (pi : Int) :
    (applyEndTurnPassives gs pi).currentPlayer = gs.currentPlayer := by
  unfold applyEndTurnPassives
  repeat' (first | split | split_ifs | dsimp only)
  all_goals first
    | rfl
    | simp [currentPlayer_setP]

theorem turn_endTurnPassives (gs : GameState) (pi : Int) :
    (applyEndTurnPassives gs pi).turn = gs.turn := by
  unfold applyEndTurnPassives
  repeat' (first | split | split_ifs | dsimp only)
  all_goals first
    | rfl
    | simp [turn_setP]

theorem turnState1_setTS (gs : GameState) (i : Int) (t : Option TurnCounters) :
    (setTS gs i t).turnState1 = if i = 1 then t else gs.turnState1 := by
  unfold setTS; split_ifs with h <;> simp [h]

theorem turnState2_setTS (gs : GameState) (i : Int) (t : Option TurnCounters) :
    (setTS gs i t).turnState2 = if i = 1 then gs.turnState2 else t := by
  unfold setTS; split_ifs with h <;> simp [h]

theorem countersOk_endTurn (env : Env) (gs : GameState) (pi : Int) (gs2 : GameState)
    (hout : endTurnAction env gs pi = .ok gs2)
    (hok : countersOk gs) : countersOk gs2 := by
  unfold endTurnAction at hout
  dsimp only at hout
  injection hout with h
  subst h
  exact countersOk_of_getTS_eq (fun j => getTS_update _ _ _ j)
    (countersOk_setTS _ _ _
      (countersOk_of_getTS_eq (fun j => by
        simp [getTS_setP, getTS_mk, getTS_fold, getTS_endTurnPassives]) hok)
      (by simp [countersLe1]))

theorem endTurn_reset (env : Env) (gs : GameState) (pi : Int) (gs2 : GameState)
    (hout : endTurnAction env gs pi = .ok gs2) :
    gs2.currentPlayer = (if gs.currentPlayer = 1 then 2 else 1) ∧
    getTS gs2 gs2.currentPlayer = some { turn := gs2.turn } := by
  unfold endTurnAction at hout
  dsimp only at hout
  injection hout with h
  subst h
  constructor
  · simp [currentPlayer_setTS, currentPlayer_setP, currentPlayer_endTurnPassives]
  · by_cases hc : gs.currentPlayer = 1 <;>
      simp [hc, getTS_mk, getTS_fold, getTS_setTS_same, turnState1_setTS,
            turnState2_setTS, currentPlayer_setTS, currentPlayer_setP,
            turn_setTS, turn_setP, turn_endTurnPassives]

theorem getTS_setLog (gs : GameState) (L : List LogEvent) (j : Int) :
    getTS { gs with log := L } j = getTS gs j := by
  unfold getTS; split <;> rfl

theorem getTS_setSWL (gs : GameState) (st : String) (w : Option Int)
    (L : List LogEvent) (j : Int) :
    getTS { gs with status := st, winner := w, log := L } j = getTS gs j := by
  unfold getTS; split <;> rfl

theorem getTS_attackMonster_ok (mode : String) (gs : GameState) (pi : Int)
    (am : AttackMonsterPayload) (gs2 : GameState)
    (hout : attackMonsterAction mode gs pi am = .ok gs2) (j : Int) :
    getTS gs2 j = getTS gs j := by
  unfold attackMonsterAction at hout
  lift_lets at hout
  extract_lets dIdx atkP defP at hout
  split at hout
  · exact ActionOutcome.noConfusion hout
  next ai attacker heq =>
    split at hout
    · exact ActionOutcome.noConfusion hout
    split at hout
    · exact ActionOutcome.noConfusion hout
    split at hout
    · exact ActionOutcome.noConfusion hout
    next di defender heq2 =>
      lift_lets at hout
      extract_lets dTraps aHb atkV defender1 dHb defV dHa aHa defender2
        attacker2 oD oA aPH dPH atkP1 defP1 gsA dd ad dp1 gB ap1 gC gD
        atkDead defDead at hout
      have t1 : ∀ k : Int, getTS gsA k = getTS gs k := by
        intro k
        unfold gsA
        rw [getTS_setP, getTS_setP]
      have t2 : ∀ k : Int, getTS gB k = getTS gs k := by
        intro k
        unfold gB
        repeat' (first | split | dsimp only)
        all_goals first
          | exact t1 k
          | (rw [getTS_setP]; exact t1 k)
      have t3 : ∀ k : Int, getTS gC k = getTS gs k := by
        intro k
        unfold gC
        repeat' (first | split | dsimp only)
        all_goals first
          | exact t2 k
          | (rw [getTS_setP]; exact t2 k)
      have t4 : ∀ k : Int, getTS gD k = getTS gs k := by
        intro k
        unfold gD
        rw [getTS_mk, getTS_fold]
        exact t3 k
      split at hout
      · split at hout
        · exact ActionOutcome.noConfusion hout
        · exact ActionOutcome.noConfusion hout
      split at hout
      · split at hout
        · exact ActionOutcome.noConfusion hout
        · exact ActionOutcome.noConfusion hout
      split at hout
      · split at hout
        · exact ActionOutcome.noConfusion hout
        · exact ActionOutcome.noConfusion hout
      split at hout
      · injection hout with h
        subst h
        rw [getTS_setSWL]
        exact t4 j
      split at hout
      · injection hout with h
        subst h
        rw [getTS_setSWL]
        exact t4 j
      split at hout
      · injection hout with h
        subst h
        rw [getTS_setSWL]
        exact t4 j
      · injection hout with h
        subst h
        exact t4 j

theorem getTS_attackPlayer_ok (mode : String) (gs : GameState) (pi : Int)
    (ap : AttackPlayerPayload) (gs2 : GameState)
    (hout : attackPlayerAction mode gs pi ap = .ok gs2) (j : Int) :
    getTS gs2 j = getTS gs j := by
  unfold attackPlayerAction at hout
  lift_lets at hout
  extract_lets dIdx atkP defP at hout
  split at hout
  · exact ActionOutcome.noConfusion hout
  split at hout
  · exact ActionOutcome.noConfusion hout
  next ai attacker heq =>
    split at hout
    · exact ActionOutcome.noConfusion hout
    split at hout
    · exact ActionOutcome.noConfusion hout
    lift_lets at hout
    extract_lets avail atkV beforeHp afterHp attacker2 gsA gsB at hout
    have t1 : ∀ k : Int, getTS gsA k = getTS gs k := by
      intro k
      unfold gsA
      rw [getTS_setP, getTS_setP]
    have t2 : ∀ k : Int, getTS gsB k = getTS gs k := by
      intro k
      unfold gsB
      rw [getTS_mk, getTS_fold]
      exact t1 k
    split at hout
    · split at hout
      · exact ActionOutcome.noConfusion hout
      · exact ActionOutcome.noConfusion hout
    split at hout
    · injection hout with h
      subst h
      rw [getTS_setSWL]
      exact t2 j
    · injection hout with h
      subst h
      exact t2 j

theorem playMonster_limit (env : Env) (gs : GameState) (pi : Int)
    (pm : PlayMonsterPayload)
    (h : (refreshedCounters gs pi).summons ≥ 1) :
    playMonsterAction env gs pi pm = .err "Summon limit reached (1 per turn)" := by
  unfold playMonsterAction
  dsimp only
  rw [if_pos h]

theorem playSpell_limit (mode : String) (gs : GameState) (pi : Int)
    (ps : PlaySpellPayload)
    (h : (refreshedCounters gs pi).spellsTraps ≥ 1) :
    playSpellAction mode gs pi ps = .err "Spell/Trap play limit reached (1 per turn)" := by
  unfold playSpellAction
  dsimp only
  rw [if_pos h]

theorem playTrap_limit (gs : GameState) (pi : Int) (ptp : PlayTrapPayload)
    (h : (refreshedCounters gs pi).spellsTraps ≥ 1) :
    playTrapAction gs pi ptp = .err "Spell/Trap play limit reached" := by
  unfold playTrapAction
  dsimp only
  rw [if_pos h]

theorem activateHero_limit (gs : GameState) (pi : Int)
    (aha : ActivateHeroAbilityPayload)
    (h : (refreshedCounters gs pi).heroAbility ≥ 1) :
    activateHeroAbilityAction gs pi aha = .err "Hero ability already used this turn" := by
  unfold activateHeroAbilityAction
  dsimp only
  rw [if_pos h]

theorem countersOk_core (env : Env) (row : MatchRow) (pi : Int)
    (act : BattleAction) (gs2 : GameState)
    (hout : battleActionCore env row pi act = .ok gs2)
    (hok : countersOk row.state) : countersOk gs2 := by
  unfold battleActionCore at hout
  repeat' (first | split at hout | dsimp only at hout)
  all_goals first
    | exact ActionOutcome.noConfusion hout
    | exact countersOk_endTurn _ _ _ _ hout hok
    | exact countersOk_playMonster _ _ _ _ _ hout hok
    | exact countersOk_playSpell _ _ _ _ _ hout hok
    | exact countersOk_playTrap _ _ _ _ hout hok
    | exact countersOk_activateTrap _ _ _ _ hout hok
    | exact countersOk_activateHero _ _ _ _ hout hok
    | exact countersOk_of_getTS_eq
        (fun j => getTS_attackMonster_ok _ _ _ _ _ hout j) hok
    | exact countersOk_of_getTS_eq
        (fun j => getTS_attackPlayer_ok _ _ _ _ _ hout j) hok


/-- Claim C6: the per-turn usage counters (summons, spells/traps, hero
ability) never exceed 1 — every completed action preserves the invariant,
and with a counter already at 1 a second `PLAY_MONSTER`, `PLAY_SPELL`,
`PLAY_TRAP` or `ACTIVATE_HERO_ABILITY` is rejected with the code's limit
message — and `END_TURN` hands the turn to the other player and installs a
fresh all-zero counter record for the new active player. -/
theorem C6_turn_counters (env : Env) (row : MatchRow) (pi : Int)
    (hrow : row.rowStatus = "in_progress") (hst : row.state.status = "in_progress")
    (hcur : row.state.currentPlayer = pi) (hpi : pi = 1 ∨ pi = 2)
    (hok : countersOk row.state) :
    (∀ act gs2, battleActionCore env row pi act = .ok gs2 → countersOk gs2) ∧
    (∀ pm, (refreshedCounters row.state pi).summons ≥ 1 →
      battleActionCore env row pi (.playMonster pm) =
        .err "Summon limit reached (1 per turn)") ∧
    (∀ ps, (refreshedCounters row.state pi).spellsTraps ≥ 1 →
      battleActionCore env row pi (.playSpell ps) =
        .err "Spell/Trap play limit reached (1 per turn)") ∧
    (∀ ptp, (refreshedCounters row.state pi).spellsTraps ≥ 1 →
      battleActionCore env row pi (.playTrap ptp) =
        .err "Spell/Trap play limit reached") ∧
    (∀ aha, (refreshedCounters row.state pi).heroAbility ≥ 1 →
      battleActionCore env row pi (.activateHeroAbility aha) =
        .err "Hero ability already used this turn") ∧
    (∀ gs2, battleActionCore env row pi .endTurn = .ok gs2 →
      gs2.currentPlayer = (if pi = 1 then 2 else 1) ∧
      getTS gs2 gs2.currentPlayer = some { turn := gs2.turn }) := by
  have hpre : ∀ act, battleActionCore env row pi act =
      match act with
      | .endTurn => endTurnAction env row.state pi
      | .playMonster pm => playMonsterAction env row.state pi pm
      | .playSpell ps => playSpellAction row.mode row.state pi ps
      | .playTrap ptp => playTrapAction row.state pi ptp
      | .activateTrap atp => activateTrapAction row.state pi atp
      | .activateHeroAbility aha => activateHeroAbilityAction row.state pi aha
      | .attackMonster am => attackMonsterAction row.mode row.state pi am
      | .attackPlayer app2 => attackPlayerAction row.mode row.state pi app2 := by
    intro act
    unfold battleActionCore
    rw [if_neg (by simp [hrow]), if_neg (by simp [hst]), if_neg (by simp [hcur]),
        if_neg (by rcases hpi with h1 | h1 <;> simp [h1])]
    try rfl
  refine ⟨fun act gs2 hout => countersOk_core env row pi act gs2 hout hok,
    ?_, ?_, ?_, ?_, ?_⟩
  · intro pm h
    rw [hpre]
    exact playMonster_limit env row.state pi pm h
  · intro ps h
    rw [hpre]
    exact playSpell_limit row.mode row.state pi ps h
  · intro ptp h
    rw [hpre]
    exact playTrap_limit row.state pi ptp h
  · intro aha h
    rw [hpre]
    exact activateHero_limit row.state pi aha h
  · intro gs2 hout
    rw [hpre] at hout
    have h := endTurn_reset env row.state pi gs2 hout
    rw [hcur] at h
    exact h

theorem C6_turn_counters_witness :
    battleActionCore idEnv c6Row 1
        (.playMonster { cardInstanceId := "X", zoneIndex := 0 }) =
      .err "Summon limit reached (1 per turn)" ∧
    battleActionCore idEnv c6Row 1 (.playSpell { cardInstanceId := "X" }) =
      .err "Spell/Trap play limit reached (1 per turn)" ∧
    battleActionCore idEnv c6Row 1 (.playTrap { cardInstanceId := "X", zoneIndex := 0 }) =
      .err "Spell/Trap play limit reached" ∧
    battleActionCore idEnv c6Row 1 (.activateHeroAbility {}) =
      .err "Hero ability already used this turn" := by
  have h := C6_turn_counters idEnv c6Row 1 rfl rfl rfl (Or.inl rfl)
    ⟨⟨by decide, by decide, by decide⟩, trivial⟩
  exact ⟨h.2.1 _ (by decide), h.2.2.1 _ (by decide), h.2.2.2.1 _ (by decide),
         h.2.2.2.2.1 _ (by decide)⟩

end Squall
